import Mathlib

/-!
# ModbusScope main window: a shallow embedding of `src/dialogs/mainwindow.cpp`

The development embeds the presentation coordinator (`MainWindow`) of ModbusScope:
its slots become pure functions on an explicit `State` that gathers the model
objects the window owns (gui model, graph data model, note model, communication
manager, settings) together with the widgets the slots write to.  Answers of the
user to message boxes and results reported by collaborators are explicit
arguments of the slot that asks for them.
-/

namespace ModbusScope

/-! ## Machine integers -/

/-- Value held by a `qint64` after an operation whose mathematical result is `x`
(two's complement wrap-around to 64 bits). -/
def wrapInt64 (x : Int) : Int := (x + 2 ^ 63) % 2 ^ 64 - 2 ^ 63

/-- Conversion of an integer value to `quint32`: reduction modulo `2 ^ 32`. -/
def toQuint32 (x : Int) : Nat := (x % 2 ^ 32).toNat

/-! ## `QString::arg`

`QString::arg` is a Qt library routine: it replaces every occurrence of the
lowest numbered place marker (`%1` .. `%99`, a percent sign followed by one or
two decimal digits) by the argument text.  The model works on the characters of
the string; the locale flag `%L1` is not used by the program and not modelled. -/

/-- Place marker number read right after a percent sign, with the number of
digits it takes up (one or two). -/
def markerAt : List Char → Option (Nat × Nat)
  | [] => none
  | [d1] => if d1.isDigit then some (d1.toNat - 48, 1) else none
  | d1 :: d2 :: _ =>
    if d1.isDigit then
      if d2.isDigit then some ((d1.toNat - 48) * 10 + (d2.toNat - 48), 2)
      else some (d1.toNat - 48, 1)
    else none

/-- Lowest place marker number that occurs in the text, if any. -/
def lowestMarker : List Char → Option Nat
  | [] => none
  | c :: cs =>
    if c = '%' then
      match markerAt cs, lowestMarker cs with
      | some (n, _), some k => some (min n k)
      | some (n, _), none => some n
      | none, r => r
    else lowestMarker cs

/-- Replace every occurrence of place marker `k` by the text `a`.  The counter
is the number of marker digits still to be skipped. -/
def replaceMarker (k : Nat) (a : List Char) : Nat → List Char → List Char
  | _, [] => []
  | skip + 1, _ :: cs => replaceMarker k a skip cs
  | 0, c :: cs =>
    if c = '%' then
      match markerAt cs with
      | some (n, len) =>
        if n = k then a ++ replaceMarker k a len cs else c :: replaceMarker k a 0 cs
      | none => c :: replaceMarker k a 0 cs
    else c :: replaceMarker k a 0 cs

/-- Character level `QString::arg`: a text without place marker is returned
unchanged. -/
def argChars (s a : List Char) : List Char :=
  match lowestMarker s with
  | some k => replaceMarker k a 0 s
  | none => s

/-- The call `s.arg(a)` of `QString::arg(const QString &)`. -/
def qarg (s a : String) : String := String.mk (argChars s.toList a.toList)

/-- The call `s.arg(n)` for an unsigned number, rendered in base ten. -/
def qargNat (s : String) (n : Nat) : String := qarg s (toString n)

/-! ## Constants of `MainWindow` -/

/-- Text `_cStateRunning`. -/
def cStateRunning : String := "Running"
/-- Text `_cStateStopped`. -/
def cStateStopped : String := "Stopped"
/-- Text `_cStateDataLoaded`. -/
def cStateDataLoaded : String := "Data File loaded"
/-- Text `_cStatsTemplate`. -/
def cStatsTemplate : String := "Success: %1\tErrors: %2"
/-- Text `_cRuntime`. -/
def cRuntime : String := "Runtime: %1"

/-! ## Elapsed time of `MainWindow::updateRuntime` -/

/-- The string `strTimePassed` built by `updateRuntime` from the current time and
the communication start time (both in milliseconds since the epoch). -/
def strTimePassed (now communicationStartTime : Int) : String :=
  let timePassed0 : Int := wrapInt64 (now - communicationStartTime)
  let timePassed1 : Int := timePassed0.tdiv 1000
  let h : Nat := toQuint32 (timePassed1.tdiv 3600)
  let timePassed2 : Int := timePassed1.tmod 3600
  let m : Nat := toQuint32 (timePassed2.tdiv 60)
  let timePassed3 : Int := timePassed2.tmod 60
  let s : Nat := toQuint32 timePassed3
  qargNat (qargNat (qargNat "%1 hours, %2 minutes %3 seconds" h) m) s

/-! ## Data model -/

/-- Application phase, the enumeration `GuiModel::INIT`, `STARTED`, `STOPPED`,
`DATA_LOADED` (the phases Idle, Running, Stopped, DataLoaded). -/
inductive GuiState
  | INIT
  | STARTED
  | STOPPED
  | DATA_LOADED
  deriving DecidableEq, Repr

/-- Axis scaling modes, the enumeration `BasicGraphView::AxisScaleOptions`. -/
inductive AxisScaleOptions
  | SCALE_AUTO
  | SCALE_SLIDING
  | SCALE_MINMAX
  | SCALE_WINDOW_AUTO
  | SCALE_MANUAL
  deriving DecidableEq, Repr

/-- Buttons of `QMessageBox::StandardButton` that the window offers or tests. -/
inductive StandardButton
  | Yes
  | No
  | Cancel
  | Discard
  | Save
  deriving DecidableEq, Repr

/-- One channel of the graph data model.  The colour is kept as an RGB number. -/
structure GraphData where
  id : Nat := 0
  active : Bool := true
  visible : Bool := true
  label : String := ""
  color : Nat := 0
  deriving DecidableEq, Repr

/-- One user note; the coordinates stand for the plot key and value and are
never computed with. -/
structure Note where
  keyData : Int := 0
  valueData : Int := 0
  text : String := ""
  deriving DecidableEq, Repr

/-- Fields of the gui model (`GuiModel`) that the window reads or writes. -/
structure GuiModel where
  guiState : GuiState := GuiState.INIT
  projectFilePath : String := ""
  dataFilePath : String := ""
  lastDir : String := ""
  windowTitleDetail : String := ""
  xAxisScalingMode : AxisScaleOptions := AxisScaleOptions.SCALE_AUTO
  yAxisScalingMode : AxisScaleOptions := AxisScaleOptions.SCALE_AUTO
  communicationSuccessCount : Nat := 0
  communicationErrorCount : Nat := 0
  communicationStartTime : Int := 0
  frontGraph : Nat := 0
  cursorValues : Bool := false
  deriving DecidableEq, Repr

/-- A `QAction` of one of the two per-channel menus. -/
structure MenuEntry where
  data : Nat := 0
  text : String := ""
  icon : Nat := 0
  checkable : Bool := false
  checked : Bool := false
  visible : Bool := true
  grouped : Bool := false
  deriving DecidableEq, Repr

/-- Radio buttons of the x axis scaling group. -/
inductive XRadio
  | radioXFullScale
  | radioXSliding
  | radioXManual
  deriving DecidableEq, Repr

/-- Radio buttons of the y axis scaling group. -/
inductive YRadio
  | radioYFullScale
  | radioYMinMax
  | radioYWindowScale
  | radioYManual
  deriving DecidableEq, Repr

/-- Widgets of the main window that the slots write to: the three status bar
labels, the enabled flag of the menu actions, the two per-channel menus, the
axis radio buttons and the window title. -/
structure View where
  statusState : String := cStateStopped
  statusRuntime : String := ""
  statusRuntimeVisible : Bool := true
  statusStats : String := ""
  statusStatsVisible : Bool := true
  actionStop : Bool := true
  actionStart : Bool := true
  actionConnectionSettings : Bool := true
  actionLogSettings : Bool := true
  actionRegisterSettings : Bool := true
  actionImportDataFile : Bool := true
  actionLoadProjectFile : Bool := true
  actionReloadProjectFile : Bool := true
  actionExportDataCsv : Bool := true
  actionExportImage : Bool := true
  actionExportSettings : Bool := true
  graphShowHide : List MenuEntry := []
  graphShowHideEnabled : Bool := true
  graphBringToFront : List MenuEntry := []
  graphBringToFrontEnabled : Bool := true
  xRadio : XRadio := XRadio.radioXFullScale
  yRadio : YRadio := YRadio.radioYFullScale
  windowTitle : String := ""
  deriving DecidableEq, Repr

/-- Change notifications (Qt signals) of the three stores that reach the window. -/
inductive Signal
  | removed (id : Nat)
  | notesCleared
  | guiStateChanged (st : GuiState)
  | dataFilePathChanged
  | projectFilePathChanged
  | windowTitleChanged
  | xAxisScalingChanged
  | yAxisScalingChanged
  | communicationStatsChanged
  | visibilityChanged (graphIdx : Nat)
  | frontGraphChanged
  | cursorValuesChanged
  deriving DecidableEq, Repr

/-- A delivered notification together with what a subscriber reading the stores
at delivery time sees: the number of channels in the registry, the number of
active channels and the number of notes. -/
structure Emission where
  signal : Signal
  seenChannels : Nat
  seenActive : Nat
  seenNotes : Nat
  deriving DecidableEq, Repr

/-- Invocations of collaborators whose bodies are outside the window (transport
client, file handlers, dialogs, plot and legend). -/
inductive Call
  | startCommunication
  | stopCommunication
  | resetCommunicationStats
  | clearResults
  | clearMarkersState
  | rewriteDataFile
  | clearLegendData
  | enableExporterDuringLog
  | disableExporterDuringLog
  | showError (msg : String)
  | loadProjectFile (path : String)
  | loadDataFile (path : String)
  | registerDialogExec (mbcFile : String)
  | updateNoteLines (path : String)
  | question (title : String)
  deriving DecidableEq, Repr

/-- Everything the slots of the window read or write: the gui model, the graph
data model (`graphs`), the note model (`notes` with its updated flag), the
communication manager flag, the log setting, the exporter flag, the widgets,
the one-shot timers still pending (by delay in milliseconds), the reading of the
system clock (`QDateTime::currentMSecsSinceEpoch`), and two histories: delivered
notifications and collaborator invocations, both in program order. -/
structure State where
  gui : GuiModel := {}
  graphs : List GraphData := []
  notes : List Note := []
  notesDataUpdated : Bool := false
  commActive : Bool := false
  writeDuringLog : Bool := false
  exporterEnabled : Bool := false
  view : View := {}
  pendingTicks : List Nat := []
  clock : Int := 0
  trace : List Emission := []
  calls : List Call := []
  deriving DecidableEq, Repr

/-- The close event handed to `closeEvent`, with its accepted flag. -/
structure QCloseEvent where
  accepted : Bool := true
  deriving DecidableEq, Repr

/-! ## `QFileInfo` and `QString::toLower`

Qt library routines, modelled from their documentation on paths that use the
separator `/`. -/

/-- Characters after the last occurrence of the separator, or the whole text
when the separator does not occur. -/
def afterLast (sep : Char) (cs : List Char) : List Char :=
  ((cs.reverse).takeWhile (fun c => c != sep)).reverse

/-- Name of the file without the directory part (`QFileInfo::fileName`). -/
def fileName (path : String) : String := String.mk (afterLast '/' path.toList)

/-- Directory part of the path (`QFileInfo::dir().absolutePath()`): the text in
front of the last separator, and the root directory for a file directly in it.
The dropped file comes as an absolute local path; the resolution of a relative
path against the working directory is not modelled. -/
def dirPath (path : String) : String :=
  let d := (((path.toList.reverse).dropWhile (fun c => c != '/')).drop 1).reverse
  if d.isEmpty && path.toList.head? == some '/' then "/" else String.mk d

/-- All characters of the file name after its first dot, empty when the name has
no dot (`QFileInfo::completeSuffix`). -/
def completeSuffix (path : String) : String :=
  String.mk (((afterLast '/' path.toList).dropWhile (fun c => c != '.')).drop 1)

/-- All characters of the file name after its last dot, empty when the name has
no dot (`QFileInfo::suffix`). -/
def suffix (path : String) : String :=
  if '.' ∈ afterLast '/' path.toList then
    String.mk (afterLast '.' (afterLast '/' path.toList))
  else ""

/-- Lower-case copy of a text (`QString::toLower`), on the ASCII letters. -/
def toLower (t : String) : String := String.mk (t.toList.map Char.toLower)

/-! ## Graph data model: read accessors -/

/-- Modelled from the spec: the accessor `GraphDataModel::activeCount` is absent;
it is the number of channels whose active flag is set. -/
def activeCount (graphs : List GraphData) : Nat := (graphs.filter (fun g => g.active)).length

/-- Positions of the active channels among the listed ones, in order, when the
first listed channel sits at position `k` of the full sequence. -/
def activePositionsFrom : Nat → List GraphData → List Nat
  | _, [] => []
  | k, g :: gs =>
    if g.active then k :: activePositionsFrom (k + 1) gs else activePositionsFrom (k + 1) gs

/-- Positions in the full channel sequence of the active channels, in insertion
order: the derived index that maps an active index to a full index. -/
def activePositions (graphs : List GraphData) : List Nat := activePositionsFrom 0 graphs

/-- Modelled from the spec: the accessor `GraphDataModel::activeGraphIndexList`
is absent; it lists the positions in the full channel sequence of the active
channels, in insertion order.  The window receives them in a `QList<quint16>`,
so each position is held modulo `2 ^ 16`. -/
def activeGraphIndexList (graphs : List GraphData) : List Nat :=
  (activePositions graphs).map (fun i => i % 2 ^ 16)

/-- Modelled from the spec: the accessor `GraphDataModel::isActive` is absent; it
is the active flag of the channel at a position of the full sequence. -/
def graphIsActive (graphs : List GraphData) (idx : Nat) : Bool :=
  ((graphs.get? idx).map (fun g => g.active)).getD false

/-- Modelled from the spec: the conversion
`GraphDataModel::convertToActiveGraphIndex` is absent; for an active channel it
is the number of active channels in front of it, and it fails (reports "not
active") for an inactive or absent channel. -/
def convertToActiveGraphIndex (graphs : List GraphData) (idx : Nat) : Option Nat :=
  if graphIsActive graphs idx then some (activeCount (graphs.take idx)) else none

/-- Modelled from the spec: the conversion `GraphDataModel::convertToGraphIndex`
is absent; it is the position in the full sequence of the channel with the given
active index, and it fails when there is no such active channel. -/
def convertToGraphIndex (graphs : List GraphData) (activeIdx : Nat) : Option Nat :=
  (activePositions graphs).get? activeIdx

/-- Modelled from the spec: the accessor `GraphDataModel::label` is absent; it is
the label of the channel at a position of the full sequence. -/
def graphLabel (graphs : List GraphData) (idx : Nat) : String :=
  ((graphs.get? idx).map (fun g => g.label)).getD ""

/-- Modelled from the spec: the accessor `GraphDataModel::color` is absent; it is
the colour of the channel at a position of the full sequence. -/
def graphColor (graphs : List GraphData) (idx : Nat) : Nat :=
  ((graphs.get? idx).map (fun g => g.color)).getD 0

/-- Modelled from the spec: the accessor `GraphDataModel::isVisible` is absent;
it is the visible flag of the channel at a position of the full sequence. -/
def graphIsVisible (graphs : List GraphData) (idx : Nat) : Bool :=
  ((graphs.get? idx).map (fun g => g.visible)).getD false

/-! ## Notification delivery and handlers of the window -/

/-- Record the delivery of a notification, with the store sizes a subscriber
sees at that moment. -/
def emit (sig : Signal) (s : State) : State :=
  { s with trace := s.trace ++ [⟨sig, s.graphs.length, activeCount s.graphs, s.notes.length⟩] }

/-- Record the invocation of a collaborator. -/
def call (c : Call) (s : State) : State :=
  { s with calls := s.calls ++ [c] }

/-- Slot `MainWindow::updateWindowTitle`.  Modelled from the spec: the accessor
`GuiModel::windowTitle` is absent and the spec gives no title format, so the
title shown is the detail part kept by the gui model. -/
def updateWindowTitle (s : State) : State :=
  { s with view := { s.view with windowTitle := s.gui.windowTitleDetail } }

/-- Modelled from the spec: the setter `GuiModel::setWindowTitleDetail` is
absent; writing the stored value again is a no-op without notification,
otherwise the value is stored and `windowTitleChanged` is delivered to
`updateWindowTitle`. -/
def setWindowTitleDetail (d : String) (s : State) : State :=
  if s.gui.windowTitleDetail = d then s
  else updateWindowTitle (emit Signal.windowTitleChanged
    { s with gui := { s.gui with windowTitleDetail := d } })

/-- Slot `MainWindow::dataFileLoaded`. -/
def dataFileLoaded (s : State) : State :=
  if s.gui.dataFilePath.isEmpty then setWindowTitleDetail "" s
  else setWindowTitleDetail (fileName s.gui.dataFilePath) s

/-- Slot `MainWindow::projectFileLoaded`. -/
def projectFileLoaded (s : State) : State :=
  if s.gui.projectFilePath.isEmpty then
    let s1 := setWindowTitleDetail "" s
    { s1 with view := { s1.view with actionReloadProjectFile := false } }
  else
    let s1 := setWindowTitleDetail (fileName s.gui.projectFilePath) s
    { s1 with view := { s1.view with actionReloadProjectFile := true } }

/-- Modelled from the spec: the setter `GuiModel::setDataFilePath` is absent;
writing the stored value again is a no-op without notification, otherwise the
value is stored and `dataFilePathChanged` is delivered to `dataFileLoaded`. -/
def setDataFilePath (p : String) (s : State) : State :=
  if s.gui.dataFilePath = p then s
  else dataFileLoaded (emit Signal.dataFilePathChanged
    { s with gui := { s.gui with dataFilePath := p } })

/-- Modelled from the spec: the setter `GuiModel::setProjectFilePath` is absent;
writing the stored value again is a no-op without notification, otherwise the
value is stored and `projectFilePathChanged` is delivered to
`projectFileLoaded`. -/
def setProjectFilePath (p : String) (s : State) : State :=
  if s.gui.projectFilePath = p then s
  else projectFileLoaded (emit Signal.projectFilePathChanged
    { s with gui := { s.gui with projectFilePath := p } })

/-- Modelled from the spec: the setter `GuiModel::setLastDir` is absent; it
stores the directory and has no subscriber in the window. -/
def setLastDir (d : String) (s : State) : State :=
  { s with gui := { s.gui with lastDir := d } }

/-- Slot `MainWindow::updateStats`. -/
def updateStats (s : State) : State :=
  { s with view := { s.view with
      statusStats := qargNat (qargNat cStatsTemplate s.gui.communicationSuccessCount)
        s.gui.communicationErrorCount } }

/-- Slot `MainWindow::updatexAxisSlidingMode`. -/
def updatexAxisSlidingMode (s : State) : State :=
  if s.gui.xAxisScalingMode = AxisScaleOptions.SCALE_AUTO then
    { s with view := { s.view with xRadio := XRadio.radioXFullScale } }
  else if s.gui.xAxisScalingMode = AxisScaleOptions.SCALE_SLIDING then
    { s with view := { s.view with xRadio := XRadio.radioXSliding } }
  else
    { s with view := { s.view with xRadio := XRadio.radioXManual } }

/-- Slot `MainWindow::updateyAxisSlidingMode`. -/
def updateyAxisSlidingMode (s : State) : State :=
  if s.gui.yAxisScalingMode = AxisScaleOptions.SCALE_AUTO then
    { s with view := { s.view with yRadio := YRadio.radioYFullScale } }
  else if s.gui.yAxisScalingMode = AxisScaleOptions.SCALE_MINMAX then
    { s with view := { s.view with yRadio := YRadio.radioYMinMax } }
  else if s.gui.yAxisScalingMode = AxisScaleOptions.SCALE_WINDOW_AUTO then
    { s with view := { s.view with yRadio := YRadio.radioYWindowScale } }
  else
    { s with view := { s.view with yRadio := YRadio.radioYManual } }

/-- Modelled from the spec: the setter `GuiModel::setxAxisScale` is absent;
writing the stored mode again is a no-op without notification, otherwise the
mode is stored and `xAxisScalingChanged` is delivered to
`updatexAxisSlidingMode`. -/
def setxAxisScale (m : AxisScaleOptions) (s : State) : State :=
  if s.gui.xAxisScalingMode = m then s
  else updatexAxisSlidingMode (emit Signal.xAxisScalingChanged
    { s with gui := { s.gui with xAxisScalingMode := m } })

/-- Modelled from the spec: the setter `GuiModel::setyAxisScale` is absent;
writing the stored mode again is a no-op without notification, otherwise the
mode is stored and `yAxisScalingChanged` is delivered to
`updateyAxisSlidingMode`. -/
def setyAxisScale (m : AxisScaleOptions) (s : State) : State :=
  if s.gui.yAxisScalingMode = m then s
  else updateyAxisSlidingMode (emit Signal.yAxisScalingChanged
    { s with gui := { s.gui with yAxisScalingMode := m } })

/-- Entry of the show/hide menu built by `rebuildGraphMenu` for the channel at
position `graphIdx`, placed at `activeIdx`. -/
def showHideEntry (graphs : List GraphData) (activeIdx graphIdx : Nat) : MenuEntry :=
  { data := activeIdx
    text := graphLabel graphs graphIdx
    icon := graphColor graphs graphIdx
    checkable := true
    checked := graphIsVisible graphs graphIdx
    visible := true
    grouped := false }

/-- Entry of the bring-to-front menu built by `rebuildGraphMenu` for the channel
at position `graphIdx`, placed at `activeIdx`. -/
def bringToFrontEntry (graphs : List GraphData) (activeIdx graphIdx : Nat) : MenuEntry :=
  { data := activeIdx
    text := graphLabel graphs graphIdx
    icon := graphColor graphs graphIdx
    checkable := true
    checked := false
    visible := true
    grouped := true }

/-- Slot `MainWindow::rebuildGraphMenu`: both menus are emptied and refilled from
the list of active channels; they are enabled when that list is not empty. -/
def rebuildGraphMenu (s : State) : State :=
  let activeGraphList := activeGraphIndexList s.graphs
  { s with view := { s.view with
      graphShowHide := activeGraphList.enum.map (fun p => showHideEntry s.graphs p.1 p.2)
      graphBringToFront := activeGraphList.enum.map (fun p => bringToFrontEntry s.graphs p.1 p.2)
      graphShowHideEnabled := decide (activeGraphList.length > 0)
      graphBringToFrontEnabled := decide (activeGraphList.length > 0) } }

/-- Slot `MainWindow::updateGuiState`, the handler of `guiStateChanged`. -/
def updateGuiState (s : State) : State :=
  if s.gui.guiState = GuiState.INIT then
    let s1 : State := { s with view := { s.view with
      statusState := cStateStopped
      actionStop := false
      actionConnectionSettings := true
      actionLogSettings := true
      actionRegisterSettings := true
      actionStart := true
      actionImportDataFile := true
      actionLoadProjectFile := true
      actionExportDataCsv := false
      actionExportImage := false
      actionExportSettings := true
      statusRuntime := qarg cRuntime "0 hours, 0 minutes 0 seconds"
      statusRuntimeVisible := true
      statusStats := qargNat (qargNat cStatsTemplate 0) 0 } }
    setProjectFilePath "" (setDataFilePath "" s1)
  else if s.gui.guiState = GuiState.STARTED then
    { s with view := { s.view with
      statusState := cStateRunning
      actionStop := true
      actionConnectionSettings := false
      actionLogSettings := false
      actionRegisterSettings := false
      actionStart := false
      actionImportDataFile := false
      actionLoadProjectFile := false
      actionExportDataCsv := false
      actionExportSettings := false
      actionExportImage := false
      actionReloadProjectFile := false
      statusRuntime := qarg cRuntime "0 hours, 0 minutes 0 seconds"
      statusRuntimeVisible := true
      statusStats := qargNat (qargNat cStatsTemplate s.gui.communicationSuccessCount)
        s.gui.communicationErrorCount } }
  else if s.gui.guiState = GuiState.STOPPED then
    { s with view := { s.view with
      statusState := cStateStopped
      actionStop := false
      actionConnectionSettings := true
      actionLogSettings := true
      actionRegisterSettings := true
      actionStart := true
      actionImportDataFile := true
      actionLoadProjectFile := true
      actionExportDataCsv := true
      actionExportSettings := true
      actionExportImage := true
      actionReloadProjectFile := !s.gui.projectFilePath.isEmpty } }
  else if s.gui.guiState = GuiState.DATA_LOADED then
    { s with view := { s.view with
      statusState := cStateDataLoaded
      actionStop := false
      actionConnectionSettings := true
      actionLogSettings := true
      actionRegisterSettings := true
      actionStart := true
      actionImportDataFile := true
      actionLoadProjectFile := true
      actionExportDataCsv := false
      actionExportSettings := false
      actionExportImage := true
      statusRuntime := ""
      statusRuntimeVisible := false
      statusStats := ""
      statusStatsVisible := false
      actionReloadProjectFile := false } }
  else s

/-! ## Mutators of the stores

The bodies of `GuiModel`, `GraphDataModel`, `NoteModel`, `CommunicationManager`
and `DataFileHandler` live outside `mainwindow.cpp`; their mutators follow the
specification of the stores. -/

/-- Modelled from the spec: the transition table of the lifecycle state machine
behind `GuiModel::setGuiState`, which is absent.  Legal are Idle to Running,
Running to Stopped, Stopped to Running, Stopped or Idle to DataLoaded, and
DataLoaded to Idle; every other transition is illegal. -/
def transitionLegal : GuiState → GuiState → Bool
  | GuiState.INIT, GuiState.STARTED => true
  | GuiState.STARTED, GuiState.STOPPED => true
  | GuiState.STOPPED, GuiState.STARTED => true
  | GuiState.STOPPED, GuiState.DATA_LOADED => true
  | GuiState.INIT, GuiState.DATA_LOADED => true
  | GuiState.DATA_LOADED, GuiState.INIT => true
  | _, _ => false

/-- Modelled from the spec: what the lifecycle state machine records when a legal
transition is taken.  Entering Running stamps the communication start time with
the clock; entering DataLoaded clears the counters and the start time. -/
def enterState (st : GuiState) (clock : Int) (g : GuiModel) : GuiModel :=
  match st with
  | GuiState.STARTED => { g with guiState := st, communicationStartTime := clock }
  | GuiState.DATA_LOADED =>
    { g with guiState := st, communicationSuccessCount := 0, communicationErrorCount := 0,
             communicationStartTime := 0 }
  | _ => { g with guiState := st }

/-- Modelled from the spec: the mutator `GuiModel::setGuiState` is absent.
Writing the current phase again is a no-op; an illegal transition is rejected
with no state change and no notification (the callers in the window discard any
rejection signal); a legal transition is recorded and `guiStateChanged` is
delivered at once to the handler `updateGuiState`. -/
def setGuiState (st : GuiState) (s : State) : State :=
  if s.gui.guiState = st then s
  else if transitionLegal s.gui.guiState st = false then s
  else updateGuiState (emit (Signal.guiStateChanged st)
    { s with gui := enterState st s.clock s.gui })

/-- Modelled from the spec: removal of the listed channels from the front of the
registry, one at a time.  Each removal of an active channel is followed by one
`removed` notification, delivered to `rebuildGraphMenu`. -/
def clearGraphsFrom : List GraphData → State → State
  | [], s => s
  | g :: rest, s =>
    let s1 : State := { s with graphs := rest }
    clearGraphsFrom rest
      (if g.active then rebuildGraphMenu (emit (Signal.removed g.id) s1) else s1)

/-- Modelled from the spec: the mutator `GraphDataModel::clear` is absent.  It
removes every channel and emits one remove notification per previously active
channel rather than a single bulk event. -/
def graphDataModelClear (s : State) : State := clearGraphsFrom s.graphs s

/-- Modelled from the spec: the mutator `NoteModel::clear` is absent.  On an
empty store it is a no-op; otherwise the notes are dropped, the store is marked
as changed since the last save and one clear notification is delivered. -/
def noteModelClear (s : State) : State :=
  if s.notes.isEmpty then s
  else emit Signal.notesCleared { s with notes := [], notesDataUpdated := true }

/-- Modelled from the spec: `CommunicationManager::resetCommunicationStats` is
absent.  The success and error counters are reset on a data clear; when a
counter changes, `communicationStatsChanged` is delivered to `updateStats`. -/
def resetCommunicationStats (s : State) : State :=
  let s1 := call Call.resetCommunicationStats s
  if s1.gui.communicationSuccessCount = 0 ∧ s1.gui.communicationErrorCount = 0 then s1
  else updateStats (emit Signal.communicationStatsChanged
    { s1 with gui := { s1.gui with communicationSuccessCount := 0,
                                   communicationErrorCount := 0 } })

/-- Modelled from the spec: `CommunicationManager::startCommunication` is absent.
Acquisition is in progress afterwards; the boolean it reports to the caller is
an argument of `startScope`. -/
def startCommunication (s : State) : State :=
  { call Call.startCommunication s with commActive := true }

/-- Modelled from the spec: `CommunicationManager::stopCommunication` is absent.
Acquisition is no longer in progress afterwards. -/
def stopCommunication (s : State) : State :=
  { call Call.stopCommunication s with commActive := false }

/-- Modelled from the spec: `DataFileHandler::enableExporterDuringLog` is absent;
it switches the export of samples during logging on. -/
def enableExporterDuringLog (s : State) : State :=
  { call Call.enableExporterDuringLog s with exporterEnabled := true }

/-- Modelled from the spec: `DataFileHandler::disableExporterDuringLog` is
absent; it switches the export of samples during logging off. -/
def disableExporterDuringLog (s : State) : State :=
  { call Call.disableExporterDuringLog s with exporterEnabled := false }

/-- Modelled from the spec: `DataFileHandler::updateNoteLines` is absent.  The
persistence collaborator reports success or failure (`ok`); after a confirmed
write it marks the note store clean. -/
def updateNoteLines (ok : Bool) (s : State) : State :=
  let s1 := call (Call.updateNoteLines s.gui.dataFilePath) s
  if ok then { s1 with notesDataUpdated := false } else s1

/-! ## Slots of the window -/

/-- Slot `MainWindow::clearData`.  The plot, marker, data file and legend
collaborators are invoked in the order of the source; what they do to the plot,
the marker docks, the data file and the legend is outside the state. -/
def clearData (s : State) : State :=
  let s1 := resetCommunicationStats s
  let s2 := call Call.clearResults s1
  let s3 := call Call.clearMarkersState s2
  let s4 := call Call.rewriteDataFile s3
  let s5 := noteModelClear s4
  call Call.clearLegendData s5

/-- Text of the error shown by `startScope` when no channel is active. -/
def cNoRegisterError : String :=
  "There are no register in the scope list. Please select at least one register."

/-- The statement `_runtimeTimer.singleShot(250, this, SLOT(updateRuntime()))`:
one more one-shot tick is pending, 250 ms ahead. -/
def scheduleRuntimeTick (s : State) : State :=
  { s with pendingTicks := s.pendingTicks ++ [250] }

/-- The block that discards imported data, common to `startScope` and
`showRegisterDialog`: `_pGraphDataModel->clear()`, `_pNoteModel->clear()`, then
`_pGuiModel->setGuiState(GuiModel::INIT)`. -/
def discardLoadedData (s : State) : State :=
  setGuiState GuiState.INIT (noteModelClear (graphDataModelClear s))

/-- The statement `if (_pConnMan->startCommunication()) clearData();` of
`startScope`, after the call: the argument is the reported boolean. -/
def clearDataIfStarted (commStarted : Bool) (s : State) : State :=
  if commStarted then clearData s else s

/-- The statement of `startScope` that enables the exporter when the settings
ask to write during the log. -/
def enableExporterIfWriting (s : State) : State :=
  if s.writeDuringLog then enableExporterDuringLog s else s

/-- The statement of `startScope` that replaces a manual x axis mode. -/
def xAxisManualToAuto (s : State) : State :=
  if s.gui.xAxisScalingMode = AxisScaleOptions.SCALE_MANUAL then
    setxAxisScale AxisScaleOptions.SCALE_AUTO s
  else s

/-- The statement of `startScope` that replaces a manual y axis mode. -/
def yAxisManualToAuto (s : State) : State :=
  if s.gui.yAxisScalingMode = AxisScaleOptions.SCALE_MANUAL then
    setyAxisScale AxisScaleOptions.SCALE_AUTO s
  else s

/-- Slot `MainWindow::startScope`.  The argument is the boolean reported by
`startCommunication`. -/
def startScope (commStarted : Bool) (s : State) : State :=
  let s1 : State :=
    if s.gui.guiState = GuiState.DATA_LOADED then discardLoadedData s else s
  if activeCount s1.graphs ≠ 0 then
    let s2 := setGuiState GuiState.STARTED s1
    let s3 := scheduleRuntimeTick s2
    let s4 := startCommunication s3
    let s5 := clearDataIfStarted commStarted s4
    let s6 := enableExporterIfWriting s5
    let s7 := xAxisManualToAuto s6
    yAxisManualToAuto s7
  else
    call (Call.showError cNoRegisterError) s1

/-- The statement of `stopScope` that disables the exporter when the settings
ask to write during the log. -/
def disableExporterIfWriting (s : State) : State :=
  if s.writeDuringLog then disableExporterDuringLog s else s

/-- Slot `MainWindow::stopScope`. -/
def stopScope (s : State) : State :=
  let s1 := stopCommunication s
  let s2 := disableExporterIfWriting s1
  setGuiState GuiState.STOPPED s2

/-- Slot `MainWindow::showRegisterDialog(QString)`.  The reply is the button the
user presses if the question is asked; an empty file name stands for the plain
`exec()` of the dialog. -/
def showRegisterDialog (mbcFile : String) (reply : StandardButton) (s : State) : State :=
  if s.gui.guiState = GuiState.DATA_LOADED then
    let s0 := call (Call.question "Clear data?") s
    if reply ≠ StandardButton.Yes then s0
    else
      let s1 := discardLoadedData s0
      call (Call.registerDialogExec mbcFile) s1
  else
    call (Call.registerDialogExec mbcFile) s

/-- Slot `MainWindow::dropEvent`.  The file name is the local file of the last
dropped url; the reply is the answer to the question `showRegisterDialog` may
ask. -/
def dropEvent (filename : String) (reply : StandardButton) (s : State) : State :=
  if !s.commActive then
    let s1 := setLastDir (dirPath filename) s
    if toLower (completeSuffix filename) = "mbs" then
      call (Call.loadProjectFile filename) s1
    else if toLower (completeSuffix filename) = "csv" then
      call (Call.loadDataFile filename) s1
    else if toLower (completeSuffix filename) = "mbc" then
      showRegisterDialog filename reply s1
    else
      s1
  else s

/-- Slot `MainWindow::closeEvent`.  The button is the answer to the question, the
boolean is the result reported by `updateNoteLines`; the result pairs the event
(with its accepted flag) and the state. -/
def closeEvent (event : QCloseEvent) (resBtn : StandardButton) (saveOk : Bool) (s : State) :
    QCloseEvent × State :=
  if s.gui.guiState = GuiState.DATA_LOADED ∧ s.notesDataUpdated = true then
    let s0 := call (Call.question s.view.windowTitle) s
    if resBtn = StandardButton.Cancel then
      ({ event with accepted := false }, s0)
    else if resBtn = StandardButton.Discard then
      ({ event with accepted := true }, s0)
    else if resBtn = StandardButton.Save then
      let s1 := updateNoteLines saveOk s0
      if saveOk then ({ event with accepted := true }, s1)
      else ({ event with accepted := false }, s1)
    else (event, s0)
  else
    ({ event with accepted := true }, s)

/-- Slot `MainWindow::updateRuntime`, one tick of the runtime display. -/
def updateRuntime (s : State) : State :=
  let s1 : State := { s with view := { s.view with
    statusRuntime := qarg cRuntime (strTimePassed s.clock s.gui.communicationStartTime) } }
  if s1.commActive then scheduleRuntimeTick s1 else s1

/-- The event loop delivers the one-shot tick that is due first: it leaves the
pending ticks and `updateRuntime` runs.  Without pending tick nothing runs. -/
def fireTick (s : State) : State :=
  match s.pendingTicks with
  | [] => s
  | _ :: rest => updateRuntime { s with pendingTicks := rest }

/-! ## Per-channel menus: change handlers and entry callbacks -/

/-- The access `actions().at(i)` followed by a setter call on the action found:
the entry at position `i` is replaced by its update.  For an index outside the
list `QList::at` has no defined result, and there is no result here. -/
def updateAt (f : MenuEntry → MenuEntry) : Nat → List MenuEntry → Option (List MenuEntry)
  | _, [] => none
  | 0, e :: es => some (f e :: es)
  | i + 1, e :: es => (updateAt f i es).map (fun r => e :: r)

/-- Slot `MainWindow::handleGraphVisibilityChange`.  No result means that one of
the two `at(activeIdx)` accesses was out of range. -/
def handleGraphVisibilityChange (graphIdx : Nat) (s : State) : Option State :=
  if graphIsActive s.graphs graphIdx then
    match convertToActiveGraphIndex s.graphs graphIdx with
    | none => none
    | some activeIdx =>
      match updateAt (fun e => { e with checked := graphIsVisible s.graphs graphIdx })
          activeIdx s.view.graphShowHide with
      | none => none
      | some showHide =>
        match updateAt (fun e => { e with visible := graphIsVisible s.graphs graphIdx })
            activeIdx s.view.graphBringToFront with
        | none => none
        | some bringToFront =>
          some { s with view := { s.view with
            graphShowHide := showHide
            graphBringToFront := bringToFront
            graphBringToFrontEnabled := bringToFront.any (fun e => e.visible) } }
  else some s

/-- Slot `MainWindow::handleGraphColorChange`; the icon is kept as the colour it
is filled with. -/
def handleGraphColorChange (graphIdx : Nat) (s : State) : Option State :=
  if graphIsActive s.graphs graphIdx then
    match convertToActiveGraphIndex s.graphs graphIdx with
    | none => none
    | some activeIdx =>
      match updateAt (fun e => { e with icon := graphColor s.graphs graphIdx })
          activeIdx s.view.graphShowHide with
      | none => none
      | some showHide =>
        match updateAt (fun e => { e with icon := graphColor s.graphs graphIdx })
            activeIdx s.view.graphBringToFront with
        | none => none
        | some bringToFront =>
          some { s with view := { s.view with
            graphShowHide := showHide
            graphBringToFront := bringToFront } }
  else some s

/-- Slot `MainWindow::handleGraphLabelChange`. -/
def handleGraphLabelChange (graphIdx : Nat) (s : State) : Option State :=
  if graphIsActive s.graphs graphIdx then
    match convertToActiveGraphIndex s.graphs graphIdx with
    | none => none
    | some activeIdx =>
      match updateAt (fun e => { e with text := graphLabel s.graphs graphIdx })
          activeIdx s.view.graphShowHide with
      | none => none
      | some showHide =>
        match updateAt (fun e => { e with text := graphLabel s.graphs graphIdx })
            activeIdx s.view.graphBringToFront with
        | none => none
        | some bringToFront =>
          some { s with view := { s.view with
            graphShowHide := showHide
            graphBringToFront := bringToFront } }
  else some s

/-- Slot `MainWindow::updateBringToFrontGrapMenu`.  The entries of the
bring-to-front menu are the actions of the exclusive action group, so checking
the entry at the front position unchecks the others; no result means that
`at(frontGraph)` was out of range. -/
def updateBringToFrontGrapMenu (s : State) : Option State :=
  if s.view.graphBringToFront.length > 0 then
    if s.gui.frontGraph < s.view.graphBringToFront.length then
      some { s with view := { s.view with
        graphBringToFront := s.view.graphBringToFront.enum.map
          (fun p => { p.2 with checked := decide (p.1 = s.gui.frontGraph) }) } }
    else none
  else some s

/-- Modelled from the spec: the mutator `GuiModel::setFrontGraph` is absent;
writing the stored position again is a no-op without notification, otherwise
the position is stored and `frontGraphChanged` is delivered to
`updateBringToFrontGrapMenu`. -/
def setFrontGraph (activeIdx : Nat) (s : State) : Option State :=
  if s.gui.frontGraph = activeIdx then some s
  else updateBringToFrontGrapMenu (emit Signal.frontGraphChanged
    { s with gui := { s.gui with frontGraph := activeIdx } })

/-- Modelled from the spec: the mutator `GraphDataModel::setVisible` is absent.
A change for an absent or inactive channel is ignored, writing the stored value
again is a no-op without notification; otherwise the visible flag is stored and
`visibilityChanged` is delivered to `handleGraphVisibilityChange`. -/
def setVisible (graphIdx : Nat) (bState : Bool) (s : State) : Option State :=
  match s.graphs.get? graphIdx with
  | none => some s
  | some g =>
    if g.active = false ∨ g.visible = bState then some s
    else handleGraphVisibilityChange graphIdx (emit (Signal.visibilityChanged graphIdx)
      { s with graphs := s.graphs.set graphIdx { g with visible := bState } })

/-- Slot `MainWindow::menuBringToFrontGraphClicked`; the sender is the entry that
was toggled. -/
def menuBringToFrontGraphClicked (sender : MenuEntry) (bState : Bool) (s : State) :
    Option State :=
  if bState then setFrontGraph sender.data s else some s

/-- Slot `MainWindow::menuShowHideGraphClicked`; the sender is the entry that was
toggled.  When the conversion finds no active channel for the position, the
index it hands on addresses no channel and the registry ignores the change. -/
def menuShowHideGraphClicked (sender : MenuEntry) (bState : Bool) (s : State) :
    Option State :=
  match convertToGraphIndex s.graphs sender.data with
  | some graphIdx => setVisible graphIdx bState s
  | none => some s

/-! ## Keyboard and focus -/

/-- The flag `Qt::ControlModifier` of `Qt::KeyboardModifiers`. -/
def controlModifier : Nat := 0x04000000

/-- A key event with its modifier flags (`QKeyEvent::modifiers`). -/
structure QKeyEvent where
  modifiers : Nat := 0
  deriving DecidableEq, Repr

/-- The test `event->modifiers() & Qt::ControlModifier`. -/
def hasControl (event : QKeyEvent) : Bool := (event.modifiers &&& controlModifier) != 0

/-- Modelled from the spec: the mutator `GuiModel::setCursorValues` is absent;
writing the stored value again is a no-op without notification, otherwise the
value is stored and `cursorValuesChanged` is sent (the window itself does not
subscribe to it). -/
def setCursorValues (b : Bool) (s : State) : State :=
  if s.gui.cursorValues = b then s
  else emit Signal.cursorValuesChanged { s with gui := { s.gui with cursorValues := b } }

/-- Handler `MainWindow::keyPressEvent`. -/
def keyPressEvent (event : QKeyEvent) (s : State) : State :=
  if hasControl event then setCursorValues true s else s

/-- Handler `MainWindow::keyReleaseEvent`. -/
def keyReleaseEvent (event : QKeyEvent) (s : State) : State :=
  if !hasControl event then setCursorValues false s else s

/-- Slot `MainWindow::appFocusChanged`; a widget is given by an identifier and
`none` stands for the null pointer. -/
def appFocusChanged (old _now : Option Nat) (s : State) : State :=
  if old ≠ none then setCursorValues false s else s

/-- The keyboard and focus events that reach the window. -/
inductive InputEvent
  | keyPress (event : QKeyEvent)
  | keyRelease (event : QKeyEvent)
  | focusChanged (old now : Option Nat)
  deriving DecidableEq, Repr

/-- The window handles one keyboard or focus event. -/
def handleInput (s : State) : InputEvent → State
  | InputEvent.keyPress e => keyPressEvent e s
  | InputEvent.keyRelease e => keyReleaseEvent e s
  | InputEvent.focusChanged old now => appFocusChanged old now s

/-- The window handles a sequence of keyboard and focus events in order. -/
def handleInputs (evs : List InputEvent) (s : State) : State :=
  evs.foldl handleInput s

/-! ## Frames -/

/-- The part of the state that the view handlers of the window never write: the
widgets, the notification history, the two file paths and the title detail are
blanked, everything else is kept. -/
def core (s : State) : State :=
  { s with
    view := {}
    trace := []
    gui := { s.gui with projectFilePath := "", dataFilePath := "", windowTitleDetail := "" } }

/-- The widgets apart from the two that the file path handlers write: the window
title and the enabled flag of the reload action are blanked. -/
def viewKernel (v : View) : View :=
  { v with windowTitle := "", actionReloadProjectFile := false }

/-- The success and error counters of the gui model. -/
def counters (s : State) : Nat × Nat :=
  (s.gui.communicationSuccessCount, s.gui.communicationErrorCount)

/-- The x and y axis scaling modes of the gui model. -/
def axes (s : State) : AxisScaleOptions × AxisScaleOptions :=
  (s.gui.xAxisScalingMode, s.gui.yAxisScalingMode)

/-- The data file path and the project file path of the gui model. -/
def filePaths (s : State) : String × String :=
  (s.gui.dataFilePath, s.gui.projectFilePath)

/-- What a start does to an axis mode: manual becomes auto, any other mode
stays. -/
def manualToAuto (m : AxisScaleOptions) : AxisScaleOptions :=
  if m = AxisScaleOptions.SCALE_MANUAL then AxisScaleOptions.SCALE_AUTO else m

/-- What a keyboard or focus event decides about the cursor flag: a key press
with Control sets it, a key release without Control and a focus change away
from a widget clear it, any other event decides nothing. -/
def decides : InputEvent → Option Bool
  | InputEvent.keyPress e => if hasControl e then some true else none
  | InputEvent.keyRelease e => if hasControl e then none else some false
  | InputEvent.focusChanged old _ => if old ≠ none then some false else none

/-- The cursor flag after a sequence of events, read off the sequence: the
decision of the last deciding event, or the initial flag without one. -/
def lastDecision (init : Bool) (evs : List InputEvent) : Bool :=
  evs.foldl (fun b ev => (decides ev).getD b) init

/-- The show/hide entry that belongs at active position `i` for the channel
`g`: position data `i`, label and colour of the channel, checked iff the channel
is visible. -/
def showHideOf (i : Nat) (g : GraphData) : MenuEntry :=
  { data := i, text := g.label, icon := g.color, checkable := true, checked := g.visible,
    visible := true, grouped := false }

/-- The bring-to-front entry that belongs at active position `i` for the channel
`g`: position data `i`, label and colour of the channel, member of the action
group. -/
def bringToFrontOf (i : Nat) (g : GraphData) : MenuEntry :=
  { data := i, text := g.label, icon := g.color, checkable := true, checked := false,
    visible := true, grouped := true }

/-- The menu `new` is the menu `old` with the update `f` applied to the entry at
position `i` and every entry at another position unchanged. -/
def OnlyEntryChanged (i : Nat) (f : MenuEntry → MenuEntry) (old new : List MenuEntry) : Prop :=
  new.length = old.length ∧ (∀ j, j ≠ i → new.get? j = old.get? j) ∧
    new.get? i = (old.get? i).map f

/-- Notifications that the handler of a phase change itself causes: the two file
path notifications and the window title notification. -/
def ViewSignal (sig : Signal) : Prop :=
  sig = Signal.dataFilePathChanged ∨ sig = Signal.projectFilePathChanged ∨
    sig = Signal.windowTitleChanged

/-- The history of `t` continues the history of `s` with view notifications
only. -/
def TraceTail (s t : State) : Prop :=
  ∃ post, t.trace = s.trace ++ post ∧ ∀ e ∈ post, ViewSignal e.signal

/-- The notifications that clearing the two stores of `s` sends, by signal: one
`removed` per active channel in registry order, then one `notesCleared` if there
is any note. -/
def clearSignals (s : State) : List Signal :=
  (s.graphs.filter (fun g => g.active)).map (fun g => Signal.removed g.id)
    ++ (if s.notes.isEmpty then [] else [Signal.notesCleared])

/-- The three file types that `dropEvent` dispatches, as lower-case suffixes. -/
def knownSuffix (t : String) : Bool :=
  decide (t = "mbs") || decide (t = "csv") || decide (t = "mbc")

/-- States the window can be in.  It starts Idle with no acquisition in
progress; afterwards its slots run, the data file handler may enter DataLoaded
through the lifecycle mutator, and collaborators may change anything but the
phase and the acquisition flag, which only the slots and the lifecycle mutator
write.  The last rule also covers the handlers of the window that write neither
of the two: the menu handlers and callbacks, the keyboard and focus handlers
and the firing of a tick. -/
inductive Reachable : State → Prop
  | init (s : State) : s.gui.guiState = GuiState.INIT → s.commActive = false → Reachable s
  | startScope (c : Bool) (s : State) : Reachable s → Reachable (startScope c s)
  | stopScope (s : State) : Reachable s → Reachable (stopScope s)
  | clearData (s : State) : Reachable s → Reachable (clearData s)
  | showRegisterDialog (f : String) (r : StandardButton) (s : State) :
      Reachable s → Reachable (showRegisterDialog f r s)
  | dropEvent (f : String) (r : StandardButton) (s : State) :
      Reachable s → Reachable (dropEvent f r s)
  | closeEvent (e : QCloseEvent) (r : StandardButton) (ok : Bool) (s : State) :
      Reachable s → Reachable (closeEvent e r ok s).2
  | updateRuntime (s : State) : Reachable s → Reachable (updateRuntime s)
  | importData (s : State) : Reachable s → Reachable (setGuiState GuiState.DATA_LOADED s)
  | collaborator (s t : State) : Reachable s → t.gui.guiState = s.gui.guiState →
      t.commActive = s.commActive → Reachable t

/-! ## Sample states -/

/-- A window showing an imported data file with three active channels, one
inactive channel and two notes. -/
def loadedThreeTwo : State :=
  { gui := { guiState := GuiState.DATA_LOADED, dataFilePath := "/tmp/run.csv",
             windowTitleDetail := "run.csv" }
    graphs := [{ id := 1 }, { id := 2, active := false }, { id := 3 }, { id := 4 }]
    notes := [{ text := "a" }, { text := "b" }] }

/-- An idle window without any channel. -/
def idleEmpty : State := {}

/-- An idle window with one active channel. -/
def idleOne : State := { graphs := [{ id := 1, label := "U1" }] }

/-- A window in phase Running after a start with one active channel. -/
def runningOne : State := startScope false idleOne

/-- A window showing an imported data file whose notes were changed. -/
def loadedDirty : State :=
  { gui := { guiState := GuiState.DATA_LOADED, dataFilePath := "/tmp/run.csv",
             windowTitleDetail := "run.csv" }
    graphs := [{ id := 1 }]
    notes := [{ text := "a" }]
    notesDataUpdated := true }

/-- A stopped window without project file. -/
def stoppedNoProject : State :=
  { gui := { guiState := GuiState.STOPPED }, graphs := [{ id := 1 }] }

/-- A stopped window with a project file. -/
def stoppedWithProject : State :=
  { gui := { guiState := GuiState.STOPPED, projectFilePath := "/home/u/setup.mbs" }
    graphs := [{ id := 1 }] }

/-- A stopped window with one active channel whose counters stand at four
successes and two errors. -/
def stoppedCounted : State :=
  { gui := { guiState := GuiState.STOPPED, communicationSuccessCount := 4,
             communicationErrorCount := 2 }
    graphs := [{ id := 1 }] }

/-- A window with two active channels around an inactive one; the second active
channel is hidden. -/
def registryThree : State :=
  { graphs := [{ id := 1, label := "A", color := 10 },
               { id := 2, active := false, label := "B", color := 20 },
               { id := 3, label := "C", color := 30, visible := false }] }

/-- A stopped window with one active channel, a manual x axis and a sliding y
axis. -/
def stoppedManualX : State :=
  { gui := { guiState := GuiState.STOPPED, xAxisScalingMode := AxisScaleOptions.SCALE_MANUAL,
             yAxisScalingMode := AxisScaleOptions.SCALE_SLIDING }
    graphs := [{ id := 1 }] }

/-- The state handed to the phase handler when Idle is entered from the window
showing an imported data file: the phase is Idle already, the paths are still
those of the loaded files. -/
def idleWithPaths : State :=
  { gui := { guiState := GuiState.INIT, dataFilePath := "/tmp/run.csv",
             projectFilePath := "/home/u/setup.mbs", windowTitleDetail := "run.csv" } }

/-- A key event with the Control modifier only. -/
def controlKey : QKeyEvent := { modifiers := controlModifier }

/-- A key event without modifier. -/
def plainKey : QKeyEvent := { modifiers := 0 }

/-- The running window after it was stopped: the tick scheduled by the start is
still pending. -/
def stoppedPendingTick : State := stopScope runningOne

/-- An inactive channel labelled "A". -/
def channelA : GraphData := { id := 1, active := false, visible := false, label := "A" }

/-- An active channel labelled "B". -/
def channelB : GraphData := { id := 2, active := true, visible := true, label := "B" }

/-- A registry of 65537 channels: 65536 inactive channels labelled "A", then one
active channel labelled "B" at position 65536. -/
def wideRegistry : State :=
  { graphs := List.replicate (2 ^ 16) channelA ++ [channelB] }

/-- A window whose clock is 3725000 ms past the communication start time. -/
def tickState : State :=
  { clock := 1700000000000 + 3725000
    gui := { guiState := GuiState.STARTED, communicationStartTime := 1700000000000 }
    commActive := true }

/-! # Properties -/

/-! ## Number rendering and `QString::arg` -/

theorem digitChar_ne_percent (d : Nat) : Nat.digitChar d ≠ '%' := by
  by_cases h : d < 16
  · interval_cases d <;> decide
  · have hstar : Nat.digitChar d = '*' := by
      unfold Nat.digitChar
      repeat (rw [if_neg (by omega)])
    rw [hstar]; decide

theorem toDigitsCore_no_percent (fuel : Nat) : ∀ (n : Nat) (acc : List Char),
    (∀ c ∈ acc, c ≠ '%') → ∀ c ∈ Nat.toDigitsCore 10 fuel n acc, c ≠ '%' := by
  induction fuel with
  | zero => intro n acc hacc; simpa [Nat.toDigitsCore] using hacc
  | succ f ih =>
    intro n acc hacc
    have hcons : ∀ c ∈ Nat.digitChar (n % 10) :: acc, c ≠ '%' := by
      intro c hc
      rcases List.mem_cons.mp hc with h | h
      · rw [h]; exact digitChar_ne_percent _
      · exact hacc c h
    unfold Nat.toDigitsCore
    by_cases h0 : n / 10 = 0
    · simpa [h0] using hcons
    · simpa [h0] using ih (n / 10) _ hcons

theorem toString_no_percent (n : Nat) : ∀ c ∈ (toString n).toList, c ≠ '%' := by
  have h := toDigitsCore_no_percent (n + 1) n [] (by simp)
  simpa [toString, Nat.repr, Nat.toDigits, String.toList, List.asString] using h

theorem lowestMarker_append (ds r : List Char) (h : ∀ c ∈ ds, c ≠ '%') :
    lowestMarker (ds ++ r) = lowestMarker r := by
  induction ds with
  | nil => rfl
  | cons c cs ih =>
    have hc : c ≠ '%' := h c (List.mem_cons_self _ _)
    have hcs : ∀ x ∈ cs, x ≠ '%' := fun x hx => h x (List.mem_cons_of_mem _ hx)
    simp [lowestMarker, hc, ih hcs]

theorem replaceMarker_append (k : Nat) (a ds r : List Char) (h : ∀ c ∈ ds, c ≠ '%') :
    replaceMarker k a 0 (ds ++ r) = ds ++ replaceMarker k a 0 r := by
  induction ds with
  | nil => rfl
  | cons c cs ih =>
    have hc : c ≠ '%' := h c (List.mem_cons_self _ _)
    have hcs : ∀ x ∈ cs, x ≠ '%' := fun x hx => h x (List.mem_cons_of_mem _ hx)
    simp [replaceMarker, hc, ih hcs]

theorem argChars_append (a ds r : List Char) (h : ∀ c ∈ ds, c ≠ '%') :
    argChars (ds ++ r) a = ds ++ argChars r a := by
  unfold argChars
  rw [lowestMarker_append ds r h]
  cases lowestMarker r with
  | none => rfl
  | some k => exact replaceMarker_append k a ds r h

theorem argChars_template1 (a : List Char) :
    argChars "%1 hours, %2 minutes %3 seconds".toList a = a ++ " hours, %2 minutes %3 seconds".toList := by
  rfl

theorem argChars_template2 (a : List Char) :
    argChars " hours, %2 minutes %3 seconds".toList a = " hours, ".toList ++ (a ++ " minutes %3 seconds".toList) := by
  rfl

theorem argChars_template3 (a : List Char) :
    argChars " minutes %3 seconds".toList a = " minutes ".toList ++ (a ++ " seconds".toList) := by
  rfl

theorem timeText_format (h m s : Nat) :
    qargNat (qargNat (qargNat "%1 hours, %2 minutes %3 seconds" h) m) s
      = toString h ++ " hours, " ++ toString m ++ " minutes " ++ toString s ++ " seconds" := by
  apply String.ext
  simp only [qargNat, qarg, String.toList, String.data_append]
  show argChars (argChars (argChars "%1 hours, %2 minutes %3 seconds".toList (toString h).toList) (toString m).toList) (toString s).toList = _
  rw [argChars_template1]
  rw [argChars_append _ _ _ (toString_no_percent h), argChars_template2]
  rw [argChars_append _ _ _ (toString_no_percent h)]
  rw [argChars_append _ _ _ (by decide)]
  rw [argChars_append _ _ _ (toString_no_percent m), argChars_template3]
  simp [String.toList, List.append_assoc]


theorem wrapInt64_eq (x : Int) (h0 : 0 ≤ x) (h1 : x < 2 ^ 63) : wrapInt64 x = x := by
  unfold wrapInt64
  omega

theorem toQuint32_natCast (n : Nat) (h : n < 2 ^ 32) : toQuint32 (n : Int) = n := by
  unfold toQuint32
  omega

theorem strTimePassed_eq (now start : Int) (t : Nat)
    (ht : (now - start) / 1000 = (t : Int)) (h0 : 0 ≤ now - start)
    (h1 : now - start < 2 ^ 32 * 3600000) :
    strTimePassed now start
      = toString (t / 3600) ++ " hours, " ++ toString (t % 3600 / 60) ++ " minutes "
          ++ toString (t % 3600 % 60) ++ " seconds" := by
  have hw : wrapInt64 (now - start) = now - start := wrapInt64_eq _ h0 (by omega)
  have e1 : (now - start).tdiv 1000 = (t : Int) := by
    rw [Int.tdiv_eq_ediv h0 (by decide)]; exact ht
  have e2 : (t : Int).tdiv 3600 = ((t / 3600 : Nat) : Int) := by
    rw [Int.tdiv_eq_ediv (by omega) (by decide)]; omega
  have e3 : (t : Int).tmod 3600 = ((t % 3600 : Nat) : Int) := by
    rw [Int.tmod_eq_emod (by omega) (by decide)]; omega
  have e4 : ((t % 3600 : Nat) : Int).tdiv 60 = ((t % 3600 / 60 : Nat) : Int) := by
    rw [Int.tdiv_eq_ediv (by omega) (by decide)]; omega
  have e5 : ((t % 3600 : Nat) : Int).tmod 60 = ((t % 3600 % 60 : Nat) : Int) := by
    rw [Int.tmod_eq_emod (by omega) (by decide)]; omega
  unfold strTimePassed
  simp only [hw, e1, e2, e3, e4, e5]
  rw [toQuint32_natCast _ (by omega), toQuint32_natCast _ (by omega),
    toQuint32_natCast _ (by omega)]
  exact timeText_format _ _ _


theorem qarg_cRuntime (t : String) : qarg cRuntime t = "Runtime: " ++ t := by
  apply String.ext
  show argChars "Runtime: %1".toList t.toList = _
  have h : argChars "Runtime: %1".toList t.toList = "Runtime: ".toList ++ (t.toList ++ []) := rfl
  rw [h]
  simp [String.toList]

/-- Claim C1: for an elapsed time `e = clock - communicationStartTime` with
`0 ≤ e < 2^32 * 3600000` ms, `updateRuntime` renders the elapsed string
"h hours, m minutes s seconds" (behind the prefix of the runtime label), where
`h`, `m`, `s` are the unique naturals with `m < 60`, `s < 60` and
`h*3600 + m*60 + s = floor (e / 1000)`; for `e = 3725000` the string is
"1 hours, 2 minutes 5 seconds". -/
theorem updateRuntime_renders_elapsed (s : State)
    (h0 : 0 ≤ s.clock - s.gui.communicationStartTime)
    (h1 : s.clock - s.gui.communicationStartTime < 2 ^ 32 * 3600000) :
    ∃ h m sec : Nat,
      (m < 60 ∧ sec < 60 ∧
        ((h * 3600 + m * 60 + sec : Nat) : Int) = (s.clock - s.gui.communicationStartTime) / 1000) ∧
      (∀ h2 m2 sec2 : Nat, m2 < 60 → sec2 < 60 →
        ((h2 * 3600 + m2 * 60 + sec2 : Nat) : Int) = (s.clock - s.gui.communicationStartTime) / 1000 →
        h2 = h ∧ m2 = m ∧ sec2 = sec) ∧
      strTimePassed s.clock s.gui.communicationStartTime
        = toString h ++ " hours, " ++ toString m ++ " minutes " ++ toString sec ++ " seconds" ∧
      (updateRuntime s).view.statusRuntime
        = "Runtime: " ++ (toString h ++ " hours, " ++ toString m ++ " minutes "
            ++ toString sec ++ " seconds") ∧
      (s.clock - s.gui.communicationStartTime = 3725000 →
        strTimePassed s.clock s.gui.communicationStartTime = "1 hours, 2 minutes 5 seconds") := by
  obtain ⟨t, ht⟩ : ∃ t : Nat, (s.clock - s.gui.communicationStartTime) / 1000 = (t : Int) :=
    ⟨((s.clock - s.gui.communicationStartTime) / 1000).toNat, by omega⟩
  have hstr := strTimePassed_eq s.clock s.gui.communicationStartTime t ht h0 h1
  refine ⟨t / 3600, t % 3600 / 60, t % 3600 % 60, ⟨by omega, by omega, by omega⟩, ?_, hstr, ?_, ?_⟩
  · intro h2 m2 sec2 hm hs heq
    omega
  · have hview : (updateRuntime s).view.statusRuntime
        = qarg cRuntime (strTimePassed s.clock s.gui.communicationStartTime) := by
      unfold updateRuntime
      cases s.commActive <;> rfl
    rw [hview, qarg_cRuntime, hstr]
  · intro he
    have ht2 : t = 3725 := by omega
    rw [hstr, ht2]
    decide

/-- Witness of claim C1 at a clock 3725000 ms past the start time. -/
theorem updateRuntime_renders_elapsed_witness :
    0 ≤ tickState.clock - tickState.gui.communicationStartTime ∧
    tickState.clock - tickState.gui.communicationStartTime < 2 ^ 32 * 3600000 ∧
    (updateRuntime tickState).view.statusRuntime = "Runtime: 1 hours, 2 minutes 5 seconds" := by
  refine ⟨by decide, by decide, ?_⟩
  obtain ⟨h, m, sec, _, huniq, _, hview, _⟩ :=
    updateRuntime_renders_elapsed tickState (by decide) (by decide)
  obtain ⟨rfl, rfl, rfl⟩ := huniq 1 2 5 (by decide) (by decide) (by decide)
  rw [hview]
  decide

/-! ## Frame lemmas for the view handlers -/

theorem core_emit (sig : Signal) (s : State) : core (emit sig s) = core s := rfl

theorem core_updateWindowTitle (s : State) : core (updateWindowTitle s) = core s := rfl

theorem core_updateStats (s : State) : core (updateStats s) = core s := rfl

theorem core_rebuildGraphMenu (s : State) : core (rebuildGraphMenu s) = core s := rfl

theorem core_setWindowTitleDetail (d : String) (s : State) :
    core (setWindowTitleDetail d s) = core s := by
  unfold setWindowTitleDetail
  split <;> rfl

theorem core_dataFileLoaded (s : State) : core (dataFileLoaded s) = core s := by
  unfold dataFileLoaded
  split <;> exact core_setWindowTitleDetail _ _

theorem core_projectFileLoaded (s : State) : core (projectFileLoaded s) = core s := by
  unfold projectFileLoaded
  split
  · exact core_setWindowTitleDetail "" s
  · exact core_setWindowTitleDetail _ s

theorem core_setDataFilePath (p : String) (s : State) : core (setDataFilePath p s) = core s := by
  unfold setDataFilePath
  split
  · rfl
  · rw [core_dataFileLoaded]; rfl

theorem core_setProjectFilePath (p : String) (s : State) :
    core (setProjectFilePath p s) = core s := by
  unfold setProjectFilePath
  split
  · rfl
  · rw [core_projectFileLoaded]; rfl

theorem core_updateGuiState (s : State) : core (updateGuiState s) = core s := by
  unfold updateGuiState
  split
  · rw [core_setProjectFilePath, core_setDataFilePath]; rfl
  · split
    · rfl
    · split
      · rfl
      · split <;> rfl

theorem guiState_of_core {s t : State} (h : core t = core s) :
    t.gui.guiState = s.gui.guiState :=
  congrArg (fun x => x.gui.guiState) h

theorem graphs_of_core {s t : State} (h : core t = core s) : t.graphs = s.graphs :=
  congrArg (fun x => x.graphs) h

theorem notes_of_core {s t : State} (h : core t = core s) : t.notes = s.notes :=
  congrArg (fun x => x.notes) h

theorem calls_of_core {s t : State} (h : core t = core s) : t.calls = s.calls :=
  congrArg (fun x => x.calls) h

theorem commActive_of_core {s t : State} (h : core t = core s) : t.commActive = s.commActive :=
  congrArg (fun x => x.commActive) h

theorem pendingTicks_of_core {s t : State} (h : core t = core s) :
    t.pendingTicks = s.pendingTicks :=
  congrArg (fun x => x.pendingTicks) h

theorem counters_of_core {s t : State} (h : core t = core s) :
    t.gui.communicationSuccessCount = s.gui.communicationSuccessCount ∧
    t.gui.communicationErrorCount = s.gui.communicationErrorCount :=
  ⟨congrArg (fun x => x.gui.communicationSuccessCount) h,
   congrArg (fun x => x.gui.communicationErrorCount) h⟩

theorem axes_of_core {s t : State} (h : core t = core s) :
    t.gui.xAxisScalingMode = s.gui.xAxisScalingMode ∧
    t.gui.yAxisScalingMode = s.gui.yAxisScalingMode :=
  ⟨congrArg (fun x => x.gui.xAxisScalingMode) h,
   congrArg (fun x => x.gui.yAxisScalingMode) h⟩

/-! ## The lifecycle mutator -/

theorem enterState_guiState (st : GuiState) (c : Int) (g : GuiModel) :
    (enterState st c g).guiState = st := by
  cases st <;> rfl

theorem setGuiState_same (st : GuiState) (s : State) (h : s.gui.guiState = st) :
    setGuiState st s = s := by
  unfold setGuiState
  rw [if_pos h]

theorem setGuiState_illegal (st : GuiState) (s : State)
    (h : transitionLegal s.gui.guiState st = false) : setGuiState st s = s := by
  unfold setGuiState
  split
  · rfl
  · simp [h]

theorem setGuiState_legal (st : GuiState) (s : State) (hne : s.gui.guiState ≠ st)
    (h : transitionLegal s.gui.guiState st = true) :
    setGuiState st s = updateGuiState (emit (Signal.guiStateChanged st)
      { s with gui := enterState st s.clock s.gui }) := by
  unfold setGuiState
  rw [if_neg hne, if_neg (by simp [h])]

theorem setGuiState_legal_guiState (st : GuiState) (s : State)
    (h : transitionLegal s.gui.guiState st = true) :
    (setGuiState st s).gui.guiState = st := by
  by_cases hne : s.gui.guiState = st
  · rw [setGuiState_same st s hne, hne]
  · rw [setGuiState_legal st s hne h, guiState_of_core (core_updateGuiState _)]
    exact enterState_guiState _ _ _

/-! ## Phase is kept by the steps that follow an accepted start -/

theorem resetCommunicationStats_guiState (s : State) :
    (resetCommunicationStats s).gui.guiState = s.gui.guiState := by
  unfold resetCommunicationStats
  dsimp only
  split <;> rfl

theorem noteModelClear_gui (s : State) : (noteModelClear s).gui = s.gui := by
  unfold noteModelClear
  split <;> rfl

theorem clearData_guiState (s : State) : (clearData s).gui.guiState = s.gui.guiState := by
  unfold clearData
  show (noteModelClear _).gui.guiState = _
  rw [noteModelClear_gui]
  exact resetCommunicationStats_guiState s

theorem setxAxisScale_guiState (m : AxisScaleOptions) (s : State) :
    (setxAxisScale m s).gui.guiState = s.gui.guiState := by
  unfold setxAxisScale updatexAxisSlidingMode
  repeat (first | rfl | split)

theorem setyAxisScale_guiState (m : AxisScaleOptions) (s : State) :
    (setyAxisScale m s).gui.guiState = s.gui.guiState := by
  unfold setyAxisScale updateyAxisSlidingMode
  repeat (first | rfl | split)

theorem yAxisManualToAuto_guiState (s : State) :
    (yAxisManualToAuto s).gui.guiState = s.gui.guiState := by
  unfold yAxisManualToAuto
  split
  · exact setyAxisScale_guiState _ _
  · rfl

theorem xAxisManualToAuto_guiState (s : State) :
    (xAxisManualToAuto s).gui.guiState = s.gui.guiState := by
  unfold xAxisManualToAuto
  split
  · exact setxAxisScale_guiState _ _
  · rfl

theorem enableExporterIfWriting_gui (s : State) : (enableExporterIfWriting s).gui = s.gui := by
  unfold enableExporterIfWriting
  split <;> rfl

theorem clearDataIfStarted_guiState (b : Bool) (s : State) :
    (clearDataIfStarted b s).gui.guiState = s.gui.guiState := by
  unfold clearDataIfStarted
  split
  · exact clearData_guiState s
  · rfl

theorem startScope_accepted (commStarted : Bool) (s : State)
    (hph : s.gui.guiState ≠ GuiState.DATA_LOADED) (hact : activeCount s.graphs ≠ 0) :
    startScope commStarted s =
      yAxisManualToAuto (xAxisManualToAuto (enableExporterIfWriting
        (clearDataIfStarted commStarted (startCommunication (scheduleRuntimeTick
          (setGuiState GuiState.STARTED s)))))) := by
  unfold startScope
  simp only [if_neg hph, if_pos hact]

theorem startScope_rejected (commStarted : Bool) (s : State)
    (hph : s.gui.guiState ≠ GuiState.DATA_LOADED) (hact : activeCount s.graphs = 0) :
    startScope commStarted s = call (Call.showError cNoRegisterError) s := by
  unfold startScope
  simp only [if_neg hph, hact, ne_eq, not_true_eq_false, if_false]

theorem startScope_accepted_guiState (commStarted : Bool) (s : State)
    (hph : s.gui.guiState ≠ GuiState.DATA_LOADED) (hact : activeCount s.graphs ≠ 0) :
    (startScope commStarted s).gui.guiState = (setGuiState GuiState.STARTED s).gui.guiState := by
  rw [startScope_accepted commStarted s hph hact, yAxisManualToAuto_guiState,
    xAxisManualToAuto_guiState, enableExporterIfWriting_gui, clearDataIfStarted_guiState]
  rfl

/-- Claim C2: `startScope` invoked in phase Idle.  With no active channel the
transition to Running is rejected: the only effect is the error message, so the
phase stays Idle, communication is not started and no runtime tick is scheduled.
With at least one active channel the phase becomes Running. -/
theorem startScope_idle_guard (commStarted : Bool) (s : State)
    (hidle : s.gui.guiState = GuiState.INIT) :
    (activeCount s.graphs = 0 →
      startScope commStarted s = call (Call.showError cNoRegisterError) s ∧
      (startScope commStarted s).gui.guiState = GuiState.INIT ∧
      (startScope commStarted s).commActive = s.commActive ∧
      (startScope commStarted s).calls = s.calls ++ [Call.showError cNoRegisterError] ∧
      (startScope commStarted s).pendingTicks = s.pendingTicks ∧
      (startScope commStarted s).trace = s.trace) ∧
    (activeCount s.graphs ≠ 0 →
      (startScope commStarted s).gui.guiState = GuiState.STARTED) := by
  have hph : s.gui.guiState ≠ GuiState.DATA_LOADED := by rw [hidle]; decide
  constructor
  · intro hact
    rw [startScope_rejected commStarted s hph hact]
    exact ⟨rfl, hidle, rfl, rfl, rfl, rfl⟩
  · intro hact
    rw [startScope_accepted_guiState commStarted s hph hact]
    exact setGuiState_legal_guiState _ _ (by rw [hidle]; rfl)

/-- Witness of claim C2: an idle window without channel stays idle, an idle
window with one active channel ends in Running. -/
theorem startScope_idle_guard_witness :
    idleEmpty.gui.guiState = GuiState.INIT ∧
    (startScope true idleEmpty).gui.guiState = GuiState.INIT ∧
    idleOne.gui.guiState = GuiState.INIT ∧
    (startScope true idleOne).gui.guiState = GuiState.STARTED :=
  ⟨rfl, ((startScope_idle_guard true idleEmpty rfl).1 (by decide)).2.1,
   rfl, (startScope_idle_guard true idleOne rfl).2 (by decide)⟩

/-! ## Histories -/

theorem traceTail_refl (s : State) : TraceTail s s :=
  ⟨[], by simp, by simp⟩

theorem traceTail_trans {s t u : State} (h1 : TraceTail s t) (h2 : TraceTail t u) :
    TraceTail s u := by
  obtain ⟨p1, e1, v1⟩ := h1
  obtain ⟨p2, e2, v2⟩ := h2
  refine ⟨p1 ++ p2, by rw [e2, e1, List.append_assoc], ?_⟩
  intro e he
  rcases List.mem_append.mp he with h | h
  · exact v1 e h
  · exact v2 e h

theorem traceTail_of_trace_eq {s t u : State} (h : u.trace = t.trace) (h1 : TraceTail s t) :
    TraceTail s u := by
  obtain ⟨p1, e1, v1⟩ := h1
  exact ⟨p1, by rw [h, e1], v1⟩

theorem traceTail_emit (sig : Signal) (s : State) (h : ViewSignal sig) :
    TraceTail s (emit sig s) :=
  ⟨[⟨sig, s.graphs.length, activeCount s.graphs, s.notes.length⟩], rfl, by
    intro e he
    rw [List.mem_singleton.mp he]
    exact h⟩

theorem traceTail_setWindowTitleDetail (d : String) (s : State) :
    TraceTail s (setWindowTitleDetail d s) := by
  unfold setWindowTitleDetail
  split
  · exact traceTail_refl s
  · exact traceTail_of_trace_eq rfl
      (traceTail_of_trace_eq (s := s) (t := emit Signal.windowTitleChanged s) rfl
        (traceTail_emit _ s (Or.inr (Or.inr rfl))))

theorem traceTail_dataFileLoaded (s : State) : TraceTail s (dataFileLoaded s) := by
  unfold dataFileLoaded
  split <;> exact traceTail_setWindowTitleDetail _ s

theorem traceTail_projectFileLoaded (s : State) : TraceTail s (projectFileLoaded s) := by
  unfold projectFileLoaded
  split
  · exact traceTail_of_trace_eq rfl (traceTail_setWindowTitleDetail "" s)
  · exact traceTail_of_trace_eq rfl (traceTail_setWindowTitleDetail _ s)

theorem traceTail_setDataFilePath (p : String) (s : State) :
    TraceTail s (setDataFilePath p s) := by
  unfold setDataFilePath
  split
  · exact traceTail_refl s
  · refine traceTail_trans ?_ (traceTail_dataFileLoaded _)
    exact traceTail_of_trace_eq (s := s) (t := emit Signal.dataFilePathChanged s) rfl
      (traceTail_emit _ s (Or.inl rfl))

theorem traceTail_setProjectFilePath (p : String) (s : State) :
    TraceTail s (setProjectFilePath p s) := by
  unfold setProjectFilePath
  split
  · exact traceTail_refl s
  · refine traceTail_trans ?_ (traceTail_projectFileLoaded _)
    exact traceTail_of_trace_eq (s := s) (t := emit Signal.projectFilePathChanged s) rfl
      (traceTail_emit _ s (Or.inr (Or.inl rfl)))

theorem traceTail_updateGuiState (s : State) : TraceTail s (updateGuiState s) := by
  unfold updateGuiState
  split
  · refine traceTail_trans (traceTail_trans ?_ (traceTail_setDataFilePath "" _))
      (traceTail_setProjectFilePath "" _)
    exact traceTail_of_trace_eq rfl (traceTail_refl s)
  · split
    · exact traceTail_of_trace_eq rfl (traceTail_refl s)
    · split
      · exact traceTail_of_trace_eq rfl (traceTail_refl s)
      · split
        · exact traceTail_of_trace_eq rfl (traceTail_refl s)
        · exact traceTail_refl s

/-! ## Clearing the stores -/

theorem clearGraphsFrom_core : ∀ (gs : List GraphData) (s : State), s.graphs = gs →
    core (clearGraphsFrom gs s) = { core s with graphs := [] } := by
  intro gs
  induction gs with
  | nil =>
    intro s h
    cases s
    simp only at h
    subst h
    rfl
  | cons g rest ih =>
    intro s _
    unfold clearGraphsFrom
    dsimp only
    split
    · rw [ih _ rfl]; rfl
    · rw [ih _ rfl]; rfl

theorem clearGraphsFrom_trace : ∀ (gs : List GraphData) (s : State), s.graphs = gs →
    ∃ pre, (clearGraphsFrom gs s).trace = s.trace ++ pre ∧
      pre.map (fun e => e.signal)
        = (gs.filter (fun g => g.active)).map (fun g => Signal.removed g.id) := by
  intro gs
  induction gs with
  | nil =>
    intro s _
    exact ⟨[], by simp [clearGraphsFrom], rfl⟩
  | cons g rest ih =>
    intro s _
    unfold clearGraphsFrom
    dsimp only
    split
    · rename_i hact
      obtain ⟨pre, he, hm⟩ := ih
        (rebuildGraphMenu (emit (Signal.removed g.id) { s with graphs := rest })) rfl
      refine ⟨⟨Signal.removed g.id, rest.length, activeCount rest, s.notes.length⟩ :: pre, ?_, ?_⟩
      · rw [he]
        show (s.trace ++ [_]) ++ pre = _
        simp
      · simp [List.filter_cons, hact, hm]
    · rename_i hact
      obtain ⟨pre, he, hm⟩ := ih { s with graphs := rest } rfl
      refine ⟨pre, he, ?_⟩
      simp [List.filter_cons, hact, hm]

theorem graphDataModelClear_core (s : State) :
    core (graphDataModelClear s) = { core s with graphs := [] } :=
  clearGraphsFrom_core s.graphs s rfl

theorem noteModelClear_core (s : State) :
    core (noteModelClear s) = { core s with notes := [], notesDataUpdated := (noteModelClear s).notesDataUpdated } := by
  unfold noteModelClear
  split
  · rename_i h
    cases s
    simp only [List.isEmpty_iff] at h
    subst h
    rfl
  · rfl

theorem noteModelClear_trace (s : State) :
    ∃ pre, (noteModelClear s).trace = s.trace ++ pre ∧
      pre.map (fun e => e.signal) = (if s.notes.isEmpty then [] else [Signal.notesCleared]) := by
  unfold noteModelClear
  split
  · exact ⟨[], by simp, rfl⟩
  · exact ⟨[⟨Signal.notesCleared, s.graphs.length, activeCount s.graphs, 0⟩], rfl, rfl⟩

/-- What the discard block does from phase DataLoaded: the store notifications
come first, then the Idle notification, seen with both stores empty, then only
notifications caused by the phase handler. -/
theorem discardLoadedData_spec (s : State) (hph : s.gui.guiState = GuiState.DATA_LOADED) :
    (∃ pre post,
      (discardLoadedData s).trace
        = s.trace ++ pre ++ [⟨Signal.guiStateChanged GuiState.INIT, 0, 0, 0⟩] ++ post ∧
      pre.map (fun e => e.signal) = clearSignals s ∧
      (∀ e ∈ post, ViewSignal e.signal)) ∧
    (discardLoadedData s).graphs = [] ∧
    (discardLoadedData s).notes = [] ∧
    (discardLoadedData s).gui.guiState = GuiState.INIT ∧
    (discardLoadedData s).calls = s.calls := by
  have hg := graphDataModelClear_core s
  have hn := noteModelClear_core (graphDataModelClear s)
  obtain ⟨pre1, ht1, hm1⟩ := clearGraphsFrom_trace s.graphs s rfl
  obtain ⟨pre2, ht2, hm2⟩ := noteModelClear_trace (graphDataModelClear s)
  have hnotes0 : (graphDataModelClear s).notes = s.notes := by
    have := congrArg (fun x => x.notes) hg
    exact this
  generalize hx : noteModelClear (graphDataModelClear s) = x at hn ht2 hm2
  have hxg : x.graphs = [] := by
    have := congrArg (fun x => x.graphs) hn
    have h2 := congrArg (fun x => x.graphs) hg
    exact this.trans h2
  have hxn : x.notes = [] := congrArg (fun x => x.notes) hn
  have hxph : x.gui.guiState = GuiState.DATA_LOADED := by
    have := congrArg (fun x => x.gui.guiState) hn
    have h2 := congrArg (fun x => x.gui.guiState) hg
    exact (this.trans h2).trans hph
  have hxc : x.calls = s.calls := by
    have := congrArg (fun x => x.calls) hn
    have h2 := congrArg (fun x => x.calls) hg
    exact this.trans h2
  have hdis : discardLoadedData s = updateGuiState (emit (Signal.guiStateChanged GuiState.INIT)
      { x with gui := enterState GuiState.INIT x.clock x.gui }) := by
    unfold discardLoadedData
    rw [hx]
    exact setGuiState_legal _ _ (by rw [hxph]; decide) (by rw [hxph]; rfl)
  obtain ⟨post, htp, hvp⟩ := traceTail_updateGuiState (emit (Signal.guiStateChanged GuiState.INIT)
      { x with gui := enterState GuiState.INIT x.clock x.gui })
  have hco := core_updateGuiState (emit (Signal.guiStateChanged GuiState.INIT)
      { x with gui := enterState GuiState.INIT x.clock x.gui })
  rw [← hdis] at htp hco
  refine ⟨⟨pre1 ++ pre2, post, ?_, ?_, hvp⟩, ?_, ?_, ?_, ?_⟩
  · rw [htp]
    show (x.trace ++ [⟨_, x.graphs.length, activeCount x.graphs, x.notes.length⟩]) ++ post = _
    rw [hxg, hxn, ht2]
    show ((graphDataModelClear s).trace ++ pre2 ++ _) ++ post = _
    have ht1b : (graphDataModelClear s).trace = s.trace ++ pre1 := ht1
    rw [ht1b]
    simp [activeCount]
  · rw [List.map_append, hm1, hm2, hnotes0]
    rfl
  · exact (graphs_of_core hco).trans hxg
  · exact (notes_of_core hco).trans hxn
  · exact guiState_of_core hco
  · exact (calls_of_core hco).trans hxc

theorem activeCount_nil : activeCount [] = 0 := rfl

theorem startScope_dataLoaded (commStarted : Bool) (s : State)
    (hph : s.gui.guiState = GuiState.DATA_LOADED) :
    startScope commStarted s = call (Call.showError cNoRegisterError) (discardLoadedData s) := by
  have hg : (discardLoadedData s).graphs = [] := (discardLoadedData_spec s hph).2.1
  unfold startScope
  simp only [if_pos hph, hg, activeCount_nil, ne_eq, not_true_eq_false, if_false]

theorem showRegisterDialog_dataLoaded_yes (mbcFile : String) (s : State)
    (hph : s.gui.guiState = GuiState.DATA_LOADED) :
    showRegisterDialog mbcFile StandardButton.Yes s
      = call (Call.registerDialogExec mbcFile)
          (discardLoadedData (call (Call.question "Clear data?") s)) := by
  unfold showRegisterDialog
  simp only [if_pos hph, ne_eq, not_true_eq_false, if_false]

/-- Claim C3: both DataLoaded to Idle transitions of the window (in `startScope`,
and in `showRegisterDialog` after the user confirms) clear the registry and the
note store before the phase is set to Idle.  The history grows by the remove
notification of each active channel and the clear notification of the notes,
then the Idle notification, delivered while the registry holds no channel and
the note store no note, and after it only notifications raised by the phase
handler itself; both stores are empty and the phase is Idle at the end. -/
theorem discard_clears_stores_before_idle (commStarted : Bool) (mbcFile : String) (s : State)
    (hph : s.gui.guiState = GuiState.DATA_LOADED) :
    ((∃ pre post,
        (startScope commStarted s).trace
          = s.trace ++ pre ++ [⟨Signal.guiStateChanged GuiState.INIT, 0, 0, 0⟩] ++ post ∧
        pre.map (fun e => e.signal) = clearSignals s ∧
        (∀ e ∈ post, ViewSignal e.signal)) ∧
      (startScope commStarted s).graphs = [] ∧
      (startScope commStarted s).notes = [] ∧
      (startScope commStarted s).gui.guiState = GuiState.INIT) ∧
    ((∃ pre post,
        (showRegisterDialog mbcFile StandardButton.Yes s).trace
          = s.trace ++ pre ++ [⟨Signal.guiStateChanged GuiState.INIT, 0, 0, 0⟩] ++ post ∧
        pre.map (fun e => e.signal) = clearSignals s ∧
        (∀ e ∈ post, ViewSignal e.signal)) ∧
      (showRegisterDialog mbcFile StandardButton.Yes s).graphs = [] ∧
      (showRegisterDialog mbcFile StandardButton.Yes s).notes = [] ∧
      (showRegisterDialog mbcFile StandardButton.Yes s).gui.guiState = GuiState.INIT) := by
  constructor
  · rw [startScope_dataLoaded commStarted s hph]
    obtain ⟨htr, hg, hn, hp, _⟩ := discardLoadedData_spec s hph
    exact ⟨htr, hg, hn, hp⟩
  · rw [showRegisterDialog_dataLoaded_yes mbcFile s hph]
    obtain ⟨htr, hg, hn, hp, _⟩ :=
      discardLoadedData_spec (call (Call.question "Clear data?") s) hph
    exact ⟨htr, hg, hn, hp⟩

/-- Witness of claim C3 on the window with three active channels and two notes:
the three remove notifications and the notes notification come before the Idle
notification. -/
theorem discard_clears_stores_before_idle_witness :
    loadedThreeTwo.gui.guiState = GuiState.DATA_LOADED ∧
    (startScope true loadedThreeTwo).graphs = [] ∧
    (showRegisterDialog "" StandardButton.Yes loadedThreeTwo).notes = [] ∧
    (startScope true loadedThreeTwo).trace.map (fun e => e.signal)
      = [Signal.removed 1, Signal.removed 3, Signal.removed 4, Signal.notesCleared,
         Signal.guiStateChanged GuiState.INIT, Signal.dataFilePathChanged,
         Signal.windowTitleChanged] :=
  ⟨rfl, (discard_clears_stores_before_idle true "" loadedThreeTwo rfl).1.2.1,
   (discard_clears_stores_before_idle true "" loadedThreeTwo rfl).2.2.2.1, by decide⟩

/-! ## File suffixes -/

theorem dropWhile_ne_split (sep : Char) (l : List Char) :
    l.dropWhile (fun c => c != sep) = [] ∨
    ∃ rest, l.dropWhile (fun c => c != sep) = sep :: rest := by
  induction l with
  | nil => left; rfl
  | cons a l ih =>
    by_cases ha : a = sep
    · right
      exact ⟨l, by simp [List.dropWhile_cons, ha]⟩
    · simpa [List.dropWhile_cons, ha] using ih

/-- When the text after the first dot is not empty and holds no further dot, it
is also the text after the last dot. -/
theorem afterLast_dot_of_first (name cs : List Char)
    (hcs : ((name.dropWhile (fun c => c != '.')).drop 1) = cs) (hne : cs ≠ [])
    (hnd : '.' ∉ cs) : '.' ∈ name ∧ afterLast '.' name = cs := by
  rcases dropWhile_ne_split '.' name with h | ⟨rest, h⟩
  · rw [h] at hcs
    exact absurd hcs.symm hne
  · rw [h] at hcs
    simp only [List.drop_succ_cons, List.drop_zero] at hcs
    subst hcs
    have hsplit : name = name.takeWhile (fun c => c != '.') ++ '.' :: rest := by
      conv_lhs => rw [← List.takeWhile_append_dropWhile (fun c => c != '.') name, h]
    constructor
    · rw [hsplit]; simp
    · unfold afterLast
      rw [hsplit, List.reverse_append, List.reverse_cons, List.append_assoc]
      rw [List.takeWhile_append_of_pos (by
        intro a ha
        have : a ∈ rest := List.mem_reverse.mp ha
        simp only [bne_iff_ne, ne_eq]
        intro h2
        exact hnd (h2 ▸ this))]
      simp

theorem suffix_eq_completeSuffix (f : String)
    (hne : (completeSuffix f).toList ≠ []) (hnd : '.' ∉ (completeSuffix f).toList) :
    suffix f = completeSuffix f := by
  obtain ⟨hmem, heq⟩ := afterLast_dot_of_first (afterLast '/' f.toList)
    (completeSuffix f).toList rfl hne hnd
  unfold suffix
  rw [if_pos hmem, heq]
  rfl

theorem toLower_known_no_dot (t : String) (h : knownSuffix (toLower t) = true) :
    t.toList ≠ [] ∧ '.' ∉ t.toList := by
  have hk : t.toList.map Char.toLower = "mbs".toList ∨ t.toList.map Char.toLower = "csv".toList
      ∨ t.toList.map Char.toLower = "mbc".toList := by
    simp only [knownSuffix, Bool.or_eq_true, decide_eq_true_eq] at h
    rcases h with (h | h) | h
    · exact Or.inl (congrArg String.toList h)
    · exact Or.inr (Or.inl (congrArg String.toList h))
    · exact Or.inr (Or.inr (congrArg String.toList h))
  constructor
  · intro hnil
    rw [hnil] at hk
    revert hk
    decide
  · intro hdot
    have hm : Char.toLower '.' ∈ t.toList.map Char.toLower := List.mem_map_of_mem _ hdot
    rcases hk with hk | hk | hk <;> rw [hk] at hm <;> revert hm <;> decide

theorem suffix_of_known_completeSuffix (f : String)
    (h : knownSuffix (toLower (completeSuffix f)) = true) : suffix f = completeSuffix f :=
  suffix_eq_completeSuffix f (toLower_known_no_dot _ h).1 (toLower_known_no_dot _ h).2

/-! ## Drop dispatch -/

theorem dropEvent_refused (f : String) (r : StandardButton) (s : State)
    (h : s.commActive = true) : dropEvent f r s = s := by
  unfold dropEvent
  simp [h]

theorem dropEvent_unknown (f : String) (r : StandardButton) (s : State)
    (hidle : s.commActive = false)
    (h : knownSuffix (toLower (completeSuffix f)) = false) :
    dropEvent f r s = setLastDir (dirPath f) s := by
  simp only [knownSuffix, Bool.or_eq_false_iff, decide_eq_false_iff_not] at h
  unfold dropEvent
  simp [hidle, h.1.1, h.1.2, h.2]

theorem showRegisterDialog_calls (f : String) (r : StandardButton) (s : State) :
    ∃ l, (showRegisterDialog f r s).calls = s.calls ++ l ∧
      ∀ c ∈ l, c = Call.question "Clear data?" ∨ c = Call.registerDialogExec f := by
  by_cases hph : s.gui.guiState = GuiState.DATA_LOADED
  · by_cases hr : r = StandardButton.Yes
    · subst hr
      rw [showRegisterDialog_dataLoaded_yes f s hph]
      have hc := (discardLoadedData_spec (call (Call.question "Clear data?") s) hph).2.2.2.2
      refine ⟨[Call.question "Clear data?", Call.registerDialogExec f], ?_, ?_⟩
      · show (discardLoadedData (call (Call.question "Clear data?") s)).calls ++ [_] = _
        rw [hc]
        show (s.calls ++ [_]) ++ [_] = _
        simp
      · intro c hc2
        simpa using hc2
    · refine ⟨[Call.question "Clear data?"], ?_, by simp⟩
      unfold showRegisterDialog
      simp only [if_pos hph, ne_eq, hr, not_false_eq_true, if_true]
      rfl
  · refine ⟨[Call.registerDialogExec f], ?_, by simp⟩
    unfold showRegisterDialog
    simp only [if_neg hph]
    rfl

/-- Counterexample to claim C4 as stated: the path "/home/u/log.2020.csv" ends
in ".csv" and acquisition is not running, yet the drop invokes no loader at all,
because the text after the first dot of the file name is "2020.csv". -/
theorem dropEvent_second_dot_csv_ignored :
    idleEmpty.commActive = false ∧
    ".csv".toList <:+ "/home/u/log.2020.csv".toList ∧
    completeSuffix "/home/u/log.2020.csv" = "2020.csv" ∧
    (dropEvent "/home/u/log.2020.csv" StandardButton.Yes idleEmpty).calls = [] := by
  decide

/-- Claim C4, amended: when acquisition is not running, a dropped path whose
complete suffix (the text after the first dot of the file name) is "csv" in any
letter case is handed to `loadDataFile` and to no other handler; one whose
complete suffix is "mbs" only to `loadProjectFile`; one whose complete suffix is
"mbc" only to `showRegisterDialog`, which invokes nothing but its question and
the register dialog. -/
theorem dropEvent_routes_by_complete_suffix (f : String) (r : StandardButton) (s : State)
    (hidle : s.commActive = false) :
    (toLower (completeSuffix f) = "csv" →
      (dropEvent f r s).calls = s.calls ++ [Call.loadDataFile f]) ∧
    (toLower (completeSuffix f) = "mbs" →
      (dropEvent f r s).calls = s.calls ++ [Call.loadProjectFile f]) ∧
    (toLower (completeSuffix f) = "mbc" →
      dropEvent f r s = showRegisterDialog f r (setLastDir (dirPath f) s) ∧
      ∃ l, (dropEvent f r s).calls = s.calls ++ l ∧
        ∀ c ∈ l, c = Call.question "Clear data?" ∨ c = Call.registerDialogExec f) := by
  refine ⟨?_, ?_, ?_⟩
  · intro h
    unfold dropEvent
    simp only [hidle, h]
    rfl
  · intro h
    unfold dropEvent
    simp only [hidle, h]
    rfl
  · intro h
    have hd : dropEvent f r s = showRegisterDialog f r (setLastDir (dirPath f) s) := by
      unfold dropEvent
      simp only [hidle, h]
      rfl
    refine ⟨hd, ?_⟩
    rw [hd]
    exact showRegisterDialog_calls f r (setLastDir (dirPath f) s)

/-- Witness of the amended claim C4: "log.CSV" dropped on an idle window goes to
the data import loader only. -/
theorem dropEvent_routes_by_complete_suffix_witness :
    idleEmpty.commActive = false ∧
    toLower (completeSuffix "/home/u/log.CSV") = "csv" ∧
    (dropEvent "/home/u/log.CSV" StandardButton.No idleEmpty).calls
      = idleEmpty.calls ++ [Call.loadDataFile "/home/u/log.CSV"] :=
  ⟨rfl, by decide,
   (dropEvent_routes_by_complete_suffix "/home/u/log.CSV" StandardButton.No idleEmpty rfl).1
     (by decide)⟩

/-- Claim C5: a dropped path whose suffix is none of mbs, csv, mbc, compared
without regard to letter case, makes `dropEvent` invoke no collaborator at all:
none of the three loaders and no error message.  The suffix may be read as the
text after the last dot of the file name or as the text after its first dot.
The only effect, when acquisition is not running, is the last-used directory. -/
theorem dropEvent_unknown_suffix_ignored (f : String) (r : StandardButton) (s : State)
    (h : knownSuffix (toLower (suffix f)) = false ∨
      knownSuffix (toLower (completeSuffix f)) = false) :
    (dropEvent f r s).calls = s.calls ∧
    (dropEvent f r s = s ∨ dropEvent f r s = setLastDir (dirPath f) s) := by
  have hc : knownSuffix (toLower (completeSuffix f)) = false := by
    rcases h with h | h
    · cases hk : knownSuffix (toLower (completeSuffix f))
      · rfl
      · rw [suffix_of_known_completeSuffix f hk, hk] at h
        exact absurd h (by decide)
    · exact h
  cases hact : s.commActive
  · have hd := dropEvent_unknown f r s hact hc
    rw [hd]
    exact ⟨rfl, Or.inr rfl⟩
  · have hd := dropEvent_refused f r s hact
    rw [hd]
    exact ⟨rfl, Or.inl rfl⟩

/-- Witness of claim C5: a path ending in ".unknown" dropped on an idle window
invokes nothing. -/
theorem dropEvent_unknown_suffix_ignored_witness :
    (knownSuffix (toLower (suffix "/home/u/notes.unknown")) = false ∨
      knownSuffix (toLower (completeSuffix "/home/u/notes.unknown")) = false) ∧
    (dropEvent "/home/u/notes.unknown" StandardButton.Yes idleEmpty).calls = idleEmpty.calls :=
  ⟨Or.inl (by decide),
   (dropEvent_unknown_suffix_ignored "/home/u/notes.unknown" StandardButton.Yes idleEmpty
     (Or.inl (by decide))).1⟩

/-! ## Phase and acquisition flag along the slots -/

theorem setGuiState_commActive (st : GuiState) (s : State) :
    (setGuiState st s).commActive = s.commActive := by
  unfold setGuiState
  split
  · rfl
  · split
    · rfl
    · exact (commActive_of_core (core_updateGuiState _)).trans rfl

theorem setGuiState_guiState_cases (st : GuiState) (s : State) :
    (setGuiState st s).gui.guiState = s.gui.guiState ∨ (setGuiState st s).gui.guiState = st := by
  unfold setGuiState
  split
  · exact Or.inl rfl
  · split
    · exact Or.inl rfl
    · right
      rw [guiState_of_core (core_updateGuiState _)]
      exact enterState_guiState _ _ _

theorem graphDataModelClear_commActive (s : State) :
    (graphDataModelClear s).commActive = s.commActive :=
  congrArg (fun x => x.commActive) (graphDataModelClear_core s)

theorem graphDataModelClear_gui_guiState (s : State) :
    (graphDataModelClear s).gui.guiState = s.gui.guiState :=
  congrArg (fun x => x.gui.guiState) (graphDataModelClear_core s)

theorem noteModelClear_commActive (s : State) :
    (noteModelClear s).commActive = s.commActive :=
  congrArg (fun x => x.commActive) (noteModelClear_core s)

theorem discardLoadedData_commActive (s : State) :
    (discardLoadedData s).commActive = s.commActive := by
  unfold discardLoadedData
  rw [setGuiState_commActive, noteModelClear_commActive, graphDataModelClear_commActive]

theorem discardLoadedData_guiState_cases (s : State) :
    (discardLoadedData s).gui.guiState = s.gui.guiState ∨
    (discardLoadedData s).gui.guiState = GuiState.INIT := by
  unfold discardLoadedData
  rcases setGuiState_guiState_cases GuiState.INIT (noteModelClear (graphDataModelClear s))
    with h | h
  · left
    rw [h, noteModelClear_gui, graphDataModelClear_gui_guiState]
  · exact Or.inr h

theorem resetCommunicationStats_commActive (s : State) :
    (resetCommunicationStats s).commActive = s.commActive := by
  unfold resetCommunicationStats
  dsimp only
  split <;> rfl

theorem clearData_commActive (s : State) : (clearData s).commActive = s.commActive := by
  unfold clearData
  show (noteModelClear _).commActive = _
  rw [noteModelClear_commActive]
  exact resetCommunicationStats_commActive s

theorem setxAxisScale_commActive (m : AxisScaleOptions) (s : State) :
    (setxAxisScale m s).commActive = s.commActive := by
  unfold setxAxisScale updatexAxisSlidingMode
  repeat (first | rfl | split)

theorem setyAxisScale_commActive (m : AxisScaleOptions) (s : State) :
    (setyAxisScale m s).commActive = s.commActive := by
  unfold setyAxisScale updateyAxisSlidingMode
  repeat (first | rfl | split)

theorem startScope_accepted_commActive (commStarted : Bool) (s : State)
    (hph : s.gui.guiState ≠ GuiState.DATA_LOADED) (hact : activeCount s.graphs ≠ 0) :
    (startScope commStarted s).commActive = true := by
  rw [startScope_accepted commStarted s hph hact]
  have h1 : ∀ x : State, (yAxisManualToAuto x).commActive = x.commActive := by
    intro x; unfold yAxisManualToAuto; split
    · exact setyAxisScale_commActive _ _
    · rfl
  have h2 : ∀ x : State, (xAxisManualToAuto x).commActive = x.commActive := by
    intro x; unfold xAxisManualToAuto; split
    · exact setxAxisScale_commActive _ _
    · rfl
  have h3 : ∀ x : State, (enableExporterIfWriting x).commActive = x.commActive := by
    intro x; unfold enableExporterIfWriting; split <;> rfl
  have h4 : ∀ x : State, (clearDataIfStarted commStarted x).commActive = x.commActive := by
    intro x; unfold clearDataIfStarted; split
    · exact clearData_commActive x
    · rfl
  rw [h1, h2, h3, h4]
  rfl

theorem stopScope_guiState (s : State) :
    (stopScope s).gui.guiState
      = (if s.gui.guiState = GuiState.STARTED then GuiState.STOPPED else s.gui.guiState) := by
  have hgui : (disableExporterIfWriting (stopCommunication s)).gui = s.gui := by
    unfold disableExporterIfWriting
    split <;> rfl
  have hph : (disableExporterIfWriting (stopCommunication s)).gui.guiState = s.gui.guiState := by
    rw [hgui]
  unfold stopScope
  dsimp only
  generalize disableExporterIfWriting (stopCommunication s) = x at hph
  cases hs : s.gui.guiState
  · rw [setGuiState_illegal GuiState.STOPPED x (by rw [hph, hs]; rfl), hph, hs]; rfl
  · rw [setGuiState_legal_guiState GuiState.STOPPED x (by rw [hph, hs]; rfl)]; rfl
  · rw [setGuiState_same GuiState.STOPPED x (by rw [hph, hs]), hph, hs]; rfl
  · rw [setGuiState_illegal GuiState.STOPPED x (by rw [hph, hs]; rfl), hph, hs]; rfl

theorem showRegisterDialog_commActive (f : String) (r : StandardButton) (s : State) :
    (showRegisterDialog f r s).commActive = s.commActive := by
  unfold showRegisterDialog
  split
  · dsimp only
    split
    · rfl
    · show (discardLoadedData _).commActive = _
      rw [discardLoadedData_commActive]
      rfl
  · rfl

theorem showRegisterDialog_guiState_cases (f : String) (r : StandardButton) (s : State) :
    (showRegisterDialog f r s).gui.guiState = s.gui.guiState ∨
    (showRegisterDialog f r s).gui.guiState = GuiState.INIT := by
  unfold showRegisterDialog
  split
  · dsimp only
    split
    · exact Or.inl rfl
    · exact discardLoadedData_guiState_cases (call (Call.question "Clear data?") s)
  · exact Or.inl rfl

theorem dropEvent_commActive (f : String) (r : StandardButton) (s : State) :
    (dropEvent f r s).commActive = s.commActive := by
  unfold dropEvent
  split
  · dsimp only
    split
    · rfl
    · split
      · rfl
      · split
        · rw [showRegisterDialog_commActive]; rfl
        · rfl
  · rfl

theorem dropEvent_guiState_cases (f : String) (r : StandardButton) (s : State) :
    (dropEvent f r s).gui.guiState = s.gui.guiState ∨
    (dropEvent f r s).gui.guiState = GuiState.INIT := by
  unfold dropEvent
  split
  · dsimp only
    split
    · exact Or.inl rfl
    · split
      · exact Or.inl rfl
      · split
        · exact showRegisterDialog_guiState_cases f r (setLastDir (dirPath f) s)
        · exact Or.inl rfl
  · exact Or.inl rfl

theorem closeEvent_phase_comm (e : QCloseEvent) (r : StandardButton) (ok : Bool) (s : State) :
    (closeEvent e r ok s).2.gui = s.gui ∧ (closeEvent e r ok s).2.commActive = s.commActive := by
  unfold closeEvent updateNoteLines
  repeat (first | exact ⟨rfl, rfl⟩ | split | dsimp only)

theorem updateRuntime_phase_comm (s : State) :
    (updateRuntime s).gui = s.gui ∧ (updateRuntime s).commActive = s.commActive := by
  unfold updateRuntime
  cases s.commActive <;> exact ⟨rfl, rfl⟩

/-- On every state the window can be in, phase Running goes with acquisition in
progress: the flag read by the drop guard is set. -/
theorem reachable_running_active (s : State) (h : Reachable s) :
    s.gui.guiState = GuiState.STARTED → s.commActive = true := by
  induction h with
  | init s hi _ => intro hs; rw [hi] at hs; exact absurd hs (by decide)
  | startScope c s _ ih =>
    intro hs
    by_cases hph : s.gui.guiState = GuiState.DATA_LOADED
    · have := (discardLoadedData_spec s hph).2.2.2.1
      rw [startScope_dataLoaded c s hph] at hs
      have hs2 : (discardLoadedData s).gui.guiState = GuiState.STARTED := hs
      rw [this] at hs2
      exact absurd hs2 (by decide)
    · by_cases hact : activeCount s.graphs = 0
      · rw [startScope_rejected c s hph hact] at hs ⊢
        exact ih hs
      · exact startScope_accepted_commActive c s hph hact
  | stopScope s _ _ =>
    intro hs
    rw [stopScope_guiState] at hs
    split at hs
    · exact absurd hs (by decide)
    · rename_i hne; exact absurd hs hne
  | clearData s _ ih =>
    intro hs
    rw [clearData_guiState] at hs
    rw [clearData_commActive]
    exact ih hs
  | showRegisterDialog f r s _ ih =>
    intro hs
    rw [showRegisterDialog_commActive]
    rcases showRegisterDialog_guiState_cases f r s with h | h
    · exact ih (h ▸ hs)
    · rw [h] at hs; exact absurd hs (by decide)
  | dropEvent f r s _ ih =>
    intro hs
    rw [dropEvent_commActive]
    rcases dropEvent_guiState_cases f r s with h | h
    · exact ih (h ▸ hs)
    · rw [h] at hs; exact absurd hs (by decide)
  | closeEvent e r ok s _ ih =>
    intro hs
    rw [(closeEvent_phase_comm e r ok s).2]
    rw [(closeEvent_phase_comm e r ok s).1] at hs
    exact ih hs
  | updateRuntime s _ ih =>
    intro hs
    rw [(updateRuntime_phase_comm s).2]
    rw [(updateRuntime_phase_comm s).1] at hs
    exact ih hs
  | importData s _ ih =>
    intro hs
    rw [setGuiState_commActive]
    rcases setGuiState_guiState_cases GuiState.DATA_LOADED s with h | h
    · exact ih (h ▸ hs)
    · rw [h] at hs; exact absurd hs (by decide)
  | collaborator s t _ hp hc ih =>
    intro hs
    rw [hc]
    exact ih (hp ▸ hs)

/-- Claim C6: while the phase is Running, `dropEvent` is refused outright for
every dropped path and every suffix: the state is returned as it was, so no
loader is invoked and nothing, the last-used directory included, is changed.
The guard of `dropEvent` reads the acquisition flag of the communication
manager, which is set on every state the window can reach in phase Running. -/
theorem dropEvent_refused_while_running (s : State) (hr : Reachable s)
    (hs : s.gui.guiState = GuiState.STARTED) (f : String) (r : StandardButton) :
    dropEvent f r s = s ∧
    (dropEvent f r s).calls = s.calls ∧
    (dropEvent f r s).gui.lastDir = s.gui.lastDir := by
  have h := dropEvent_refused f r s (reachable_running_active s hr hs)
  rw [h]
  exact ⟨rfl, rfl, rfl⟩

/-- Witness of claim C6: after a start with one active channel the window is
Running, and a dropped project file changes nothing. -/
theorem dropEvent_refused_while_running_witness :
    Reachable runningOne ∧ runningOne.gui.guiState = GuiState.STARTED ∧
    dropEvent "/home/u/setup.mbs" StandardButton.Yes runningOne = runningOne :=
  ⟨Reachable.startScope false idleOne (Reachable.init idleOne rfl rfl), by decide,
   (dropEvent_refused_while_running runningOne
     (Reachable.startScope false idleOne (Reachable.init idleOne rfl rfl)) (by decide)
     "/home/u/setup.mbs" StandardButton.Yes).1⟩

/-- Claim C7: `closeEvent` in phase DataLoaded with changed notes, for the three
buttons the question offers.  The close is accepted iff the user chose Discard,
or chose Save and `updateNoteLines` reported success; Cancel aborts the close;
Save with a reported failure aborts the close and leaves the phase DataLoaded;
`updateNoteLines` is invoked for the Save choice only.  The gui model is never
changed. -/
theorem closeEvent_dirty_notes (e : QCloseEvent) (r : StandardButton) (ok : Bool) (s : State)
    (hph : s.gui.guiState = GuiState.DATA_LOADED) (hd : s.notesDataUpdated = true)
    (hr : r = StandardButton.Cancel ∨ r = StandardButton.Discard ∨ r = StandardButton.Save) :
    ((closeEvent e r ok s).1.accepted = true ↔
      (r = StandardButton.Discard ∨ (r = StandardButton.Save ∧ ok = true))) ∧
    (r = StandardButton.Cancel → (closeEvent e r ok s).1.accepted = false) ∧
    (r = StandardButton.Save → ok = false →
      (closeEvent e r ok s).1.accepted = false ∧
      (closeEvent e r ok s).2.gui.guiState = GuiState.DATA_LOADED) ∧
    (closeEvent e r ok s).2.calls
      = s.calls ++ [Call.question s.view.windowTitle]
          ++ (if r = StandardButton.Save then [Call.updateNoteLines s.gui.dataFilePath] else []) ∧
    (closeEvent e r ok s).2.gui = s.gui := by
  rcases hr with h | h | h <;> subst h <;> cases ok <;>
    simp [closeEvent, updateNoteLines, call, hph, hd]

/-- Witness of claim C7: Save with a reported failure aborts the close. -/
theorem closeEvent_dirty_notes_witness :
    loadedDirty.gui.guiState = GuiState.DATA_LOADED ∧ loadedDirty.notesDataUpdated = true ∧
    (closeEvent {} StandardButton.Save false loadedDirty).1.accepted = false ∧
    (closeEvent {} StandardButton.Save false loadedDirty).2.gui.guiState
      = GuiState.DATA_LOADED :=
  ⟨rfl, rfl,
   (closeEvent_dirty_notes {} StandardButton.Save false loadedDirty rfl rfl
     (Or.inr (Or.inr rfl))).2.2.1 rfl rfl⟩

/-! ## Widgets after the phase handler -/

theorem viewKernel_setWindowTitleDetail (d : String) (s : State) :
    viewKernel (setWindowTitleDetail d s).view = viewKernel s.view := by
  unfold setWindowTitleDetail
  split <;> rfl

theorem viewKernel_dataFileLoaded (s : State) :
    viewKernel (dataFileLoaded s).view = viewKernel s.view := by
  unfold dataFileLoaded
  split <;> exact viewKernel_setWindowTitleDetail _ _

theorem viewKernel_projectFileLoaded (s : State) :
    viewKernel (projectFileLoaded s).view = viewKernel s.view := by
  unfold projectFileLoaded
  split
  · exact viewKernel_setWindowTitleDetail "" s
  · exact viewKernel_setWindowTitleDetail _ s

theorem viewKernel_setDataFilePath (p : String) (s : State) :
    viewKernel (setDataFilePath p s).view = viewKernel s.view := by
  unfold setDataFilePath
  split
  · rfl
  · rw [viewKernel_dataFileLoaded]; rfl

theorem viewKernel_setProjectFilePath (p : String) (s : State) :
    viewKernel (setProjectFilePath p s).view = viewKernel s.view := by
  unfold setProjectFilePath
  split
  · rfl
  · rw [viewKernel_projectFileLoaded]; rfl

theorem init_tail_field {α : Type} (f : View → α) (hf : ∀ v, f (viewKernel v) = f v)
    (x : State) : f (setProjectFilePath "" (setDataFilePath "" x)).view = f x.view := by
  rw [← hf, viewKernel_setProjectFilePath, viewKernel_setDataFilePath, hf]

/-- The status label and the enabled flags that `updateGuiState` writes in every
phase, as functions of the phase. -/
theorem updateGuiState_view (s : State) :
    (updateGuiState s).view.statusState
      = (match s.gui.guiState with
         | GuiState.INIT => cStateStopped
         | GuiState.STARTED => cStateRunning
         | GuiState.STOPPED => cStateStopped
         | GuiState.DATA_LOADED => cStateDataLoaded) ∧
    (updateGuiState s).view.actionStop = decide (s.gui.guiState = GuiState.STARTED) ∧
    (updateGuiState s).view.actionStart = decide (s.gui.guiState ≠ GuiState.STARTED) ∧
    (updateGuiState s).view.actionConnectionSettings
      = decide (s.gui.guiState ≠ GuiState.STARTED) ∧
    (updateGuiState s).view.actionLogSettings = decide (s.gui.guiState ≠ GuiState.STARTED) ∧
    (updateGuiState s).view.actionRegisterSettings
      = decide (s.gui.guiState ≠ GuiState.STARTED) ∧
    (updateGuiState s).view.actionImportDataFile
      = decide (s.gui.guiState ≠ GuiState.STARTED) ∧
    (updateGuiState s).view.actionLoadProjectFile
      = decide (s.gui.guiState ≠ GuiState.STARTED) ∧
    (updateGuiState s).view.actionExportDataCsv = decide (s.gui.guiState = GuiState.STOPPED) ∧
    (updateGuiState s).view.actionExportImage
      = decide (s.gui.guiState = GuiState.STOPPED ∨ s.gui.guiState = GuiState.DATA_LOADED) ∧
    (updateGuiState s).view.actionExportSettings
      = decide (s.gui.guiState = GuiState.INIT ∨ s.gui.guiState = GuiState.STOPPED) := by
  cases hs : s.gui.guiState
  · unfold updateGuiState
    rw [if_pos hs]
    dsimp only
    exact ⟨init_tail_field (fun v => v.statusState) (fun _ => rfl) _,
      init_tail_field (fun v => v.actionStop) (fun _ => rfl) _,
      init_tail_field (fun v => v.actionStart) (fun _ => rfl) _,
      init_tail_field (fun v => v.actionConnectionSettings) (fun _ => rfl) _,
      init_tail_field (fun v => v.actionLogSettings) (fun _ => rfl) _,
      init_tail_field (fun v => v.actionRegisterSettings) (fun _ => rfl) _,
      init_tail_field (fun v => v.actionImportDataFile) (fun _ => rfl) _,
      init_tail_field (fun v => v.actionLoadProjectFile) (fun _ => rfl) _,
      init_tail_field (fun v => v.actionExportDataCsv) (fun _ => rfl) _,
      init_tail_field (fun v => v.actionExportImage) (fun _ => rfl) _,
      init_tail_field (fun v => v.actionExportSettings) (fun _ => rfl) _⟩
  · unfold updateGuiState
    simp [hs]
  · unfold updateGuiState
    simp [hs]
  · unfold updateGuiState
    simp [hs]

/-- The widgets that `updateGuiState` writes in some phases only: the reload
action and the visibility of the runtime and statistics fields. -/
theorem updateGuiState_view_partial (s : State) :
    (s.gui.guiState = GuiState.STARTED ∨ s.gui.guiState = GuiState.DATA_LOADED →
      (updateGuiState s).view.actionReloadProjectFile = false) ∧
    (s.gui.guiState = GuiState.STOPPED →
      (updateGuiState s).view.actionReloadProjectFile = !s.gui.projectFilePath.isEmpty) ∧
    (s.gui.guiState = GuiState.INIT ∨ s.gui.guiState = GuiState.STARTED →
      (updateGuiState s).view.statusRuntimeVisible = true) ∧
    (s.gui.guiState = GuiState.DATA_LOADED →
      (updateGuiState s).view.statusRuntimeVisible = false ∧
      (updateGuiState s).view.statusStatsVisible = false) := by
  refine ⟨?_, ?_, ?_, ?_⟩
  · intro h
    rcases h with h | h <;> (unfold updateGuiState; simp [h])
  · intro h
    unfold updateGuiState
    simp [h]
  · intro h
    rcases h with h | h
    · unfold updateGuiState
      rw [if_pos h]
      dsimp only
      exact init_tail_field (fun v => v.statusRuntimeVisible) (fun _ => rfl) _
    · unfold updateGuiState
      simp [h]
  · intro h
    unfold updateGuiState
    simp [h]

/-- Counterexample to claim C8 as stated: two stopped windows, one without and
one with a project file, have the same phase, yet after `updateGuiState` the
reload action is disabled in the first and enabled in the second. -/
theorem updateGuiState_reload_depends_on_project :
    stoppedNoProject.gui.guiState = stoppedWithProject.gui.guiState ∧
    (updateGuiState stoppedNoProject).view.actionReloadProjectFile = false ∧
    (updateGuiState stoppedWithProject).view.actionReloadProjectFile = true := by
  decide

/-- Claim C8, amended: for two states with the same phase, after `updateGuiState`
the status label text and the enabled flags of Start, Stop, the connection, log
and register settings, import data, load project and the three exports are
identical.  The reload action is identical (disabled) in Running and
DataLoaded, and in Stopped it is enabled iff a project file path is set.  The
visibility of the runtime field is identical in every phase but Stopped, and
in DataLoaded the statistics field is hidden. -/
theorem updateGuiState_view_by_phase (s t : State) (h : s.gui.guiState = t.gui.guiState) :
    (updateGuiState s).view.statusState = (updateGuiState t).view.statusState ∧
    (updateGuiState s).view.actionStart = (updateGuiState t).view.actionStart ∧
    (updateGuiState s).view.actionStop = (updateGuiState t).view.actionStop ∧
    (updateGuiState s).view.actionConnectionSettings
      = (updateGuiState t).view.actionConnectionSettings ∧
    (updateGuiState s).view.actionLogSettings = (updateGuiState t).view.actionLogSettings ∧
    (updateGuiState s).view.actionRegisterSettings
      = (updateGuiState t).view.actionRegisterSettings ∧
    (updateGuiState s).view.actionImportDataFile
      = (updateGuiState t).view.actionImportDataFile ∧
    (updateGuiState s).view.actionLoadProjectFile
      = (updateGuiState t).view.actionLoadProjectFile ∧
    (updateGuiState s).view.actionExportDataCsv
      = (updateGuiState t).view.actionExportDataCsv ∧
    (updateGuiState s).view.actionExportSettings
      = (updateGuiState t).view.actionExportSettings ∧
    (updateGuiState s).view.actionExportImage = (updateGuiState t).view.actionExportImage ∧
    (s.gui.guiState = GuiState.STARTED ∨ s.gui.guiState = GuiState.DATA_LOADED →
      (updateGuiState s).view.actionReloadProjectFile = false ∧
      (updateGuiState t).view.actionReloadProjectFile = false) ∧
    (s.gui.guiState = GuiState.STOPPED →
      (updateGuiState s).view.actionReloadProjectFile = (!s.gui.projectFilePath.isEmpty) ∧
      (updateGuiState t).view.actionReloadProjectFile = (!t.gui.projectFilePath.isEmpty)) ∧
    (s.gui.guiState ≠ GuiState.STOPPED →
      (updateGuiState s).view.statusRuntimeVisible
        = (updateGuiState t).view.statusRuntimeVisible) ∧
    (s.gui.guiState = GuiState.DATA_LOADED →
      (updateGuiState s).view.statusStatsVisible = false ∧
      (updateGuiState t).view.statusStatsVisible = false) := by
  obtain ⟨a1, a2, a3, a4, a5, a6, a7, a8, a9, a10, a11⟩ := updateGuiState_view s
  obtain ⟨b1, b2, b3, b4, b5, b6, b7, b8, b9, b10, b11⟩ := updateGuiState_view t
  obtain ⟨c1, c2, c3, c4⟩ := updateGuiState_view_partial s
  obtain ⟨d1, d2, d3, d4⟩ := updateGuiState_view_partial t
  rw [← h] at b1 b2 b3 b4 b5 b6 b7 b8 b9 b10 b11 d1 d2 d3 d4
  refine ⟨a1.trans b1.symm, a3.trans b3.symm, a2.trans b2.symm, a4.trans b4.symm,
    a5.trans b5.symm, a6.trans b6.symm, a7.trans b7.symm, a8.trans b8.symm,
    a9.trans b9.symm, a11.trans b11.symm, a10.trans b10.symm, ?_, ?_, ?_, ?_⟩
  · intro hp
    exact ⟨c1 hp, d1 hp⟩
  · intro hp
    exact ⟨c2 hp, d2 hp⟩
  · intro hp
    cases hs : s.gui.guiState
    · rw [c3 (Or.inl hs), d3 (Or.inl hs)]
    · rw [c3 (Or.inr hs), d3 (Or.inr hs)]
    · exact absurd hs hp
    · rw [(c4 hs).1, (d4 hs).1]
  · intro hp
    exact ⟨(c4 hp).2, (d4 hp).2⟩

/-- Witness of the amended claim C8 on the two stopped windows: same label and
same Start flag. -/
theorem updateGuiState_view_by_phase_witness :
    stoppedNoProject.gui.guiState = stoppedWithProject.gui.guiState ∧
    (updateGuiState stoppedNoProject).view.statusState
      = (updateGuiState stoppedWithProject).view.statusState ∧
    (updateGuiState stoppedNoProject).view.actionStart
      = (updateGuiState stoppedWithProject).view.actionStart :=
  ⟨rfl, (updateGuiState_view_by_phase stoppedNoProject stoppedWithProject rfl).1,
   (updateGuiState_view_by_phase stoppedNoProject stoppedWithProject rfl).2.1⟩

/-! ## Stop -/

theorem stopScope_eq (s : State) :
    stopScope s = setGuiState GuiState.STOPPED (disableExporterIfWriting (stopCommunication s)) :=
  rfl

/-! ## Counters along a start -/

theorem counters_of_gui {s t : State} (h : t.gui = s.gui) : counters t = counters s := by
  unfold counters
  rw [h]

theorem setGuiState_started_counters (s : State) :
    counters (setGuiState GuiState.STARTED s) = counters s := by
  unfold setGuiState
  split
  · rfl
  · split
    · rfl
    · have h := counters_of_core (core_updateGuiState (emit (Signal.guiStateChanged GuiState.STARTED)
        { s with gui := enterState GuiState.STARTED s.clock s.gui }))
      unfold counters
      rw [h.1, h.2]
      rfl

theorem setxAxisScale_counters (m : AxisScaleOptions) (s : State) :
    counters (setxAxisScale m s) = counters s := by
  unfold setxAxisScale updatexAxisSlidingMode
  repeat (first | rfl | split)

theorem setyAxisScale_counters (m : AxisScaleOptions) (s : State) :
    counters (setyAxisScale m s) = counters s := by
  unfold setyAxisScale updateyAxisSlidingMode
  repeat (first | rfl | split)

theorem xAxisManualToAuto_counters (s : State) : counters (xAxisManualToAuto s) = counters s := by
  unfold xAxisManualToAuto
  split
  · exact setxAxisScale_counters _ _
  · rfl

theorem yAxisManualToAuto_counters (s : State) : counters (yAxisManualToAuto s) = counters s := by
  unfold yAxisManualToAuto
  split
  · exact setyAxisScale_counters _ _
  · rfl

theorem resetCommunicationStats_counters (s : State) :
    counters (resetCommunicationStats s) = (0, 0) := by
  unfold resetCommunicationStats
  dsimp only
  split
  · rename_i h
    unfold counters
    rw [h.1, h.2]
  · rfl

theorem clearData_counters (s : State) : counters (clearData s) = (0, 0) := by
  unfold clearData
  show counters (noteModelClear _) = _
  rw [counters_of_gui (noteModelClear_gui _)]
  exact resetCommunicationStats_counters s

/-- Counterexample to claim C10 as stated: a stopped window with one active
channel and counters at four successes and two errors is started, the
communication manager reports the start, and the window ends Running with both
counters at zero. -/
theorem startScope_resets_counters :
    stoppedCounted.gui.guiState = GuiState.STOPPED ∧
    activeCount stoppedCounted.graphs ≠ 0 ∧
    counters stoppedCounted = (4, 2) ∧
    (startScope true stoppedCounted).gui.guiState = GuiState.STARTED ∧
    counters (startScope true stoppedCounted) = (0, 0) := by
  decide

/-- Claim C10, amended: from phase Stopped with at least one active channel,
`startScope` ends Running; the success and error counters keep their values
when `startCommunication` reports false, and when it reports true `startScope`
itself calls `clearData` and both counters are zero afterwards. -/
theorem startScope_stopped_counters (s : State)
    (hph : s.gui.guiState = GuiState.STOPPED) (hact : activeCount s.graphs ≠ 0) :
    (startScope false s).gui.guiState = GuiState.STARTED ∧
    counters (startScope false s) = counters s ∧
    (startScope true s).gui.guiState = GuiState.STARTED ∧
    counters (startScope true s) = (0, 0) := by
  have hnd : s.gui.guiState ≠ GuiState.DATA_LOADED := by rw [hph]; decide
  have hrun : ∀ b, (startScope b s).gui.guiState = GuiState.STARTED := by
    intro b
    rw [startScope_accepted_guiState b s hnd hact]
    exact setGuiState_legal_guiState _ _ (by rw [hph]; rfl)
  refine ⟨hrun false, ?_, hrun true, ?_⟩
  · rw [startScope_accepted false s hnd hact, yAxisManualToAuto_counters,
      xAxisManualToAuto_counters, counters_of_gui (enableExporterIfWriting_gui _)]
    show counters (startCommunication (scheduleRuntimeTick (setGuiState GuiState.STARTED s))) = _
    exact (setGuiState_started_counters s)
  · rw [startScope_accepted true s hnd hact, yAxisManualToAuto_counters,
      xAxisManualToAuto_counters, counters_of_gui (enableExporterIfWriting_gui _)]
    exact clearData_counters _

/-- Witness of the amended claim C10 on the stopped window with counters at four
and two. -/
theorem startScope_stopped_counters_witness :
    stoppedCounted.gui.guiState = GuiState.STOPPED ∧
    activeCount stoppedCounted.graphs ≠ 0 ∧
    counters (startScope false stoppedCounted) = (4, 2) ∧
    counters (startScope true stoppedCounted) = (0, 0) :=
  ⟨rfl, by decide,
   (startScope_stopped_counters stoppedCounted rfl (by decide)).2.1,
   (startScope_stopped_counters stoppedCounted rfl (by decide)).2.2.2⟩

/-! ## Active channels and their positions -/

theorem activePositionsFrom_length : ∀ (gs : List GraphData) (k : Nat),
    (activePositionsFrom k gs).length = activeCount gs := by
  intro gs
  induction gs with
  | nil => intro k; rfl
  | cons g gs ih =>
    intro k
    unfold activePositionsFrom activeCount
    cases hg : g.active
    · simpa [activeCount, hg] using ih (k + 1)
    · simpa [activeCount, hg] using ih (k + 1)

theorem activeGraphIndexList_length (gs : List GraphData) :
    (activeGraphIndexList gs).length = activeCount gs := by
  unfold activeGraphIndexList activePositions
  rw [List.length_map, activePositionsFrom_length]

/-- Claim C12: after `rebuildGraphMenu` the show/hide menu and the bring-to-front
menu are enabled iff there is an active channel; when there is none both are
disabled and hold no entry. -/
theorem rebuildGraphMenu_enabled (s : State) :
    ((rebuildGraphMenu s).view.graphShowHideEnabled = true ↔ activeCount s.graphs ≠ 0) ∧
    ((rebuildGraphMenu s).view.graphBringToFrontEnabled = true ↔ activeCount s.graphs ≠ 0) ∧
    (activeCount s.graphs = 0 →
      (rebuildGraphMenu s).view.graphShowHideEnabled = false ∧
      (rebuildGraphMenu s).view.graphBringToFrontEnabled = false ∧
      (rebuildGraphMenu s).view.graphShowHide = [] ∧
      (rebuildGraphMenu s).view.graphBringToFront = []) := by
  have hlen := activeGraphIndexList_length s.graphs
  have hen : (rebuildGraphMenu s).view.graphShowHideEnabled
      = decide ((activeGraphIndexList s.graphs).length > 0) := rfl
  have hen2 : (rebuildGraphMenu s).view.graphBringToFrontEnabled
      = decide ((activeGraphIndexList s.graphs).length > 0) := rfl
  have hsh : (rebuildGraphMenu s).view.graphShowHide
      = (activeGraphIndexList s.graphs).enum.map (fun p => showHideEntry s.graphs p.1 p.2) := rfl
  have hbf : (rebuildGraphMenu s).view.graphBringToFront
      = (activeGraphIndexList s.graphs).enum.map
          (fun p => bringToFrontEntry s.graphs p.1 p.2) := rfl
  rw [hen, hen2, hsh, hbf, hlen]
  refine ⟨?_, ?_, ?_⟩
  · simp [Nat.pos_iff_ne_zero]
  · simp [Nat.pos_iff_ne_zero]
  · intro h0
    have hnil : activeGraphIndexList s.graphs = [] := List.eq_nil_of_length_eq_zero (hlen.trans h0)
    rw [hnil, h0]
    exact ⟨rfl, rfl, rfl, rfl⟩

/-- Claim C18: in phase DataLoaded `startScope` never ends in phase Running.  The
registry is cleared before the active-count guard is evaluated, so the guard
fails whatever channels were loaded: the call ends in phase Idle with an empty
registry and an empty note store, communication is not started and the only
collaborator invoked is the error message. -/
theorem startScope_dataLoaded_ends_idle (commStarted : Bool) (s : State)
    (hph : s.gui.guiState = GuiState.DATA_LOADED) :
    (startScope commStarted s).gui.guiState = GuiState.INIT ∧
    (startScope commStarted s).gui.guiState ≠ GuiState.STARTED ∧
    (startScope commStarted s).graphs = [] ∧
    activeCount (startScope commStarted s).graphs = 0 ∧
    (startScope commStarted s).notes = [] ∧
    (startScope commStarted s).commActive = s.commActive ∧
    (startScope commStarted s).calls = s.calls ++ [Call.showError cNoRegisterError] := by
  obtain ⟨_, hg, hn, hp, hc⟩ := discardLoadedData_spec s hph
  have hca := discardLoadedData_commActive s
  rw [startScope_dataLoaded commStarted s hph]
  refine ⟨hp, ?_, hg, ?_, hn, hca, ?_⟩
  · show (discardLoadedData s).gui.guiState ≠ GuiState.STARTED
    rw [hp]
    decide
  · show activeCount (discardLoadedData s).graphs = 0
    rw [hg]
    rfl
  · show (discardLoadedData s).calls ++ [_] = _
    rw [hc]

/-- Witness of claim C18 on the window with three active channels and two notes
loaded from a file. -/
theorem startScope_dataLoaded_ends_idle_witness :
    loadedThreeTwo.gui.guiState = GuiState.DATA_LOADED ∧
    activeCount loadedThreeTwo.graphs = 3 ∧
    (startScope true loadedThreeTwo).gui.guiState = GuiState.INIT ∧
    (startScope true loadedThreeTwo).graphs = [] :=
  ⟨rfl, by decide, (startScope_dataLoaded_ends_idle true loadedThreeTwo rfl).1,
   (startScope_dataLoaded_ends_idle true loadedThreeTwo rfl).2.2.1⟩

/-- Claim C19: after `updateGuiState`, in every phase, the Stop action is enabled
iff the phase is Running and the Start action iff it is not, so exactly one of
the two is enabled; the connection, log and register settings actions and the
import-data and load-project actions are enabled iff the phase is not Running;
the data export is enabled iff the phase is Stopped. -/
theorem updateGuiState_actions (s : State) :
    ((updateGuiState s).view.actionStop = true ↔ s.gui.guiState = GuiState.STARTED) ∧
    ((updateGuiState s).view.actionStart = true ↔ s.gui.guiState ≠ GuiState.STARTED) ∧
    (updateGuiState s).view.actionStart = !(updateGuiState s).view.actionStop ∧
    ((updateGuiState s).view.actionConnectionSettings = true ↔
      s.gui.guiState ≠ GuiState.STARTED) ∧
    ((updateGuiState s).view.actionLogSettings = true ↔ s.gui.guiState ≠ GuiState.STARTED) ∧
    ((updateGuiState s).view.actionRegisterSettings = true ↔
      s.gui.guiState ≠ GuiState.STARTED) ∧
    ((updateGuiState s).view.actionImportDataFile = true ↔
      s.gui.guiState ≠ GuiState.STARTED) ∧
    ((updateGuiState s).view.actionLoadProjectFile = true ↔
      s.gui.guiState ≠ GuiState.STARTED) ∧
    ((updateGuiState s).view.actionExportDataCsv = true ↔ s.gui.guiState = GuiState.STOPPED) ∧
    (updateGuiState s).gui.guiState = s.gui.guiState := by
  obtain ⟨_, a2, a3, a4, a5, a6, a7, a8, a9, _, _⟩ := updateGuiState_view s
  rw [a2, a3, a4, a5, a6, a7, a8, a9]
  refine ⟨by simp, by simp, ?_, by simp, by simp, by simp, by simp, by simp, by simp,
    guiState_of_core (core_updateGuiState s)⟩
  cases s.gui.guiState <;> decide

/-- Witness of claim C12: no active channel in the empty window, two in the
window with three channels. -/
theorem rebuildGraphMenu_enabled_witness :
    activeCount idleEmpty.graphs = 0 ∧
    (rebuildGraphMenu idleEmpty).view.graphShowHideEnabled = false ∧
    (rebuildGraphMenu idleEmpty).view.graphBringToFront = [] ∧
    (rebuildGraphMenu registryThree).view.graphShowHideEnabled = true :=
  ⟨rfl, ((rebuildGraphMenu_enabled idleEmpty).2.2 rfl).1,
   ((rebuildGraphMenu_enabled idleEmpty).2.2 rfl).2.2.2,
   (rebuildGraphMenu_enabled registryThree).1.mpr (by decide)⟩

/-! ## Axis modes along a start -/

theorem axes_of_gui {s t : State} (h : t.gui = s.gui) : axes t = axes s := by
  unfold axes
  rw [h]

theorem setGuiState_started_axes (s : State) :
    axes (setGuiState GuiState.STARTED s) = axes s := by
  unfold setGuiState
  split
  · rfl
  · split
    · rfl
    · have h := axes_of_core (core_updateGuiState (emit (Signal.guiStateChanged GuiState.STARTED)
        { s with gui := enterState GuiState.STARTED s.clock s.gui }))
      unfold axes
      rw [h.1, h.2]
      rfl

theorem resetCommunicationStats_axes (s : State) :
    axes (resetCommunicationStats s) = axes s := by
  unfold resetCommunicationStats
  dsimp only
  split <;> rfl

theorem clearData_axes (s : State) : axes (clearData s) = axes s := by
  unfold clearData
  show axes (noteModelClear _) = _
  rw [axes_of_gui (noteModelClear_gui _)]
  exact resetCommunicationStats_axes s

theorem clearDataIfStarted_axes (b : Bool) (s : State) :
    axes (clearDataIfStarted b s) = axes s := by
  unfold clearDataIfStarted
  split
  · exact clearData_axes s
  · rfl

theorem xAxisManualToAuto_axes (s : State) :
    axes (xAxisManualToAuto s) = (manualToAuto (axes s).1, (axes s).2) := by
  unfold xAxisManualToAuto manualToAuto axes
  by_cases h : s.gui.xAxisScalingMode = AxisScaleOptions.SCALE_MANUAL
  · simp only [h, if_true]
    unfold setxAxisScale updatexAxisSlidingMode
    simp [h, emit]
  · simp only [h, if_false]

theorem yAxisManualToAuto_axes (s : State) :
    axes (yAxisManualToAuto s) = ((axes s).1, manualToAuto (axes s).2) := by
  unfold yAxisManualToAuto manualToAuto axes
  by_cases h : s.gui.yAxisScalingMode = AxisScaleOptions.SCALE_MANUAL
  · simp only [h, if_true]
    unfold setyAxisScale updateyAxisSlidingMode
    simp [h, emit]
  · simp only [h, if_false]

theorem manualToAuto_ne_manual (m : AxisScaleOptions) :
    manualToAuto m ≠ AxisScaleOptions.SCALE_MANUAL := by
  cases m <;> decide

theorem setGuiState_started_guiState (s : State)
    (hph : s.gui.guiState ≠ GuiState.DATA_LOADED) :
    (setGuiState GuiState.STARTED s).gui.guiState = GuiState.STARTED := by
  cases hs : s.gui.guiState
  · exact setGuiState_legal_guiState _ _ (by rw [hs]; rfl)
  · rw [setGuiState_same _ _ hs, hs]
  · exact setGuiState_legal_guiState _ _ (by rw [hs]; rfl)
  · exact absurd hs hph

/-- Claim C20: an accepted start (the phase is not DataLoaded and a channel is
active) ends in phase Running with neither axis in manual mode: the mode of each
axis afterwards is auto where it was manual and is the mode it was otherwise. -/
theorem startScope_axes (commStarted : Bool) (s : State)
    (hph : s.gui.guiState ≠ GuiState.DATA_LOADED) (hact : activeCount s.graphs ≠ 0) :
    (startScope commStarted s).gui.guiState = GuiState.STARTED ∧
    (startScope commStarted s).gui.xAxisScalingMode = manualToAuto s.gui.xAxisScalingMode ∧
    (startScope commStarted s).gui.yAxisScalingMode = manualToAuto s.gui.yAxisScalingMode ∧
    (startScope commStarted s).gui.xAxisScalingMode ≠ AxisScaleOptions.SCALE_MANUAL ∧
    (startScope commStarted s).gui.yAxisScalingMode ≠ AxisScaleOptions.SCALE_MANUAL ∧
    (s.gui.xAxisScalingMode ≠ AxisScaleOptions.SCALE_MANUAL →
      (startScope commStarted s).gui.xAxisScalingMode = s.gui.xAxisScalingMode) ∧
    (s.gui.yAxisScalingMode ≠ AxisScaleOptions.SCALE_MANUAL →
      (startScope commStarted s).gui.yAxisScalingMode = s.gui.yAxisScalingMode) := by
  have hax : axes (startScope commStarted s)
      = (manualToAuto s.gui.xAxisScalingMode, manualToAuto s.gui.yAxisScalingMode) := by
    rw [startScope_accepted commStarted s hph hact, yAxisManualToAuto_axes,
      xAxisManualToAuto_axes, axes_of_gui (enableExporterIfWriting_gui _),
      clearDataIfStarted_axes]
    have h0 : axes (startCommunication (scheduleRuntimeTick (setGuiState GuiState.STARTED s)))
        = axes s := setGuiState_started_axes s
    rw [h0]
    rfl
  have hx : (startScope commStarted s).gui.xAxisScalingMode
      = manualToAuto s.gui.xAxisScalingMode := congrArg Prod.fst hax
  have hy : (startScope commStarted s).gui.yAxisScalingMode
      = manualToAuto s.gui.yAxisScalingMode := congrArg Prod.snd hax
  refine ⟨?_, hx, hy, ?_, ?_, ?_, ?_⟩
  · rw [startScope_accepted_guiState commStarted s hph hact]
    exact setGuiState_started_guiState s hph
  · rw [hx]; exact manualToAuto_ne_manual _
  · rw [hy]; exact manualToAuto_ne_manual _
  · intro h
    rw [hx]
    unfold manualToAuto
    rw [if_neg h]
  · intro h
    rw [hy]
    unfold manualToAuto
    rw [if_neg h]

/-- Witness of claim C20: a start from the stopped window with a manual x axis and
a sliding y axis ends with x on auto and y still sliding. -/
theorem startScope_axes_witness :
    stoppedManualX.gui.guiState ≠ GuiState.DATA_LOADED ∧
    activeCount stoppedManualX.graphs ≠ 0 ∧
    (startScope true stoppedManualX).gui.xAxisScalingMode = AxisScaleOptions.SCALE_AUTO ∧
    (startScope true stoppedManualX).gui.yAxisScalingMode = AxisScaleOptions.SCALE_SLIDING :=
  ⟨by decide, by decide,
   (startScope_axes true stoppedManualX (by decide) (by decide)).2.1,
   (startScope_axes true stoppedManualX (by decide) (by decide)).2.2.1⟩

/-! ## File paths under the phase handler -/

theorem setWindowTitleDetail_filePaths (d : String) (s : State) :
    filePaths (setWindowTitleDetail d s) = filePaths s := by
  unfold setWindowTitleDetail
  split <;> rfl

theorem dataFileLoaded_filePaths (s : State) : filePaths (dataFileLoaded s) = filePaths s := by
  unfold dataFileLoaded
  split <;> exact setWindowTitleDetail_filePaths _ _

theorem projectFileLoaded_filePaths (s : State) :
    filePaths (projectFileLoaded s) = filePaths s := by
  unfold projectFileLoaded
  split
  · exact setWindowTitleDetail_filePaths "" s
  · exact setWindowTitleDetail_filePaths _ s

theorem setDataFilePath_filePaths (p : String) (s : State) :
    filePaths (setDataFilePath p s) = (p, s.gui.projectFilePath) := by
  unfold setDataFilePath
  split
  · rename_i h
    unfold filePaths
    rw [h]
  · rw [dataFileLoaded_filePaths]
    rfl

theorem setProjectFilePath_filePaths (p : String) (s : State) :
    filePaths (setProjectFilePath p s) = (s.gui.dataFilePath, p) := by
  unfold setProjectFilePath
  split
  · rename_i h
    unfold filePaths
    rw [h]
  · rw [projectFileLoaded_filePaths]
    rfl

theorem updateGuiState_init_filePaths (s : State) (h : s.gui.guiState = GuiState.INIT) :
    filePaths (updateGuiState s) = ("", "") := by
  unfold updateGuiState
  rw [if_pos h]
  dsimp only
  rw [setProjectFilePath_filePaths]
  have hd := setDataFilePath_filePaths "" { s with view := { s.view with
      statusState := cStateStopped
      actionStop := false
      actionConnectionSettings := true
      actionLogSettings := true
      actionRegisterSettings := true
      actionStart := true
      actionImportDataFile := true
      actionLoadProjectFile := true
      actionExportDataCsv := false
      actionExportImage := false
      actionExportSettings := true
      statusRuntime := qarg cRuntime "0 hours, 0 minutes 0 seconds"
      statusRuntimeVisible := true
      statusStats := qargNat (qargNat cStatsTemplate 0) 0 } }
  exact congrArg (fun p => (p.1, "")) hd

theorem updateGuiState_stopped_gui (s : State) (h : s.gui.guiState = GuiState.STOPPED) :
    (updateGuiState s).gui = s.gui ∧ (updateGuiState s).trace = s.trace := by
  unfold updateGuiState
  simp [h]

/-- Counterexample to claim C15 as stated: when Idle is entered with the paths of
the loaded files still set, the handler does not leave them unchanged; both
path fields are empty afterwards.  The same happens on the whole transition from
the window showing an imported data file. -/
theorem updateGuiState_idle_clears_set_paths :
    idleWithPaths.gui.guiState = GuiState.INIT ∧
    idleWithPaths.gui.dataFilePath = "/tmp/run.csv" ∧
    idleWithPaths.gui.projectFilePath = "/home/u/setup.mbs" ∧
    (updateGuiState idleWithPaths).gui.dataFilePath = "" ∧
    (updateGuiState idleWithPaths).gui.projectFilePath = "" ∧
    loadedThreeTwo.gui.dataFilePath = "/tmp/run.csv" ∧
    (setGuiState GuiState.INIT loadedThreeTwo).gui.guiState = GuiState.INIT ∧
    (setGuiState GuiState.INIT loadedThreeTwo).gui.dataFilePath = "" := by
  decide

/-- Claim C15, amended: when `updateGuiState` runs on entering Idle, it clears the
data file path and the project file path whatever they hold, so both are empty
afterwards; when it runs on entering Stopped, it leaves both paths, and the
whole gui model, unchanged and sends no notification. -/
theorem updateGuiState_file_paths (s : State) :
    (s.gui.guiState = GuiState.INIT →
      (updateGuiState s).gui.dataFilePath = "" ∧
      (updateGuiState s).gui.projectFilePath = "") ∧
    (s.gui.guiState = GuiState.STOPPED →
      (updateGuiState s).gui.dataFilePath = s.gui.dataFilePath ∧
      (updateGuiState s).gui.projectFilePath = s.gui.projectFilePath ∧
      (updateGuiState s).gui = s.gui ∧
      (updateGuiState s).trace = s.trace) := by
  constructor
  · intro h
    have hp := updateGuiState_init_filePaths s h
    exact ⟨congrArg Prod.fst hp, congrArg Prod.snd hp⟩
  · intro h
    obtain ⟨hg, ht⟩ := updateGuiState_stopped_gui s h
    exact ⟨by rw [hg], by rw [hg], hg, ht⟩

/-- Witness of the amended claim C15: Idle clears the paths of the loaded files,
Stopped keeps the project file path. -/
theorem updateGuiState_file_paths_witness :
    idleWithPaths.gui.guiState = GuiState.INIT ∧
    (updateGuiState idleWithPaths).gui.dataFilePath = "" ∧
    stoppedWithProject.gui.guiState = GuiState.STOPPED ∧
    (updateGuiState stoppedWithProject).gui.projectFilePath = "/home/u/setup.mbs" :=
  ⟨rfl, ((updateGuiState_file_paths idleWithPaths).1 rfl).1, rfl,
   ((updateGuiState_file_paths stoppedWithProject).2 rfl).2.1⟩

/-! ## Cursor flag -/

theorem setCursorValues_cursorValues (b : Bool) (s : State) :
    (setCursorValues b s).gui.cursorValues = b := by
  unfold setCursorValues
  split
  · rename_i h; exact h
  · rfl

theorem handleInput_cursorValues (s : State) (ev : InputEvent) :
    (handleInput s ev).gui.cursorValues = (decides ev).getD s.gui.cursorValues := by
  cases ev with
  | keyPress e =>
    show (keyPressEvent e s).gui.cursorValues
      = (if hasControl e then some true else none).getD s.gui.cursorValues
    unfold keyPressEvent
    cases hc : hasControl e
    · simp
    · simp [setCursorValues_cursorValues]
  | keyRelease e =>
    show (keyReleaseEvent e s).gui.cursorValues
      = (if hasControl e then none else some false).getD s.gui.cursorValues
    unfold keyReleaseEvent
    cases hc : hasControl e
    · simp [setCursorValues_cursorValues]
    · simp
  | focusChanged old now =>
    show (appFocusChanged old now s).gui.cursorValues
      = (if old ≠ none then some false else none).getD s.gui.cursorValues
    unfold appFocusChanged
    cases old
    · simp
    · simp [setCursorValues_cursorValues]

theorem handleInputs_cursorValues : ∀ (evs : List InputEvent) (s : State),
    (handleInputs evs s).gui.cursorValues = lastDecision s.gui.cursorValues evs := by
  intro evs
  induction evs with
  | nil => intro s; rfl
  | cons ev evs ih =>
    intro s
    unfold handleInputs lastDecision
    rw [List.foldl_cons, List.foldl_cons]
    have h := ih (handleInput s ev)
    unfold handleInputs lastDecision at h
    rw [h, handleInput_cursorValues]

/-- Counterexample to claim C16 as stated: from a cleared cursor flag, a key press
with Control followed by a key press without Control leaves the flag set after
the second key event, whose modifiers do not contain Control. -/
theorem cursor_survives_press_without_control :
    (idleEmpty.gui.cursorValues = false) ∧
    hasControl plainKey = false ∧
    (handleInputs [InputEvent.keyPress controlKey, InputEvent.keyPress plainKey]
      idleEmpty).gui.cursorValues = true := by
  decide

/-- Claim C16, amended: after any sequence of key-press, key-release and
focus-change events the cursor flag is the decision of the last deciding event
(a key press with Control sets it, a key release without Control or a focus
change away from a widget clears it), or its initial value without one.  So
after a key-release event the flag is set only if that event carries Control,
after a key press with Control it is set, and a key press without Control
leaves it as it was. -/
theorem cursor_follows_last_decision (evs : List InputEvent) (s : State) (e : QKeyEvent) :
    (handleInputs evs s).gui.cursorValues = lastDecision s.gui.cursorValues evs ∧
    ((keyReleaseEvent e (handleInputs evs s)).gui.cursorValues = true →
      hasControl e = true) ∧
    (hasControl e = true → (keyPressEvent e (handleInputs evs s)).gui.cursorValues = true) ∧
    (hasControl e = false →
      (keyPressEvent e (handleInputs evs s)).gui.cursorValues
        = (handleInputs evs s).gui.cursorValues) ∧
    (∀ old now : Option Nat, old ≠ none →
      (appFocusChanged old now (handleInputs evs s)).gui.cursorValues = false) := by
  refine ⟨handleInputs_cursorValues evs s, ?_, ?_, ?_, ?_⟩
  · intro h
    cases hc : hasControl e
    · unfold keyReleaseEvent at h
      simp [hc, setCursorValues_cursorValues] at h
    · rfl
  · intro hc
    unfold keyPressEvent
    simp [hc, setCursorValues_cursorValues]
  · intro hc
    unfold keyPressEvent
    simp [hc]
  · intro old now ho
    unfold appFocusChanged
    rw [if_pos ho]
    exact setCursorValues_cursorValues false _

/-- Witness of the amended claim C16: after Control is pressed and a plain key is
released, the flag is cleared. -/
theorem cursor_follows_last_decision_witness :
    hasControl plainKey = false ∧
    (handleInputs [InputEvent.keyPress controlKey] idleEmpty).gui.cursorValues = true ∧
    (keyReleaseEvent plainKey
      (handleInputs [InputEvent.keyPress controlKey] idleEmpty)).gui.cursorValues = false := by
  refine ⟨by decide, by decide, ?_⟩
  have h := (cursor_follows_last_decision [InputEvent.keyPress controlKey] idleEmpty
    plainKey).2.1
  cases hc : (keyReleaseEvent plainKey
      (handleInputs [InputEvent.keyPress controlKey] idleEmpty)).gui.cursorValues
  · rfl
  · exact absurd (h hc) (by decide)

/-! ## Runtime ticks -/

theorem stopScope_commActive (s : State) : (stopScope s).commActive = false := by
  rw [stopScope_eq, setGuiState_commActive]
  unfold disableExporterIfWriting
  split <;> rfl

/-- On every state the window can be in, acquisition in progress goes with phase
Running. -/
theorem reachable_active_running (s : State) (h : Reachable s) :
    s.commActive = true → s.gui.guiState = GuiState.STARTED := by
  induction h with
  | init s _ hc => intro hs; rw [hc] at hs; exact absurd hs (by decide)
  | startScope c s _ ih =>
    intro hs
    by_cases hph : s.gui.guiState = GuiState.DATA_LOADED
    · exfalso
      rw [startScope_dataLoaded c s hph] at hs
      have hs2 : (discardLoadedData s).commActive = true := hs
      rw [discardLoadedData_commActive] at hs2
      have := ih hs2
      rw [hph] at this
      exact absurd this (by decide)
    · by_cases hact : activeCount s.graphs = 0
      · rw [startScope_rejected c s hph hact] at hs ⊢
        exact ih hs
      · rw [startScope_accepted_guiState c s hph hact]
        exact setGuiState_started_guiState s hph
  | stopScope s _ _ =>
    intro hs
    rw [stopScope_commActive] at hs
    exact absurd hs (by decide)
  | clearData s _ ih =>
    intro hs
    rw [clearData_commActive] at hs
    rw [clearData_guiState]
    exact ih hs
  | showRegisterDialog f r s _ ih =>
    intro hs
    rw [showRegisterDialog_commActive] at hs
    have hst := ih hs
    rcases showRegisterDialog_guiState_cases f r s with h | h
    · rw [h]; exact hst
    · exfalso
      have hne : s.gui.guiState ≠ GuiState.DATA_LOADED := by rw [hst]; decide
      have hsame : (showRegisterDialog f r s).gui.guiState = s.gui.guiState := by
        unfold showRegisterDialog
        rw [if_neg hne]
        rfl
      rw [hsame, hst] at h
      exact absurd h (by decide)
  | dropEvent f r s _ ih =>
    intro hs
    rw [dropEvent_commActive] at hs
    rw [dropEvent_refused f r s hs]
    exact ih hs
  | closeEvent e r ok s _ ih =>
    intro hs
    rw [(closeEvent_phase_comm e r ok s).2] at hs
    rw [(closeEvent_phase_comm e r ok s).1]
    exact ih hs
  | updateRuntime s _ ih =>
    intro hs
    rw [(updateRuntime_phase_comm s).2] at hs
    rw [(updateRuntime_phase_comm s).1]
    exact ih hs
  | importData s _ ih =>
    intro hs
    rw [setGuiState_commActive] at hs
    have hst := ih hs
    rw [setGuiState_illegal _ _ (by rw [hst]; rfl)]
    exact hst
  | collaborator s t _ hp hc ih =>
    intro hs
    rw [hp]
    exact ih (hc ▸ hs)

theorem updateRuntime_active (s : State) (h : s.commActive = true) :
    updateRuntime s = scheduleRuntimeTick { s with view := { s.view with
      statusRuntime := qarg cRuntime (strTimePassed s.clock s.gui.communicationStartTime) } } := by
  unfold updateRuntime
  simp [h]

theorem updateRuntime_inactive (s : State) (h : s.commActive = false) :
    updateRuntime s = { s with view := { s.view with
      statusRuntime := qarg cRuntime (strTimePassed s.clock s.gui.communicationStartTime) } } := by
  unfold updateRuntime
  simp [h]

/-- Claim C13: on every state the window can be in, a runtime tick writes the
elapsed-time text once and changes nothing else but the pending ticks: in phase
Running one more 250 ms one-shot tick is pending afterwards, in any other phase
none is added.  So when the event loop fires a pending tick outside Running, the
tick is consumed and not replaced, and if it was the only one no tick is left
(firing again does nothing). -/
theorem updateRuntime_tick (s : State) (hr : Reachable s) :
    (updateRuntime s).view
      = { s.view with
          statusRuntime := qarg cRuntime (strTimePassed s.clock s.gui.communicationStartTime) } ∧
    updateRuntime s
      = { s with
          view := { s.view with
            statusRuntime := qarg cRuntime (strTimePassed s.clock s.gui.communicationStartTime) }
          pendingTicks := (updateRuntime s).pendingTicks } ∧
    (s.gui.guiState = GuiState.STARTED →
      (updateRuntime s).pendingTicks = s.pendingTicks ++ [250]) ∧
    (s.gui.guiState ≠ GuiState.STARTED → (updateRuntime s).pendingTicks = s.pendingTicks) ∧
    (∀ d rest, s.pendingTicks = d :: rest →
      (s.gui.guiState = GuiState.STARTED → (fireTick s).pendingTicks = rest ++ [250]) ∧
      (s.gui.guiState ≠ GuiState.STARTED → (fireTick s).pendingTicks = rest) ∧
      (s.gui.guiState ≠ GuiState.STARTED → rest = [] →
        (fireTick s).pendingTicks = [] ∧ fireTick (fireTick s) = fireTick s)) := by
  have hrun := reachable_running_active s hr
  have hact := reachable_active_running s hr
  have hcase : ∀ x : State, x.commActive = s.commActive → x.gui.guiState = s.gui.guiState →
      (s.gui.guiState = GuiState.STARTED →
        (updateRuntime x).pendingTicks = x.pendingTicks ++ [250]) ∧
      (s.gui.guiState ≠ GuiState.STARTED → (updateRuntime x).pendingTicks = x.pendingTicks) := by
    intro x hxc _
    constructor
    · intro hs
      rw [updateRuntime_active x (hxc.trans (hrun hs))]
      rfl
    · intro hs
      have hin : x.commActive = false := by
        rcases Bool.eq_false_or_eq_true x.commActive with hc | hc
        · exact absurd (hact (hxc ▸ hc)) hs
        · exact hc
      rw [updateRuntime_inactive x hin]
  refine ⟨?_, ?_, (hcase s rfl rfl).1, (hcase s rfl rfl).2, ?_⟩
  · rcases Bool.eq_false_or_eq_true s.commActive with hc | hc
    · rw [updateRuntime_active s hc]; rfl
    · rw [updateRuntime_inactive s hc]
  · rcases Bool.eq_false_or_eq_true s.commActive with hc | hc
    · rw [updateRuntime_active s hc]; rfl
    · rw [updateRuntime_inactive s hc]
  · intro d rest hp
    have hf : fireTick s = updateRuntime { s with pendingTicks := rest } := by
      unfold fireTick
      rw [hp]
    have hx := hcase { s with pendingTicks := rest } rfl rfl
    refine ⟨fun hs => by rw [hf]; exact hx.1 hs, fun hs => by rw [hf]; exact hx.2 hs, ?_⟩
    intro hs hrest
    have h1 : (fireTick s).pendingTicks = [] := by
      rw [hf, hx.2 hs]
      exact hrest
    refine ⟨h1, ?_⟩
    generalize fireTick s = y at h1
    unfold fireTick
    rw [h1]

/-- Witness of claim C13: a tick on the running window schedules the next one; on
the window stopped with one tick pending, the tick fires and none is left. -/
theorem updateRuntime_tick_witness :
    Reachable runningOne ∧ runningOne.gui.guiState = GuiState.STARTED ∧
    (updateRuntime runningOne).pendingTicks = runningOne.pendingTicks ++ [250] ∧
    Reachable stoppedPendingTick ∧ stoppedPendingTick.pendingTicks = [250] ∧
    (fireTick stoppedPendingTick).pendingTicks = [] :=
  ⟨Reachable.startScope false idleOne (Reachable.init idleOne rfl rfl), by decide,
   (updateRuntime_tick runningOne
     (Reachable.startScope false idleOne (Reachable.init idleOne rfl rfl))).2.2.1 (by decide),
   Reachable.stopScope runningOne
     (Reachable.startScope false idleOne (Reachable.init idleOne rfl rfl)),
   by decide,
   ((updateRuntime_tick stoppedPendingTick
     (Reachable.stopScope runningOne
       (Reachable.startScope false idleOne (Reachable.init idleOne rfl rfl)))).2.2.2.2
       250 [] (by decide)).2.1 (by decide)⟩

/-! ## Menus after a rebuild -/

theorem activePositionsFrom_map_get : ∀ (gs pre : List GraphData),
    (activePositionsFrom pre.length gs).map (fun p => (pre ++ gs).get? p)
      = (gs.filter (fun g => g.active)).map some := by
  intro gs
  induction gs with
  | nil => intro pre; rfl
  | cons g gs ih =>
    intro pre
    have h := ih (pre ++ [g])
    rw [List.length_append, List.length_singleton, List.append_assoc, List.singleton_append] at h
    unfold activePositionsFrom
    cases hg : g.active
    · simp only [Bool.false_eq_true, if_false, List.filter_cons, hg]
      exact h
    · simp only [if_true, List.filter_cons, hg, List.map_cons, h]
      congr 1
      rw [List.get?_eq_getElem?, List.getElem?_append_right (Nat.le_refl _), Nat.sub_self]
      exact List.getElem?_cons_zero

theorem activePositionsFrom_bounds : ∀ (gs : List GraphData) (k p : Nat),
    p ∈ activePositionsFrom k gs → k ≤ p ∧ p < k + gs.length := by
  intro gs
  induction gs with
  | nil => intro k p h; simp [activePositionsFrom] at h
  | cons g gs ih =>
    intro k p h
    unfold activePositionsFrom at h
    cases hg : g.active
    · rw [hg] at h
      simp only [Bool.false_eq_true, if_false] at h
      have := ih (k + 1) p h
      simp only [List.length_cons]
      omega
    · rw [hg] at h
      simp only [if_true, List.mem_cons] at h
      simp only [List.length_cons]
      rcases h with h | h
      · omega
      · have := ih (k + 1) p h
        omega

theorem activeGraphIndexList_of_short (gs : List GraphData) (h : gs.length ≤ 2 ^ 16) :
    activeGraphIndexList gs = activePositions gs := by
  unfold activeGraphIndexList
  conv_rhs => rw [← List.map_id (activePositions gs)]
  apply List.map_congr_left
  intro p hp
  have := activePositionsFrom_bounds gs 0 p hp
  simp only [id]
  exact Nat.mod_eq_of_lt (by omega)

theorem enumFrom_entries (graphs : List GraphData) (mk : Nat → GraphData → MenuEntry)
    (mkAt : Nat → Nat → MenuEntry)
    (hmk : ∀ i p g, graphs.get? p = some g → mkAt i p = mk i g) :
    ∀ (ps : List Nat) (act : List GraphData) (k : Nat),
      ps.map (fun p => graphs.get? p) = act.map some →
      (ps.enumFrom k).map (fun q => mkAt q.1 q.2) = (act.enumFrom k).map (fun q => mk q.1 q.2) := by
  intro ps
  induction ps with
  | nil =>
    intro act k h
    cases act with
    | nil => rfl
    | cons a act => simp at h
  | cons p ps ih =>
    intro act k h
    cases act with
    | nil => simp at h
    | cons a act =>
      simp only [List.map_cons, List.cons.injEq] at h
      simp only [List.enumFrom_cons, List.map_cons]
      rw [ih act (k + 1) h.2, hmk k p a h.1]

theorem showHideEntry_eq (graphs : List GraphData) (i p : Nat) (g : GraphData)
    (h : graphs.get? p = some g) : showHideEntry graphs i p = showHideOf i g := by
  unfold showHideEntry showHideOf graphLabel graphColor graphIsVisible
  rw [h]
  rfl

theorem bringToFrontEntry_eq (graphs : List GraphData) (i p : Nat) (g : GraphData)
    (h : graphs.get? p = some g) : bringToFrontEntry graphs i p = bringToFrontOf i g := by
  unfold bringToFrontEntry bringToFrontOf graphLabel graphColor
  rw [h]
  rfl

theorem rebuildGraphMenu_menus (s : State) :
    (rebuildGraphMenu s).view.graphShowHide
      = (activeGraphIndexList s.graphs).enum.map (fun p => showHideEntry s.graphs p.1 p.2) ∧
    (rebuildGraphMenu s).view.graphBringToFront
      = (activeGraphIndexList s.graphs).enum.map
          (fun p => bringToFrontEntry s.graphs p.1 p.2) :=
  ⟨rfl, rfl⟩

theorem rebuildGraphMenu_entries (s : State) (h : s.graphs.length ≤ 2 ^ 16) :
    (rebuildGraphMenu s).view.graphShowHide
      = (s.graphs.filter (fun g => g.active)).enum.map (fun q => showHideOf q.1 q.2) ∧
    (rebuildGraphMenu s).view.graphBringToFront
      = (s.graphs.filter (fun g => g.active)).enum.map (fun q => bringToFrontOf q.1 q.2) := by
  have hmap := activePositionsFrom_map_get s.graphs []
  simp only [List.length_nil, List.nil_append] at hmap
  have hsh : (rebuildGraphMenu s).view.graphShowHide
      = (activeGraphIndexList s.graphs).enum.map (fun p => showHideEntry s.graphs p.1 p.2) := rfl
  have hbf : (rebuildGraphMenu s).view.graphBringToFront
      = (activeGraphIndexList s.graphs).enum.map
          (fun p => bringToFrontEntry s.graphs p.1 p.2) := rfl
  rw [hsh, hbf, activeGraphIndexList_of_short s.graphs h]
  exact ⟨enumFrom_entries s.graphs showHideOf (showHideEntry s.graphs)
      (showHideEntry_eq s.graphs) (activePositions s.graphs) _ 0 hmap,
    enumFrom_entries s.graphs bringToFrontOf (bringToFrontEntry s.graphs)
      (bringToFrontEntry_eq s.graphs) (activePositions s.graphs) _ 0 hmap⟩

/-! ## A registry beyond the 16-bit index list -/

theorem activePositionsFrom_replicate (g0 g1 : GraphData) (h0 : g0.active = false)
    (h1 : g1.active = true) : ∀ (n k : Nat),
    activePositionsFrom k (List.replicate n g0 ++ [g1]) = [k + n] := by
  intro n
  induction n with
  | zero =>
    intro k
    simp [activePositionsFrom, h1]
  | succ n ih =>
    intro k
    rw [List.replicate_succ, List.cons_append]
    unfold activePositionsFrom
    rw [h0, ih (k + 1)]
    simp only [Bool.false_eq_true, if_false, List.cons.injEq, and_true]
    omega

theorem filter_replicate_inactive (g0 g1 : GraphData) (h0 : g0.active = false)
    (h1 : g1.active = true) : ∀ (n : Nat),
    (List.replicate n g0 ++ [g1]).filter (fun g => g.active) = [g1] := by
  intro n
  induction n with
  | zero => simp [h1]
  | succ n ih =>
    rw [List.replicate_succ, List.cons_append, List.filter_cons, h0]
    simpa using ih

theorem wideRegistry_indexList : activeGraphIndexList wideRegistry.graphs = [0] := by
  unfold activeGraphIndexList activePositions
  have h : wideRegistry.graphs = List.replicate (2 ^ 16) channelA ++ [channelB] := rfl
  rw [h, activePositionsFrom_replicate channelA channelB rfl rfl (2 ^ 16) 0]
  simp

theorem wideRegistry_first : wideRegistry.graphs.get? 0 = some channelA := by
  have h : wideRegistry.graphs = List.replicate (2 ^ 16) channelA ++ [channelB] := rfl
  rw [h, List.get?_eq_getElem?,
    List.getElem?_append_left (by rw [List.length_replicate]; exact Nat.two_pow_pos 16),
    List.getElem?_replicate_of_lt (Nat.two_pow_pos 16)]

/-- Counterexample to claim C11 as stated: in the registry of 65537 channels the
only active channel, `a_0`, sits at position 65536 and is labelled "B".  The
index list holds positions as 16-bit numbers, so the rebuilt menus hold one
entry each that carries the label, colour and visibility of the channel at
position 0, which is labelled "A". -/
theorem rebuildGraphMenu_wide_registry :
    wideRegistry.graphs.filter (fun g => g.active) = [channelB] ∧
    activePositions wideRegistry.graphs = [2 ^ 16] ∧
    channelB.label = "B" ∧
    (rebuildGraphMenu wideRegistry).view.graphShowHide = [showHideOf 0 channelA] ∧
    (rebuildGraphMenu wideRegistry).view.graphBringToFront = [bringToFrontOf 0 channelA] ∧
    (showHideOf 0 channelA).text = "A" := by
  have h : wideRegistry.graphs = List.replicate (2 ^ 16) channelA ++ [channelB] := rfl
  have hsh := (rebuildGraphMenu_menus wideRegistry).1
  have hbf := (rebuildGraphMenu_menus wideRegistry).2
  refine ⟨?_, ?_, rfl, ?_, ?_, rfl⟩
  · rw [h]
    exact filter_replicate_inactive channelA channelB rfl rfl (2 ^ 16)
  · unfold activePositions
    rw [h, activePositionsFrom_replicate channelA channelB rfl rfl (2 ^ 16) 0]
    simp
  · rw [hsh, wideRegistry_indexList]
    show [showHideEntry wideRegistry.graphs 0 0] = _
    rw [showHideEntry_eq _ 0 0 channelA wideRegistry_first]
  · rw [hbf, wideRegistry_indexList]
    show [bringToFrontEntry wideRegistry.graphs 0 0] = _
    rw [bringToFrontEntry_eq _ 0 0 channelA wideRegistry_first]

/-! ## In-place updates of menu entries -/

theorem updateAt_of_lt (f : MenuEntry → MenuEntry) : ∀ (l : List MenuEntry) (i : Nat),
    i < l.length → ∃ r, updateAt f i l = some r := by
  intro l
  induction l with
  | nil => intro i h; simp at h
  | cons e es ih =>
    intro i h
    cases i with
    | zero => exact ⟨f e :: es, rfl⟩
    | succ i =>
      obtain ⟨r, hr⟩ := ih i (by simpa using h)
      exact ⟨e :: r, by simp [updateAt, hr]⟩

theorem updateAt_of_ge (f : MenuEntry → MenuEntry) : ∀ (l : List MenuEntry) (i : Nat),
    l.length ≤ i → updateAt f i l = none := by
  intro l
  induction l with
  | nil => intro i _; cases i <;> rfl
  | cons e es ih =>
    intro i h
    cases i with
    | zero => simp at h
    | succ i => simp [updateAt, ih i (by simpa using h)]

theorem updateAt_spec (f : MenuEntry → MenuEntry) : ∀ (l r : List MenuEntry) (i : Nat),
    updateAt f i l = some r → OnlyEntryChanged i f l r := by
  intro l
  induction l with
  | nil => intro r i h; cases i <;> simp [updateAt] at h
  | cons e es ih =>
    intro r i h
    cases i with
    | zero =>
      simp only [updateAt, Option.some.injEq] at h
      subst h
      refine ⟨rfl, ?_, rfl⟩
      intro j hj
      cases j with
      | zero => exact absurd rfl hj
      | succ j => rfl
    | succ i =>
      simp only [updateAt, Option.map_eq_some'] at h
      obtain ⟨r2, hr2, rfl⟩ := h
      obtain ⟨hl, hne, heq⟩ := ih r2 i hr2
      refine ⟨by simp [hl], ?_, ?_⟩
      · intro j hj
        cases j with
        | zero => rfl
        | succ j =>
          have := hne j (by omega)
          simpa using this
      · simpa using heq

theorem graphIsActive_of_convert (graphs : List GraphData) (idx a : Nat)
    (h : convertToActiveGraphIndex graphs idx = some a) : graphIsActive graphs idx = true := by
  unfold convertToActiveGraphIndex at h
  split at h
  · assumption
  · exact absurd h (by simp)

theorem handleGraphLabelChange_inactive (graphIdx : Nat) (s : State)
    (h : graphIsActive s.graphs graphIdx = false) :
    handleGraphLabelChange graphIdx s = some s := by
  unfold handleGraphLabelChange
  simp [h]

theorem handleGraphColorChange_inactive (graphIdx : Nat) (s : State)
    (h : graphIsActive s.graphs graphIdx = false) :
    handleGraphColorChange graphIdx s = some s := by
  unfold handleGraphColorChange
  simp [h]

theorem handleGraphVisibilityChange_inactive (graphIdx : Nat) (s : State)
    (h : graphIsActive s.graphs graphIdx = false) :
    handleGraphVisibilityChange graphIdx s = some s := by
  unfold handleGraphVisibilityChange
  simp [h]

theorem handleGraphLabelChange_active (graphIdx a : Nat) (s : State)
    (hconv : convertToActiveGraphIndex s.graphs graphIdx = some a)
    (h1 : a < s.view.graphShowHide.length) (h2 : a < s.view.graphBringToFront.length) :
    ∃ sh bf,
      handleGraphLabelChange graphIdx s
        = some { s with view := { s.view with graphShowHide := sh, graphBringToFront := bf } } ∧
      OnlyEntryChanged a (fun e => { e with text := graphLabel s.graphs graphIdx })
        s.view.graphShowHide sh ∧
      OnlyEntryChanged a (fun e => { e with text := graphLabel s.graphs graphIdx })
        s.view.graphBringToFront bf := by
  obtain ⟨sh, hsh⟩ := updateAt_of_lt
    (fun e => { e with text := graphLabel s.graphs graphIdx }) _ a h1
  obtain ⟨bf, hbf⟩ := updateAt_of_lt
    (fun e => { e with text := graphLabel s.graphs graphIdx }) _ a h2
  refine ⟨sh, bf, ?_, updateAt_spec _ _ _ _ hsh, updateAt_spec _ _ _ _ hbf⟩
  unfold handleGraphLabelChange
  simp only [graphIsActive_of_convert _ _ _ hconv, if_true, hconv, hsh, hbf]

theorem handleGraphColorChange_active (graphIdx a : Nat) (s : State)
    (hconv : convertToActiveGraphIndex s.graphs graphIdx = some a)
    (h1 : a < s.view.graphShowHide.length) (h2 : a < s.view.graphBringToFront.length) :
    ∃ sh bf,
      handleGraphColorChange graphIdx s
        = some { s with view := { s.view with graphShowHide := sh, graphBringToFront := bf } } ∧
      OnlyEntryChanged a (fun e => { e with icon := graphColor s.graphs graphIdx })
        s.view.graphShowHide sh ∧
      OnlyEntryChanged a (fun e => { e with icon := graphColor s.graphs graphIdx })
        s.view.graphBringToFront bf := by
  obtain ⟨sh, hsh⟩ := updateAt_of_lt
    (fun e => { e with icon := graphColor s.graphs graphIdx }) _ a h1
  obtain ⟨bf, hbf⟩ := updateAt_of_lt
    (fun e => { e with icon := graphColor s.graphs graphIdx }) _ a h2
  refine ⟨sh, bf, ?_, updateAt_spec _ _ _ _ hsh, updateAt_spec _ _ _ _ hbf⟩
  unfold handleGraphColorChange
  simp only [graphIsActive_of_convert _ _ _ hconv, if_true, hconv, hsh, hbf]

theorem handleGraphVisibilityChange_active (graphIdx a : Nat) (s : State)
    (hconv : convertToActiveGraphIndex s.graphs graphIdx = some a)
    (h1 : a < s.view.graphShowHide.length) (h2 : a < s.view.graphBringToFront.length) :
    ∃ sh bf,
      handleGraphVisibilityChange graphIdx s
        = some { s with view := { s.view with
            graphShowHide := sh
            graphBringToFront := bf
            graphBringToFrontEnabled := bf.any (fun e => e.visible) } } ∧
      OnlyEntryChanged a (fun e => { e with checked := graphIsVisible s.graphs graphIdx })
        s.view.graphShowHide sh ∧
      OnlyEntryChanged a (fun e => { e with visible := graphIsVisible s.graphs graphIdx })
        s.view.graphBringToFront bf := by
  obtain ⟨sh, hsh⟩ := updateAt_of_lt
    (fun e => { e with checked := graphIsVisible s.graphs graphIdx }) _ a h1
  obtain ⟨bf, hbf⟩ := updateAt_of_lt
    (fun e => { e with visible := graphIsVisible s.graphs graphIdx }) _ a h2
  refine ⟨sh, bf, ?_, updateAt_spec _ _ _ _ hsh, updateAt_spec _ _ _ _ hbf⟩
  unfold handleGraphVisibilityChange
  simp only [graphIsActive_of_convert _ _ _ hconv, if_true, hconv, hsh, hbf]

theorem handleGraphVisibilityChange_frame (graphIdx : Nat) (s t : State)
    (h : handleGraphVisibilityChange graphIdx s = some t) :
    t.graphs = s.graphs ∧ t.gui = s.gui ∧ t.trace = s.trace := by
  unfold handleGraphVisibilityChange at h
  split at h
  · split at h
    · simp at h
    · split at h
      · simp at h
      · split at h
        · simp at h
        · simp only [Option.some.injEq] at h
          subst h
          exact ⟨rfl, rfl, rfl⟩
  · simp only [Option.some.injEq] at h
    subst h
    exact ⟨rfl, rfl, rfl⟩

/-! ## Positions of active channels -/

theorem activeCount_cons (g : GraphData) (gs : List GraphData) :
    activeCount (g :: gs) = (if g.active then 1 else 0) + activeCount gs := by
  unfold activeCount
  cases hg : g.active
  · simp [List.filter_cons, hg]
  · simp [List.filter_cons, hg]
    omega

theorem activePositionsFrom_get : ∀ (gs : List GraphData) (k i p : Nat),
    (activePositionsFrom k gs).get? i = some p →
    k ≤ p ∧ activeCount (gs.take (p - k)) = i ∧
      ∃ ch, gs.get? (p - k) = some ch ∧ ch.active = true := by
  intro gs
  induction gs with
  | nil => intro k i p h; simp [activePositionsFrom] at h
  | cons g gs ih =>
    intro k i p h
    unfold activePositionsFrom at h
    cases hg : g.active
    · rw [hg] at h
      simp only [Bool.false_eq_true, if_false] at h
      obtain ⟨hk, hc, ch, hch, hact⟩ := ih (k + 1) i p h
      have hpk : p - k = (p - (k + 1)) + 1 := by omega
      refine ⟨by omega, ?_, ch, ?_, hact⟩
      · rw [hpk, List.take_succ_cons, activeCount_cons, hg, hc]
        simp
      · rw [hpk]
        exact hch
    · rw [hg] at h
      simp only [if_true] at h
      cases i with
      | zero =>
        simp only [List.get?_cons_zero, Option.some.injEq] at h
        subst h
        refine ⟨Nat.le_refl _, ?_, g, ?_, hg⟩
        · rw [Nat.sub_self]
          rfl
        · rw [Nat.sub_self]
          rfl
      | succ i =>
        simp only [List.get?_cons_succ] at h
        obtain ⟨hk, hc, ch, hch, hact⟩ := ih (k + 1) i p h
        have hpk : p - k = (p - (k + 1)) + 1 := by omega
        refine ⟨by omega, ?_, ch, ?_, hact⟩
        · rw [hpk, List.take_succ_cons, activeCount_cons, hg, hc]
          simp
          omega
        · rw [hpk]
          exact hch

theorem convertToGraphIndex_spec (graphs : List GraphData) (i g : Nat)
    (h : convertToGraphIndex graphs i = some g) :
    activeCount (graphs.take g) = i ∧ ∃ ch, graphs.get? g = some ch ∧ ch.active = true := by
  have := activePositionsFrom_get graphs 0 i g h
  simpa using this.2

theorem take_set_self : ∀ (l : List GraphData) (g : Nat) (x : GraphData),
    (l.set g x).take g = l.take g := by
  intro l
  induction l with
  | nil => intro g x; rfl
  | cons a l ih =>
    intro g x
    cases g with
    | zero => rfl
    | succ g => simp [List.set, ih]

theorem get?_set_self : ∀ (l : List GraphData) (g : Nat) (x ch : GraphData),
    l.get? g = some ch → (l.set g x).get? g = some x := by
  intro l
  induction l with
  | nil => intro g x ch h; simp at h
  | cons a l ih =>
    intro g x ch h
    cases g with
    | zero => rfl
    | succ g =>
      simp only [List.get?_cons_succ] at h
      simpa using ih g x ch h

theorem set_same : ∀ (l : List GraphData) (g : Nat) (ch : GraphData),
    l.get? g = some ch → l.set g ch = l := by
  intro l
  induction l with
  | nil => intro g ch h; simp at h
  | cons a l ih =>
    intro g ch h
    cases g with
    | zero =>
      simp only [List.get?_cons_zero, Option.some.injEq] at h
      subst h
      rfl
    | succ g =>
      simp only [List.get?_cons_succ] at h
      simp [List.set, ih g ch h]

/-! ## Entry callbacks -/

theorem setVisible_graphs (g : Nat) (b : Bool) (s t : State) (ch : GraphData)
    (hget : s.graphs.get? g = some ch) (hact : ch.active = true)
    (h : setVisible g b s = some t) :
    t.graphs = s.graphs.set g { ch with visible := b } ∧ t.gui = s.gui := by
  unfold setVisible at h
  rw [hget] at h
  dsimp only at h
  by_cases hv : ch.visible = b
  · rw [if_pos (Or.inr hv)] at h
    simp only [Option.some.injEq] at h
    subst h
    have hch : ({ ch with visible := b } : GraphData) = ch := by
      cases ch
      simp only at hv
      subst hv
      rfl
    rw [hch, set_same _ _ _ hget]
    exact ⟨rfl, rfl⟩
  · rw [if_neg (by simp [hact, hv])] at h
    obtain ⟨hg, hgui, _⟩ := handleGraphVisibilityChange_frame _ _ _ h
    exact ⟨hg, hgui⟩

theorem setVisible_total (g i : Nat) (b : Bool) (s : State) (ch : GraphData)
    (hget : s.graphs.get? g = some ch) (hact : ch.active = true)
    (hcount : activeCount (s.graphs.take g) = i)
    (h1 : i < s.view.graphShowHide.length) (h2 : i < s.view.graphBringToFront.length) :
    ∃ t, setVisible g b s = some t := by
  unfold setVisible
  rw [hget]
  dsimp only
  by_cases hv : ch.visible = b
  · rw [if_pos (Or.inr hv)]
    exact ⟨s, rfl⟩
  · rw [if_neg (by simp [hact, hv])]
    have hconv : convertToActiveGraphIndex
        (emit (Signal.visibilityChanged g)
          { s with graphs := s.graphs.set g { ch with visible := b } }).graphs g = some i := by
      show convertToActiveGraphIndex (s.graphs.set g { ch with visible := b }) g = some i
      unfold convertToActiveGraphIndex graphIsActive
      rw [get?_set_self _ _ _ _ hget, take_set_self, hcount]
      simp [hact]
    obtain ⟨sh, bf, heq, _, _⟩ := handleGraphVisibilityChange_active g i _ hconv h1 h2
    exact ⟨_, heq⟩

theorem updateBringToFrontGrapMenu_frame (s t : State)
    (h : updateBringToFrontGrapMenu s = some t) :
    t.gui = s.gui ∧ t.graphs = s.graphs := by
  unfold updateBringToFrontGrapMenu at h
  split at h
  · split at h
    · simp only [Option.some.injEq] at h
      subst h
      exact ⟨rfl, rfl⟩
    · simp at h
  · simp only [Option.some.injEq] at h
    subst h
    exact ⟨rfl, rfl⟩

theorem setFrontGraph_some (i : Nat) (s t : State) (h : setFrontGraph i s = some t) :
    t.gui.frontGraph = i ∧ t.graphs = s.graphs := by
  unfold setFrontGraph at h
  split at h
  · rename_i hsame
    simp only [Option.some.injEq] at h
    subst h
    exact ⟨hsame, rfl⟩
  · obtain ⟨hg, hgr⟩ := updateBringToFrontGrapMenu_frame _ _ h
    exact ⟨by rw [hg]; rfl, by rw [hgr]; rfl⟩

theorem setFrontGraph_total (i : Nat) (s : State) (h : i < s.view.graphBringToFront.length) :
    ∃ t, setFrontGraph i s = some t := by
  unfold setFrontGraph
  split
  · exact ⟨s, rfl⟩
  · unfold updateBringToFrontGrapMenu
    have hpos : (emit Signal.frontGraphChanged
        { s with gui := { s.gui with frontGraph := i } }).view.graphBringToFront.length > 0 := by
      show s.view.graphBringToFront.length > 0
      omega
    have hlt : (emit Signal.frontGraphChanged
        { s with gui := { s.gui with frontGraph := i } }).gui.frontGraph
        < (emit Signal.frontGraphChanged
        { s with gui := { s.gui with frontGraph := i } }).view.graphBringToFront.length := h
    rw [if_pos hpos, if_pos hlt]
    exact ⟨_, rfl⟩

/-- Claim C11, amended: for every registry of at most 65536 channels (every
position fits the 16-bit index list) with active channels `a_0 .. a_(n-1)` in
insertion order, after `rebuildGraphMenu` the show/hide menu and the
bring-to-front menu hold exactly `n` entries each; entry `i` carries position
data `i` and the label and colour of `a_i`, and the show/hide entry is checked
iff `a_i` is visible.  The positions are `0 .. n-1` in order, and nothing of the
menus before the rebuild is left. -/
theorem rebuildGraphMenu_entries_by_position (s : State) (hshort : s.graphs.length ≤ 2 ^ 16) :
    (rebuildGraphMenu s).view.graphShowHide
      = (s.graphs.filter (fun g => g.active)).enum.map (fun q => showHideOf q.1 q.2) ∧
    (rebuildGraphMenu s).view.graphBringToFront
      = (s.graphs.filter (fun g => g.active)).enum.map (fun q => bringToFrontOf q.1 q.2) ∧
    (rebuildGraphMenu s).view.graphShowHide.length = activeCount s.graphs ∧
    (rebuildGraphMenu s).view.graphBringToFront.length = activeCount s.graphs ∧
    (∀ i g, (s.graphs.filter (fun g => g.active)).get? i = some g →
      (rebuildGraphMenu s).view.graphShowHide.get? i = some (showHideOf i g) ∧
      (rebuildGraphMenu s).view.graphBringToFront.get? i = some (bringToFrontOf i g)) ∧
    (rebuildGraphMenu s).view.graphShowHide.map (fun e => e.data)
      = List.range (activeCount s.graphs) ∧
    (rebuildGraphMenu s).view.graphBringToFront.map (fun e => e.data)
      = List.range (activeCount s.graphs) := by
  obtain ⟨hsh, hbf⟩ := rebuildGraphMenu_entries s hshort
  rw [hsh, hbf]
  refine ⟨rfl, rfl, ?_, ?_, ?_, ?_, ?_⟩
  · simp [activeCount]
  · simp [activeCount]
  · intro i g hg
    rw [List.get?_eq_getElem?] at hg
    simp [List.getElem?_enum, hg]
  · rw [List.map_map]
    exact List.enum_map_fst _
  · rw [List.map_map]
    exact List.enum_map_fst _

/-- Witness of the amended claim C11 on the registry with two active channels
around an inactive one. -/
theorem rebuildGraphMenu_entries_by_position_witness :
    registryThree.graphs.length ≤ 2 ^ 16 ∧
    (rebuildGraphMenu registryThree).view.graphShowHide
      = [{ data := 0, text := "A", icon := 10, checkable := true, checked := true },
         { data := 1, text := "C", icon := 30, checkable := true, checked := false }] ∧
    (rebuildGraphMenu registryThree).view.graphBringToFront.length = 2 :=
  ⟨by decide,
   (rebuildGraphMenu_entries_by_position registryThree (by decide)).1.trans (by decide),
   (rebuildGraphMenu_entries_by_position registryThree (by decide)).2.2.2.1.trans (by decide)⟩

/-- Claim C14: the label, colour and visibility change handlers update in place.
For an inactive channel each handler returns the state as it was, so both menus
are unchanged.  For an active channel with active index `a` whose entry exists
in both menus, each handler returns a state that differs from the old one in
the two menus only (the visibility handler also recomputes the enabled flag of
the bring-to-front menu): in each menu the entry at position `a` gets the new
text, icon, or checked and visible state, and every entry at another position
is unchanged. -/
theorem handlers_update_in_place (graphIdx : Nat) (s : State) :
    (graphIsActive s.graphs graphIdx = false →
      handleGraphLabelChange graphIdx s = some s ∧
      handleGraphColorChange graphIdx s = some s ∧
      handleGraphVisibilityChange graphIdx s = some s) ∧
    (∀ a, convertToActiveGraphIndex s.graphs graphIdx = some a →
      a < s.view.graphShowHide.length → a < s.view.graphBringToFront.length →
      (∃ sh bf,
        handleGraphLabelChange graphIdx s
          = some { s with view := { s.view with graphShowHide := sh, graphBringToFront := bf } } ∧
        OnlyEntryChanged a (fun e => { e with text := graphLabel s.graphs graphIdx })
          s.view.graphShowHide sh ∧
        OnlyEntryChanged a (fun e => { e with text := graphLabel s.graphs graphIdx })
          s.view.graphBringToFront bf) ∧
      (∃ sh bf,
        handleGraphColorChange graphIdx s
          = some { s with view := { s.view with graphShowHide := sh, graphBringToFront := bf } } ∧
        OnlyEntryChanged a (fun e => { e with icon := graphColor s.graphs graphIdx })
          s.view.graphShowHide sh ∧
        OnlyEntryChanged a (fun e => { e with icon := graphColor s.graphs graphIdx })
          s.view.graphBringToFront bf) ∧
      (∃ sh bf,
        handleGraphVisibilityChange graphIdx s
          = some { s with view := { s.view with
              graphShowHide := sh
              graphBringToFront := bf
              graphBringToFrontEnabled := bf.any (fun e => e.visible) } } ∧
        OnlyEntryChanged a (fun e => { e with checked := graphIsVisible s.graphs graphIdx })
          s.view.graphShowHide sh ∧
        OnlyEntryChanged a (fun e => { e with visible := graphIsVisible s.graphs graphIdx })
          s.view.graphBringToFront bf)) := by
  constructor
  · intro h
    exact ⟨handleGraphLabelChange_inactive graphIdx s h,
      handleGraphColorChange_inactive graphIdx s h,
      handleGraphVisibilityChange_inactive graphIdx s h⟩
  · intro a hconv h1 h2
    exact ⟨handleGraphLabelChange_active graphIdx a s hconv h1 h2,
      handleGraphColorChange_active graphIdx a s hconv h1 h2,
      handleGraphVisibilityChange_active graphIdx a s hconv h1 h2⟩

/-- Witness of claim C14 on the rebuilt menus of the registry with three
channels: a label change of the inactive channel at position 1 changes nothing,
a visibility change of the active channel at position 2 (active index 1) is
handled and leaves the entry at position 0 as it was. -/
theorem handlers_update_in_place_witness :
    graphIsActive (rebuildGraphMenu registryThree).graphs 1 = false ∧
    handleGraphLabelChange 1 (rebuildGraphMenu registryThree)
      = some (rebuildGraphMenu registryThree) ∧
    convertToActiveGraphIndex (rebuildGraphMenu registryThree).graphs 2 = some 1 ∧
    (∃ sh bf,
      handleGraphVisibilityChange 2 (rebuildGraphMenu registryThree)
        = some { rebuildGraphMenu registryThree with
            view := { (rebuildGraphMenu registryThree).view with
              graphShowHide := sh
              graphBringToFront := bf
              graphBringToFrontEnabled := bf.any (fun e => e.visible) } } ∧
      OnlyEntryChanged 1
        (fun e => { e with checked := graphIsVisible (rebuildGraphMenu registryThree).graphs 2 })
        (rebuildGraphMenu registryThree).view.graphShowHide sh ∧
      OnlyEntryChanged 1
        (fun e => { e with visible := graphIsVisible (rebuildGraphMenu registryThree).graphs 2 })
        (rebuildGraphMenu registryThree).view.graphBringToFront bf) :=
  ⟨by decide,
   ((handlers_update_in_place 1 (rebuildGraphMenu registryThree)).1 (by decide)).1,
   by decide,
   ((handlers_update_in_place 2 (rebuildGraphMenu registryThree)).2 1 (by decide)
     (by decide) (by decide)).2.2⟩

/-- Claim C17: the entry callbacks address the channel at the position the entry
carries.  Toggling the show/hide entry with position `i` to `b` is the call
`setVisible(convertToGraphIndex(i), b)`: the channel addressed is active and has
exactly `i` active channels in front of it, and afterwards the registry differs
from the old one at that position only, where the visible flag is `b`; the call
returns when the entry position exists in both menus.  Toggling the
bring-to-front entry with position `i` to true is the call `setFrontGraph(i)`,
after which the front position is `i`; toggling it to false changes nothing. -/
theorem menu_callbacks (sender : MenuEntry) (b : Bool) (s : State) :
    (∀ g, convertToGraphIndex s.graphs sender.data = some g →
      ∃ ch, s.graphs.get? g = some ch ∧ ch.active = true ∧
        activeCount (s.graphs.take g) = sender.data ∧
        menuShowHideGraphClicked sender b s = setVisible g b s ∧
        (∀ t, menuShowHideGraphClicked sender b s = some t →
          t.graphs = s.graphs.set g { ch with visible := b } ∧ t.gui = s.gui) ∧
        (sender.data < s.view.graphShowHide.length →
          sender.data < s.view.graphBringToFront.length →
          ∃ t, menuShowHideGraphClicked sender b s = some t)) ∧
    menuBringToFrontGraphClicked sender true s = setFrontGraph sender.data s ∧
    (∀ t, menuBringToFrontGraphClicked sender true s = some t →
      t.gui.frontGraph = sender.data ∧ t.graphs = s.graphs) ∧
    (sender.data < s.view.graphBringToFront.length →
      ∃ t, menuBringToFrontGraphClicked sender true s = some t) ∧
    menuBringToFrontGraphClicked sender false s = some s := by
  refine ⟨?_, rfl, ?_, ?_, rfl⟩
  · intro g hg
    obtain ⟨hcount, ch, hget, hact⟩ := convertToGraphIndex_spec s.graphs sender.data g hg
    have hcall : menuShowHideGraphClicked sender b s = setVisible g b s := by
      unfold menuShowHideGraphClicked
      rw [hg]
    refine ⟨ch, hget, hact, hcount, hcall, ?_, ?_⟩
    · intro t ht
      rw [hcall] at ht
      exact setVisible_graphs g b s t ch hget hact ht
    · intro h1 h2
      rw [hcall]
      exact setVisible_total g sender.data b s ch hget hact hcount h1 h2
  · intro t ht
    exact setFrontGraph_some sender.data s t ht
  · intro h
    exact setFrontGraph_total sender.data s h

/-- Witness of claim C17 on the rebuilt menus of the registry with three
channels: the show/hide entry with position 1 addresses the channel at position
2, and toggling it on makes that channel visible. -/
theorem menu_callbacks_witness :
    convertToGraphIndex (rebuildGraphMenu registryThree).graphs 1 = some 2 ∧
    (menuShowHideGraphClicked { data := 1 } true (rebuildGraphMenu registryThree)).map
      (fun t => t.graphs.map (fun g => g.visible)) = some [true, true, true] ∧
    (∃ ch, (rebuildGraphMenu registryThree).graphs.get? 2 = some ch ∧ ch.active = true ∧
      activeCount ((rebuildGraphMenu registryThree).graphs.take 2) = 1) := by
  refine ⟨by decide, by decide, ?_⟩
  obtain ⟨ch, h1, h2, h3, _⟩ :=
    (menu_callbacks { data := 1 } true (rebuildGraphMenu registryThree)).1 2 (by decide)
  exact ⟨ch, h1, h2, h3⟩

/-! ## Reachable states are closed under the remaining handlers -/

theorem setCursorValues_phase_comm (b : Bool) (s : State) :
    (setCursorValues b s).gui.guiState = s.gui.guiState ∧
    (setCursorValues b s).commActive = s.commActive := by
  unfold setCursorValues
  split <;> exact ⟨rfl, rfl⟩

theorem handleInput_phase_comm (s : State) (ev : InputEvent) :
    (handleInput s ev).gui.guiState = s.gui.guiState ∧
    (handleInput s ev).commActive = s.commActive := by
  cases ev with
  | keyPress e =>
    show (keyPressEvent e s).gui.guiState = _ ∧ (keyPressEvent e s).commActive = _
    unfold keyPressEvent
    split
    · exact setCursorValues_phase_comm true s
    · exact ⟨rfl, rfl⟩
  | keyRelease e =>
    show (keyReleaseEvent e s).gui.guiState = _ ∧ (keyReleaseEvent e s).commActive = _
    unfold keyReleaseEvent
    split
    · exact setCursorValues_phase_comm false s
    · exact ⟨rfl, rfl⟩
  | focusChanged old now =>
    show (appFocusChanged old now s).gui.guiState = _ ∧ (appFocusChanged old now s).commActive = _
    unfold appFocusChanged
    split
    · exact setCursorValues_phase_comm false s
    · exact ⟨rfl, rfl⟩

theorem reachable_handleInput (s : State) (ev : InputEvent) (h : Reachable s) :
    Reachable (handleInput s ev) :=
  Reachable.collaborator s _ h (handleInput_phase_comm s ev).1 (handleInput_phase_comm s ev).2

theorem reachable_fireTick (s : State) (h : Reachable s) : Reachable (fireTick s) := by
  unfold fireTick
  split
  · exact h
  · exact Reachable.updateRuntime _ (Reachable.collaborator s _ h rfl rfl)

theorem handleGraphVisibilityChange_commActive (graphIdx : Nat) (s t : State)
    (h : handleGraphVisibilityChange graphIdx s = some t) : t.commActive = s.commActive := by
  unfold handleGraphVisibilityChange at h
  split at h
  · split at h
    · simp at h
    · split at h
      · simp at h
      · split at h
        · simp at h
        · simp only [Option.some.injEq] at h
          subst h
          rfl
  · simp only [Option.some.injEq] at h
    subst h
    rfl

theorem reachable_menuShowHideGraphClicked (sender : MenuEntry) (b : Bool) (s t : State)
    (h : Reachable s) (ht : menuShowHideGraphClicked sender b s = some t) : Reachable t := by
  unfold menuShowHideGraphClicked at ht
  split at ht
  · rename_i g _
    unfold setVisible at ht
    split at ht
    · simp only [Option.some.injEq] at ht
      subst ht
      exact h
    · split at ht
      · simp only [Option.some.injEq] at ht
        subst ht
        exact h
      · have hgui := (handleGraphVisibilityChange_frame _ _ _ ht).2.1
        have hc := handleGraphVisibilityChange_commActive _ _ _ ht
        exact Reachable.collaborator s t h (by rw [hgui]; rfl) (by rw [hc]; rfl)
  · simp only [Option.some.injEq] at ht
    subst ht
    exact h

theorem reachable_menuBringToFrontGraphClicked (sender : MenuEntry) (b : Bool) (s t : State)
    (h : Reachable s) (ht : menuBringToFrontGraphClicked sender b s = some t) :
    Reachable t := by
  unfold menuBringToFrontGraphClicked at ht
  split at ht
  · unfold setFrontGraph at ht
    split at ht
    · simp only [Option.some.injEq] at ht
      subst ht
      exact h
    · unfold updateBringToFrontGrapMenu at ht
      split at ht
      · split at ht
        · simp only [Option.some.injEq] at ht
          subst ht
          exact Reachable.collaborator s _ h rfl rfl
        · simp at ht
      · simp only [Option.some.injEq] at ht
        subst ht
        exact Reachable.collaborator s _ h rfl rfl
  · simp only [Option.some.injEq] at ht
    subst ht
    exact h

/-! ## Entry lookups of the change handlers -/

theorem graphIsActive_cons_succ (g : GraphData) (gs : List GraphData) (idx : Nat) :
    graphIsActive (g :: gs) (idx + 1) = graphIsActive gs idx := rfl

theorem convertToActiveGraphIndex_of_active (graphs : List GraphData) (idx : Nat)
    (h : graphIsActive graphs idx = true) :
    convertToActiveGraphIndex graphs idx = some (activeCount (graphs.take idx)) := by
  unfold convertToActiveGraphIndex
  rw [if_pos h]

theorem activeCount_take_lt : ∀ (graphs : List GraphData) (idx : Nat),
    graphIsActive graphs idx = true → activeCount (graphs.take idx) < activeCount graphs := by
  intro graphs
  induction graphs with
  | nil => intro idx h; exact absurd h (by simp [graphIsActive])
  | cons g gs ih =>
    intro idx h
    cases idx with
    | zero =>
      have hg : g.active = true := h
      rw [List.take_zero, activeCount_nil, activeCount_cons, if_pos hg]
      omega
    | succ idx =>
      rw [graphIsActive_cons_succ] at h
      have := ih idx h
      rw [List.take_succ_cons, activeCount_cons, activeCount_cons]
      omega

theorem convertToActiveGraphIndex_lt (graphs : List GraphData) (idx a : Nat)
    (h : convertToActiveGraphIndex graphs idx = some a) : a < activeCount graphs := by
  have hact := graphIsActive_of_convert graphs idx a h
  rw [convertToActiveGraphIndex_of_active graphs idx hact, Option.some.injEq] at h
  rw [← h]
  exact activeCount_take_lt graphs idx hact

theorem rebuildGraphMenu_lengths (s : State) :
    (rebuildGraphMenu s).view.graphShowHide.length = activeCount (rebuildGraphMenu s).graphs ∧
    (rebuildGraphMenu s).view.graphBringToFront.length
      = activeCount (rebuildGraphMenu s).graphs := by
  have hg : (rebuildGraphMenu s).graphs = s.graphs := graphs_of_core (core_rebuildGraphMenu s)
  rw [(rebuildGraphMenu_menus s).1, (rebuildGraphMenu_menus s).2, hg]
  simp [activeGraphIndexList_length]

/-- With menus that were not rebuilt after the channels were added, the lookup of
an active channel is out of range. -/
theorem handleGraphLabelChange_stale_menus :
    graphIsActive registryThree.graphs 2 = true ∧
    handleGraphLabelChange 2 registryThree = none := by
  decide

/-- Claim C21: the entry lookups of the three change handlers stay within
bounds.  When both menus hold exactly `activeCount` entries, which is what
`rebuildGraphMenu` leaves behind, and `convertToActiveGraphIndex` answers below
`activeCount` for every active channel, then for an active channel the index
looked up is below the length of both menus and each of the three handlers
returns a state: the out-of-range outcome does not occur.  For an inactive
channel each handler returns the state as it was whatever the two menus hold,
so no entry is looked up. -/
theorem handlers_lookup_in_bounds (graphIdx : Nat) (s : State) :
    (s.view.graphShowHide.length = activeCount s.graphs →
      s.view.graphBringToFront.length = activeCount s.graphs →
      (∀ g a, graphIsActive s.graphs g = true →
        convertToActiveGraphIndex s.graphs g = some a → a < activeCount s.graphs) →
      graphIsActive s.graphs graphIdx = true →
      ∃ a, convertToActiveGraphIndex s.graphs graphIdx = some a ∧
        a < s.view.graphShowHide.length ∧ a < s.view.graphBringToFront.length ∧
        (∃ t, handleGraphVisibilityChange graphIdx s = some t) ∧
        (∃ t, handleGraphColorChange graphIdx s = some t) ∧
        (∃ t, handleGraphLabelChange graphIdx s = some t)) ∧
    (graphIsActive s.graphs graphIdx = false →
      ∀ sh bf : List MenuEntry,
        handleGraphVisibilityChange graphIdx
            { s with view := { s.view with graphShowHide := sh, graphBringToFront := bf } }
          = some { s with view := { s.view with graphShowHide := sh, graphBringToFront := bf } } ∧
        handleGraphColorChange graphIdx
            { s with view := { s.view with graphShowHide := sh, graphBringToFront := bf } }
          = some { s with view := { s.view with graphShowHide := sh, graphBringToFront := bf } } ∧
        handleGraphLabelChange graphIdx
            { s with view := { s.view with graphShowHide := sh, graphBringToFront := bf } }
          = some { s with view := { s.view with graphShowHide := sh, graphBringToFront := bf } }) ∧
    ((rebuildGraphMenu s).view.graphShowHide.length = activeCount (rebuildGraphMenu s).graphs ∧
      (rebuildGraphMenu s).view.graphBringToFront.length
        = activeCount (rebuildGraphMenu s).graphs) := by
  refine ⟨?_, ?_, rebuildGraphMenu_lengths s⟩
  · intro hsh hbf hconv hact
    have hc := convertToActiveGraphIndex_of_active s.graphs graphIdx hact
    have hlt := hconv graphIdx _ hact hc
    have h1 : activeCount (s.graphs.take graphIdx) < s.view.graphShowHide.length := by
      rw [hsh]; exact hlt
    have h2 : activeCount (s.graphs.take graphIdx) < s.view.graphBringToFront.length := by
      rw [hbf]; exact hlt
    refine ⟨_, hc, h1, h2, ?_, ?_, ?_⟩
    · obtain ⟨sh, bf, h, _⟩ := handleGraphVisibilityChange_active graphIdx _ s hc h1 h2
      exact ⟨_, h⟩
    · obtain ⟨sh, bf, h, _⟩ := handleGraphColorChange_active graphIdx _ s hc h1 h2
      exact ⟨_, h⟩
    · obtain ⟨sh, bf, h, _⟩ := handleGraphLabelChange_active graphIdx _ s hc h1 h2
      exact ⟨_, h⟩
  · intro hact sh bf
    exact ⟨handleGraphVisibilityChange_inactive graphIdx _ hact,
      handleGraphColorChange_inactive graphIdx _ hact,
      handleGraphLabelChange_inactive graphIdx _ hact⟩

/-- Witness of claim C21 on the rebuilt menus of the registry with three
channels: both menus hold the two entries of the two active channels, the active
channel at position 2 is looked up at index 1 and all three handlers return; for
the inactive channel at position 1 the handlers return even with both menus
emptied. -/
theorem handlers_lookup_in_bounds_witness :
    (rebuildGraphMenu registryThree).view.graphShowHide.length = 2 ∧
    activeCount (rebuildGraphMenu registryThree).graphs = 2 ∧
    graphIsActive (rebuildGraphMenu registryThree).graphs 2 = true ∧
    (∃ a, convertToActiveGraphIndex (rebuildGraphMenu registryThree).graphs 2 = some a ∧
      a < (rebuildGraphMenu registryThree).view.graphShowHide.length ∧
      a < (rebuildGraphMenu registryThree).view.graphBringToFront.length ∧
      (∃ t, handleGraphVisibilityChange 2 (rebuildGraphMenu registryThree) = some t) ∧
      (∃ t, handleGraphColorChange 2 (rebuildGraphMenu registryThree) = some t) ∧
      (∃ t, handleGraphLabelChange 2 (rebuildGraphMenu registryThree) = some t)) ∧
    graphIsActive (rebuildGraphMenu registryThree).graphs 1 = false ∧
    handleGraphLabelChange 1
        { rebuildGraphMenu registryThree with
          view := { (rebuildGraphMenu registryThree).view with
            graphShowHide := [], graphBringToFront := [] } }
      = some { rebuildGraphMenu registryThree with
          view := { (rebuildGraphMenu registryThree).view with
            graphShowHide := [], graphBringToFront := [] } } :=
  ⟨by decide, by decide, by decide,
   (handlers_lookup_in_bounds 2 (rebuildGraphMenu registryThree)).1 (by decide) (by decide)
     (fun g a _ h => convertToActiveGraphIndex_lt _ g a h) (by decide),
   by decide,
   ((handlers_lookup_in_bounds 1 (rebuildGraphMenu registryThree)).2.1 (by decide) [] []).2.2⟩

/-! ## Stop outside Running -/

end ModbusScope
